import Mathlib

/-!
# Martinez Terapias API: the appointment booking engine

A shallow embedding of the booking path of the API:

* `internal/core/domain`: the entities `Agendamento`, `Servico`, `Usuario`, `Cliente`;
* `internal/adapters/secondary`: the GORM repositories, read as functions on an in-memory
  relational state `Banco` (one list of rows per table, plus the log of statements issued);
* `internal/core/services/agendamento_service.go`: `Create`, `UpdateStatus`,
  `SolicitarReagendamento`, `GetByID`;
* `internal/middleware/auth.go`, `internal/adapters/primary/agendamento_handler.go` and the
  route groups of `cmd/api/main.go`: `RequirePerfil`, `JWTAuthMiddleware` and the handlers
  `Create`, `UpdateStatus`, `SolicitarReagendamento`;
* `usuarioService.GetAgendamentosCliente`, `clienteService.Create`, `AuthHandler.RegistrarAdmin`
  and `ServicoHandler.Create`.

Conventions of the embedding.

* A `uuid.UUID` is the natural number given by its 16 bytes read big-endian; `uuid.Nil` is `0`.
* A `time.Time` is an instant, an integer count of nanoseconds since the epoch, together with
  the offset of its location; `time.Duration` is a 64-bit signed count of nanoseconds, so
  `time.Duration(n) * time.Minute` wraps.
* The database is SQLite (`gorm.Open(sqlite.Open(...))`): a `time.Time` is bound and stored as
  the text `Time.Format("2006-01-02 15:04:05.999999999-07:00")`, and SQLite compares such texts
  byte by byte.
* The `float64` amounts (`Valor`, `ValorCobrado`) are only compared with zero and copied by
  the code modelled here; they are kept as exact integers, in whole currency units.
* A Go result `(*T, error)` is a pair of options, so that `err != nil` and `x == nil` are
  tested separately as the service does.
* A method with a pointer argument that it overwrites returns the final value of the pointee.
-/

namespace MartinezTerapias

set_option maxRecDepth 4096

/-! ## Basic types -/

/-- A `uuid.UUID`: sixteen bytes, read as one big-endian number. -/
abbrev UUID := Nat

/-- The constant `uuid.Nil` (all bytes zero). -/
def uuidNil : UUID := 0

/-- The function `uuid.New` of `github.com/google/uuid` on the sixteen random bytes `r`: byte 6
becomes `(b6 & 0x0f) | 0x40` (version 4) and byte 8 becomes `(b8 & 0x3f) | 0x80` (variant). -/
def uuidNew (r : Nat) : UUID :=
  let x := r % 2 ^ 128
  let b6 := (x / 2 ^ 72) % 256
  let b8 := (x / 2 ^ 56) % 256
  (x - b6 * 2 ^ 72 - b8 * 2 ^ 56) + (b6 % 16 + 64) * 2 ^ 72 + (b8 % 64 + 128) * 2 ^ 56

/-- A `time.Time`: the instant, in nanoseconds since 1970-01-01T00:00:00Z, and the offset of
its location east of UTC, in seconds. -/
structure Time where
  nanos : Int
  offset : Int
  deriving DecidableEq, Repr

/-- Two's-complement wrap of an integer into the range of `int64`. -/
def wrapInt64 (x : Int) : Int := (x + 2 ^ 63) % 2 ^ 64 - 2 ^ 63

/-- The constant `time.Minute`, in nanoseconds. -/
def timeMinute : Int := 60000000000

/-- The expression `time.Duration(minutos) * time.Minute`: an `int64` product. -/
def duracao (minutos : Int) : Int := wrapInt64 (wrapInt64 minutos * timeMinute)

/-- The method `Time.Add` of the standard library: the instant moves, the location stays. -/
def Time.Add (t : Time) (d : Int) : Time := { t with nanos := t.nanos + d }

/-- The function `appendInt` of package `time`: the decimal digits of `x`, padded with zeros to
`largura` digits, after a minus sign when `x` is negative. -/
def appendInt (x : Int) (largura : Nat) : List Char :=
  let digitos := Nat.toDigits 10 x.natAbs
  let preenchidos := List.replicate (largura - digitos.length) '0' ++ digitos
  if x < 0 then '-' :: preenchidos else preenchidos

/-- The civil date (year, month, day) of the day `dias` days after 1970-01-01, in the proleptic
Gregorian calendar of package `time`. -/
def dataCivil (dias : Int) : Int × Int × Int :=
  let z := dias + 719468
  let era := z / 146097
  let doe := z % 146097
  let yoe := (doe - doe / 1460 + doe / 36524 - doe / 146096) / 365
  let doy := doe - (365 * yoe + yoe / 4 - yoe / 100)
  let mp := (5 * doy + 2) / 153
  let d := doy - (153 * mp + 2) / 5 + 1
  let m := if mp < 10 then mp + 3 else mp - 9
  let y := yoe + era * 400
  (if m ≤ 2 then y + 1 else y, m, d)

/-- The fraction of a second in layout `.999999999`: nothing for zero, else a dot and the nine
digits without the trailing zeros. -/
def appendNano (nanosec : Int) : List Char :=
  if nanosec = 0 then []
  else '.' :: ((appendInt nanosec 9).reverse.dropWhile (fun c => c == '0')).reverse

/-- The zone in layout `-07:00`: the offset in whole minutes (truncated toward zero), as sign,
two digits of hours and two digits of minutes. -/
def appendZona (offset : Int) : List Char :=
  let zona := offset.natAbs / 60
  (if offset < 0 ∧ zona ≠ 0 then '-' else '+') ::
    (appendInt (zona / 60 : Nat) 2 ++ ':' :: appendInt (zona % 60 : Nat) 2)

/-- The method `Time.Format` of the standard library for the layout
`2006-01-02 15:04:05.999999999-07:00`, the first of `SQLiteTimestampFormats`: the clock reading
in the location of the time, followed by the offset. -/
def Time.Format (t : Time) : String :=
  let relogio := t.nanos + t.offset * 1000000000
  let seg := relogio / 1000000000
  let data := dataCivil (seg / 86400)
  let s := seg % 86400
  ⟨appendInt data.1 4 ++ '-' :: appendInt data.2.1 2 ++ '-' :: appendInt data.2.2 2 ++
    ' ' :: appendInt (s / 3600) 2 ++ ':' :: appendInt (s % 3600 / 60) 2 ++
    ':' :: appendInt (s % 60) 2 ++ appendNano (relogio % 1000000000) ++ appendZona t.offset⟩

/-! ## Domain entities (`internal/core/domain`) -/

/-- The constant `domain.StatusAgendado`. -/
def StatusAgendado : String := "agendado"
/-- The constant `domain.StatusConfirmado`. -/
def StatusConfirmado : String := "confirmado"
/-- The constant `domain.StatusRealizado`. -/
def StatusRealizado : String := "realizado"
/-- The constant `domain.StatusCancelado`. -/
def StatusCancelado : String := "cancelado"

/-- The constant `domain.PerfilCliente`. -/
def PerfilCliente : String := "cliente"
/-- The constant `domain.PerfilMassoterapeuta`. -/
def PerfilMassoterapeuta : String := "massoterapeuta"
/-- The constant `domain.PerfilAdmin`. -/
def PerfilAdmin : String := "admin"

/-- The struct `domain.Agendamento`; `Status` is a `StatusAgendamento`, a string type. -/
structure Agendamento where
  ID : UUID
  DataHora : Time
  ClienteID : UUID
  ServicoID : UUID
  MassoterapeutaID : UUID
  ValorCobrado : Int
  Status : String
  Observacoes : String
  deriving DecidableEq, Repr

/-- The struct `domain.Servico`. -/
structure Servico where
  ID : UUID
  NomeServico : String
  Descricao : String
  DuracaoMinutos : Int
  Valor : Int
  ImagemURL : String
  deriving DecidableEq, Repr

/-- The struct `domain.Usuario`; `Perfil` is a `TipoPerfil`, a string type. -/
structure Usuario where
  ID : UUID
  NomeCompleto : String
  Email : String
  SenhaHash : String
  Telefone : String
  Perfil : String
  Ativo : Bool
  DataCadastro : Time
  deriving DecidableEq, Repr

/-- The struct `domain.Cliente`. -/
structure Cliente where
  ID : UUID
  NomeCompleto : String
  CPF : String
  Email : String
  Telefone : String
  DataNascimento : Time
  DataCadastro : Time
  Ativo : Bool
  deriving DecidableEq, Repr

/-! ## Persistence (`internal/adapters/secondary`) -/

/-- The struct `AgendamentoModel`: the row of table `agendamentos`. The bookkeeping columns of
the embedded `gorm.Model` are not read by any operation modelled here and are left out. -/
structure AgendamentoModel where
  ID : UUID
  DataHora : Time
  ClienteID : UUID
  ServicoID : UUID
  MassoterapeutaID : UUID
  ValorCobrado : Int
  Status : String
  Observacoes : String
  deriving DecidableEq, Repr

/-- The size declared for column `Status` of `AgendamentoModel` (`gorm:"size:20"`). -/
def AgendamentoModel.tamanhoStatus : Nat := 20

/-- The method `AgendamentoModel.toEntity`. -/
def AgendamentoModel.toEntity (m : AgendamentoModel) : Agendamento :=
  { ID := m.ID
    DataHora := m.DataHora
    ClienteID := m.ClienteID
    ServicoID := m.ServicoID
    MassoterapeutaID := m.MassoterapeutaID
    ValorCobrado := m.ValorCobrado
    Status := m.Status
    Observacoes := m.Observacoes }

/-- The function `agendamentoFromEntity`. -/
def agendamentoFromEntity (entity : Agendamento) : AgendamentoModel :=
  { ID := entity.ID
    DataHora := entity.DataHora
    ClienteID := entity.ClienteID
    ServicoID := entity.ServicoID
    MassoterapeutaID := entity.MassoterapeutaID
    ValorCobrado := entity.ValorCobrado
    Status := entity.Status
    Observacoes := entity.Observacoes }

/-- An error raised by the database layer under the repositories. -/
inductive ErroGorm where
  /-- The value `gorm.ErrRecordNotFound`, returned by `First` on an empty result. -/
  | recordNotFound
  /-- A primary-key violation reported by an `INSERT`. -/
  | uniqueConstraint
  deriving DecidableEq, Repr

/-- An error value as returned by a repository method. -/
inductive ErroRepo where
  /-- The database error, returned as it is (`return nil, err`). -/
  | gorm (e : ErroGorm)
  /-- The value `fmt.Errorf("erro ao criar agendamento: %w", err)`. -/
  | erroAoCriarAgendamento (e : ErroGorm)
  /-- The value `fmt.Errorf("erro ao atualizar agendamento: %w", err)`. -/
  | erroAoAtualizarAgendamento (e : ErroGorm)
  /-- The value `fmt.Errorf("erro ao atualizar status do agendamento: %w", err)`. -/
  | erroAoAtualizarStatus (e : ErroGorm)
  deriving DecidableEq, Repr

/-- A statement issued against the database. -/
inductive Consulta where
  | selectCliente (id : UUID)
  | selectServico (id : UUID)
  | selectUsuario (id : UUID)
  | selectAgendamento (id : UUID)
  | selectAgendamentosPeriodo (dataInicio dataFim : Time)
  | selectAgendamentosCliente (clienteID : UUID)
  | insertAgendamento (m : AgendamentoModel)
  | saveAgendamento (m : AgendamentoModel)
  | updateStatusAgendamento (id : UUID) (status : String)
  deriving DecidableEq, Repr

/-- Whether a statement writes to table `agendamentos`. -/
def Consulta.escreve : Consulta → Bool
  | .insertAgendamento _ => true
  | .saveAgendamento _ => true
  | .updateStatusAgendamento _ _ => true
  | _ => false

/-- The database behind `*gorm.DB`: the rows of each table, in insertion order, and the
statements issued so far (most recent last). No row is soft-deleted, `Delete` being outside the
operations modelled. The rows of `clientes`, `servicos` and `usuarios` are kept as the entities
their repositories return for them. -/
structure Banco where
  clientes : List Cliente
  servicos : List Servico
  usuarios : List Usuario
  agendamentos : List AgendamentoModel
  log : List Consulta
  deriving DecidableEq, Repr

/-- Appends a statement to the log. -/
def Banco.registra (b : Banco) (q : Consulta) : Banco :=
  { b with log := b.log ++ [q] }

/-- The method `clienteRepository.FindByID`: `Where("id = ?", id).First(&model)`. -/
def clienteRepository.FindByID (b : Banco) (id : UUID) :
    Banco × Option Cliente × Option ErroRepo :=
  match b.clientes.find? (fun c => c.ID == id) with
  | some c => (b.registra (.selectCliente id), some c, none)
  | none => (b.registra (.selectCliente id), none, some (.gorm .recordNotFound))

/-- The method `servicoRepository.FindByID`: `Where("id = ?", id).First(&model)`. -/
def servicoRepository.FindByID (b : Banco) (id : UUID) :
    Banco × Option Servico × Option ErroRepo :=
  match b.servicos.find? (fun s => s.ID == id) with
  | some s => (b.registra (.selectServico id), some s, none)
  | none => (b.registra (.selectServico id), none, some (.gorm .recordNotFound))

/-- The method `usuarioRepository.FindByID`: `Where("id = ?", id).First(&model)`. -/
def usuarioRepository.FindByID (b : Banco) (id : UUID) :
    Banco × Option Usuario × Option ErroRepo :=
  match b.usuarios.find? (fun u => u.ID == id) with
  | some u => (b.registra (.selectUsuario id), some u, none)
  | none => (b.registra (.selectUsuario id), none, some (.gorm .recordNotFound))

/-- The method `agendamentoRepository.FindByID`: `Where("id = ?", id).First(&model)`, then
`toEntity`. -/
def agendamentoRepository.FindByID (b : Banco) (id : UUID) :
    Banco × Option Agendamento × Option ErroRepo :=
  match b.agendamentos.find? (fun m => m.ID == id) with
  | some m => (b.registra (.selectAgendamento id), some m.toEntity, none)
  | none => (b.registra (.selectAgendamento id), none, some (.gorm .recordNotFound))

/-- The order in which SQLite puts two stored texts (collation `BINARY`: byte by byte, a proper
prefix first); the texts of times hold ASCII characters only. -/
def textoMenorOuIgual (a b : String) : Bool := decide (a.data ≤ b.data)

/-- The condition `data_hora BETWEEN ? AND ?` on a row; `BETWEEN` includes both bounds. The two
arguments are bound, and the column was stored, as the text of `Time.Format`, so the comparison
is the one of the texts. -/
def noPeriodo (dataInicio dataFim : Time) (m : AgendamentoModel) : Bool :=
  textoMenorOuIgual dataInicio.Format m.DataHora.Format &&
    textoMenorOuIgual m.DataHora.Format dataFim.Format

/-- The method `agendamentoRepository.FindByPeriodo`:
`Where("data_hora BETWEEN ? AND ?", dataInicio, dataFim).Find(&models)`, each row through
`toEntity`. -/
def agendamentoRepository.FindByPeriodo (b : Banco) (dataInicio dataFim : Time) :
    Banco × List Agendamento × Option ErroRepo :=
  (b.registra (.selectAgendamentosPeriodo dataInicio dataFim),
   (b.agendamentos.filter (noPeriodo dataInicio dataFim)).map AgendamentoModel.toEntity,
   none)

/-- The method `agendamentoRepository.Create`: `db.Create(model)` inserts the row unless its
primary key is taken; on success the entity is overwritten with `model.toEntity()`. -/
def agendamentoRepository.Create (b : Banco) (agendamento : Agendamento) :
    Banco × Agendamento × Option ErroRepo :=
  let model := agendamentoFromEntity agendamento
  let b1 := b.registra (.insertAgendamento model)
  if b.agendamentos.any (fun m => m.ID == model.ID) then
    (b1, agendamento, some (.erroAoCriarAgendamento .uniqueConstraint))
  else
    ({ b1 with agendamentos := b.agendamentos ++ [model] }, model.toEntity, none)

/-- The method `agendamentoRepository.Update`: `db.Save(model)`. With a zero primary key `Save`
inserts; otherwise it rewrites every column of the row with that key, and inserts the row when
there is none. On success the entity is overwritten with `model.toEntity()`. -/
def agendamentoRepository.Update (b : Banco) (agendamento : Agendamento) :
    Banco × Agendamento × Option ErroRepo :=
  let model := agendamentoFromEntity agendamento
  let b1 := b.registra (.saveAgendamento model)
  if model.ID = uuidNil then
    if b.agendamentos.any (fun m => m.ID == model.ID) then
      (b1, agendamento, some (.erroAoAtualizarAgendamento .uniqueConstraint))
    else
      ({ b1 with agendamentos := b.agendamentos ++ [model] }, model.toEntity, none)
  else if b.agendamentos.any (fun m => m.ID == model.ID) then
    ({ b1 with agendamentos := b.agendamentos.map (fun m => if m.ID = model.ID then model else m) },
     model.toEntity, none)
  else
    ({ b1 with agendamentos := b.agendamentos ++ [model] }, model.toEntity, none)

/-- The method `agendamentoRepository.UpdateStatus`:
`Model(&AgendamentoModel{}).Where("id = ?", id).Update("status", string(status))`. A statement
that matches no row is not an error. -/
def agendamentoRepository.UpdateStatus (b : Banco) (id : UUID) (status : String) :
    Banco × Option ErroRepo :=
  ({ b.registra (.updateStatusAgendamento id status) with
      agendamentos := b.agendamentos.map (fun m => if m.ID = id then { m with Status := status } else m) },
   none)

/-- The method `agendamentoRepository.FindByClienteID`:
`Where("cliente_id = ?", clienteID).Find(&models)`, each row through `toEntity`. -/
def agendamentoRepository.FindByClienteID (b : Banco) (clienteID : UUID) :
    Banco × List Agendamento × Option ErroRepo :=
  (b.registra (.selectAgendamentosCliente clienteID),
   (b.agendamentos.filter (fun m => m.ClienteID == clienteID)).map AgendamentoModel.toEntity,
   none)

/-! ## The appointment service (`internal/core/services/agendamento_service.go`) -/

/-- An error value as returned by a method of `agendamentoService`. The wrapped cause is the
argument of the verb `%w`; it is `none` where the code formats a nil error. -/
inductive Erro where
  /-- A repository error returned as it is (`return err`). -/
  | repo (e : ErroRepo)
  /-- The value `fmt.Errorf("cliente não encontrado: %w", err)`. -/
  | clienteNaoEncontrado (causa : Option ErroRepo)
  /-- The value `fmt.Errorf("serviço não encontrado: %w", err)`. -/
  | servicoNaoEncontrado (causa : Option ErroRepo)
  /-- The value `fmt.Errorf("massoterapeuta não encontrado: %w", err)`. -/
  | massoterapeutaNaoEncontrado (causa : Option ErroRepo)
  /-- The value `fmt.Errorf("horário já ocupado para este massoterapeuta")`. -/
  | horarioOcupado
  /-- The value `fmt.Errorf("agendamento não encontrado: %w", err)`. -/
  | agendamentoNaoEncontrado (causa : Option ErroRepo)
  /-- The value `fmt.Errorf("não autorizado a reagendar este agendamento")`. -/
  | naoAutorizado
  /-- The value `fmt.Errorf("erro ao atualizar status do agendamento: %w", err)`. -/
  | erroAoAtualizarStatus (causa : Option ErroRepo)
  /-- A nil pointer dereference (a run-time panic). -/
  | nilPointer
  deriving DecidableEq, Repr

/-- The text of `err.Error()` for a database error. -/
def ErroGorm.mensagem : ErroGorm → String
  | .recordNotFound => "record not found"
  | .uniqueConstraint => "UNIQUE constraint failed: agendamentos.id"

/-- The text of `err.Error()` for a repository error. -/
def ErroRepo.mensagem : ErroRepo → String
  | .gorm e => e.mensagem
  | .erroAoCriarAgendamento e => "erro ao criar agendamento: " ++ e.mensagem
  | .erroAoAtualizarAgendamento e => "erro ao atualizar agendamento: " ++ e.mensagem
  | .erroAoAtualizarStatus e => "erro ao atualizar status do agendamento: " ++ e.mensagem

/-- What the verb `%w` prints for an error operand: its text, or `%!w(<nil>)` for nil. -/
def causaMensagem : Option ErroRepo → String
  | some e => e.mensagem
  | none => "%!w(<nil>)"

/-- The constant text with which the format string of the error starts: the part of
`err.Error()` that does not depend on the wrapped cause. -/
def Erro.cabecalho : Erro → String
  | .repo e => e.mensagem
  | .clienteNaoEncontrado _ => "cliente não encontrado"
  | .servicoNaoEncontrado _ => "serviço não encontrado"
  | .massoterapeutaNaoEncontrado _ => "massoterapeuta não encontrado"
  | .horarioOcupado => "horário já ocupado para este massoterapeuta"
  | .agendamentoNaoEncontrado _ => "agendamento não encontrado"
  | .naoAutorizado => "não autorizado a reagendar este agendamento"
  | .erroAoAtualizarStatus _ => "erro ao atualizar status do agendamento"
  | .nilPointer => "runtime error: invalid memory address or nil pointer dereference"

/-- The text of `err.Error()` for a service error. -/
def Erro.mensagem : Erro → String
  | .repo e => e.mensagem
  | .clienteNaoEncontrado c => "cliente não encontrado: " ++ causaMensagem c
  | .servicoNaoEncontrado c => "serviço não encontrado: " ++ causaMensagem c
  | .massoterapeutaNaoEncontrado c => "massoterapeuta não encontrado: " ++ causaMensagem c
  | .horarioOcupado => "horário já ocupado para este massoterapeuta"
  | .agendamentoNaoEncontrado c => "agendamento não encontrado: " ++ causaMensagem c
  | .naoAutorizado => "não autorizado a reagendar este agendamento"
  | .erroAoAtualizarStatus c => "erro ao atualizar status do agendamento: " ++ causaMensagem c
  | .nilPointer => "runtime error: invalid memory address or nil pointer dereference"

/-- The loop of `Create` over `agendamentosNoPeriodo`: whether some element belongs to the
practitioner of the request and is not cancelled. -/
def temConflito (agendamentosNoPeriodo : List Agendamento) (agendamento : Agendamento) : Bool :=
  agendamentosNoPeriodo.any
    (fun a => a.MassoterapeutaID == agendamento.MassoterapeutaID && a.Status != StatusCancelado)

/-- The method `agendamentoService.Create`. The argument `rand` is the randomness read by
`uuid.New()`; the result carries the database after the call, the final value of the request
struct (which the method fills in place) and the returned error. -/
def agendamentoService.Create (b : Banco) (agendamento : Agendamento) (rand : Nat) :
    Banco × Agendamento × Option Erro :=
  -- Verifica se o cliente existe
  match clienteRepository.FindByID b agendamento.ClienteID with
  | (b1, cliente, err) =>
  if err.isSome || cliente.isNone then
    (b1, agendamento, some (.clienteNaoEncontrado err))
  else
  -- Verifica se o serviço existe
  match servicoRepository.FindByID b1 agendamento.ServicoID with
  | (b2, none, err) => (b2, agendamento, some (.servicoNaoEncontrado err))
  | (b2, some _, some err) => (b2, agendamento, some (.servicoNaoEncontrado (some err)))
  | (b2, some servico, none) =>
  -- Verifica se o massoterapeuta existe
  match usuarioRepository.FindByID b2 agendamento.MassoterapeutaID with
  | (b3, none, err) => (b3, agendamento, some (.massoterapeutaNaoEncontrado err))
  | (b3, some _, some err) => (b3, agendamento, some (.massoterapeutaNaoEncontrado (some err)))
  | (b3, some massoterapeuta, none) =>
  if massoterapeuta.Perfil != PerfilMassoterapeuta then
    (b3, agendamento, some (.massoterapeutaNaoEncontrado none))
  else
  -- Verifica disponibilidade de horário
  match agendamentoRepository.FindByPeriodo b3 agendamento.DataHora
      (agendamento.DataHora.Add (duracao servico.DuracaoMinutos)) with
  | (b4, _, some err) => (b4, agendamento, some (.repo err))
  | (b4, agendamentosNoPeriodo, none) =>
  -- Verifica se há conflito de horário para o massoterapeuta
  if temConflito agendamentosNoPeriodo agendamento then
    (b4, agendamento, some .horarioOcupado)
  else
  -- Preenche o valor cobrado a partir do serviço se não for especificado
  let agendamento1 :=
    if agendamento.ValorCobrado = 0 then { agendamento with ValorCobrado := servico.Valor }
    else agendamento
  -- Gera um UUID se não foi fornecido
  let agendamento2 :=
    if agendamento1.ID = uuidNil then { agendamento1 with ID := uuidNew rand } else agendamento1
  -- Define o status como "agendado" por padrão
  let agendamento3 :=
    if agendamento2.Status = "" then { agendamento2 with Status := StatusAgendado }
    else agendamento2
  match agendamentoRepository.Create b4 agendamento3 with
  | (b5, agendamento4, err) => (b5, agendamento4, err.map Erro.repo)

/-- The method `agendamentoService.UpdateStatus`. -/
def agendamentoService.UpdateStatus (b : Banco) (id : UUID) (status : String) :
    Banco × Option Erro :=
  match agendamentoRepository.UpdateStatus b id status with
  | (b1, err) => (b1, err.map Erro.repo)

/-- The method `agendamentoService.SolicitarReagendamento`. -/
def agendamentoService.SolicitarReagendamento (b : Banco) (id : UUID) (clienteID : UUID) :
    Banco × Option Erro :=
  -- Obtém o agendamento
  match agendamentoRepository.FindByID b id with
  | (b1, _, some err) => (b1, some (.agendamentoNaoEncontrado (some err)))
  | (b1, none, none) => (b1, some .nilPointer)
  | (b1, some agendamento, none) =>
  -- Verifica se o agendamento pertence ao cliente solicitante
  if agendamento.ClienteID != clienteID then
    (b1, some .naoAutorizado)
  else
  -- Verifica se o cliente existe
  match clienteRepository.FindByID b1 clienteID with
  | (b2, _, some err) => (b2, some (.clienteNaoEncontrado (some err)))
  | (b2, _, none) =>
  -- Verifica se o serviço existe
  match servicoRepository.FindByID b2 agendamento.ServicoID with
  | (b3, _, some err) => (b3, some (.servicoNaoEncontrado (some err)))
  | (b3, _, none) =>
  match agendamentoRepository.Update b3 { agendamento with Status := "reagendamento_solicitado" } with
  | (b4, _, some err) => (b4, some (.erroAoAtualizarStatus (some err)))
  | (b4, _, none) => (b4, none)

/-- The method `agendamentoService.GetByID`. -/
def agendamentoService.GetByID (b : Banco) (id : UUID) :
    Banco × Option Agendamento × Option Erro :=
  match agendamentoRepository.FindByID b id with
  | (b1, agendamento, err) => (b1, agendamento, err.map Erro.repo)

/-- The method `agendamentoService.Update`. -/
def agendamentoService.Update (b : Banco) (agendamento : Agendamento) :
    Banco × Agendamento × Option Erro :=
  match agendamentoRepository.Update b agendamento with
  | (b1, agendamento1, err) => (b1, agendamento1, err.map Erro.repo)

/-! ## The user service (`internal/core/services/usuario_service.go`) -/

/-- An error value as returned by `usuarioService.GetAgendamentosCliente`. -/
inductive ErroUsuario where
  /-- A repository error returned as it is (`return nil, err`). -/
  | repo (e : ErroRepo)
  /-- The value `errors.New("acesso negado")`. -/
  | acessoNegado
  /-- A nil pointer dereference (a run-time panic). -/
  | nilPointer
  deriving DecidableEq, Repr

/-- The text of `err.Error()` for an error of the user service. -/
def ErroUsuario.mensagem : ErroUsuario → String
  | .repo e => e.mensagem
  | .acessoNegado => "acesso negado"
  | .nilPointer => "runtime error: invalid memory address or nil pointer dereference"

/-- The method `usuarioService.GetAgendamentosCliente`. -/
def usuarioService.GetAgendamentosCliente (b : Banco) (id : UUID) (usuarioSolicitanteID : UUID) :
    Banco × List Agendamento × Option ErroUsuario :=
  -- Verifica se o usuário existe
  match usuarioRepository.FindByID b id with
  | (b1, _, some err) => (b1, [], some (.repo err))
  | (b1, none, none) =>
    -- the second lookup runs before the first use of `usuario`
    match usuarioRepository.FindByID b1 usuarioSolicitanteID with
    | (b2, _, some err) => (b2, [], some (.repo err))
    | (b2, _, none) => (b2, [], some .nilPointer)
  | (b1, some usuario, none) =>
  -- Verifica se o usuário solicitante é admin ou massoterapeuta
  match usuarioRepository.FindByID b1 usuarioSolicitanteID with
  | (b2, _, some err) => (b2, [], some (.repo err))
  | (b2, usuarioSolicitante, none) =>
  -- Permite acesso se for o próprio cliente ou se for admin/massoterapeuta
  if usuario.Perfil != PerfilCliente && id != usuarioSolicitanteID then
    match usuarioSolicitante with
    | none => (b2, [], some .nilPointer)
    | some usuarioSolicitante =>
      if usuarioSolicitante.Perfil != PerfilAdmin &&
          usuarioSolicitante.Perfil != PerfilMassoterapeuta then
        (b2, [], some .acessoNegado)
      else
        -- Busca os agendamentos
        match agendamentoRepository.FindByClienteID b2 id with
        | (b3, agendamentos, err) => (b3, agendamentos, err.map ErroUsuario.repo)
  else
    -- Busca os agendamentos
    match agendamentoRepository.FindByClienteID b2 id with
    | (b3, agendamentos, err) => (b3, agendamentos, err.map ErroUsuario.repo)

/-! ## The client service (`internal/core/services/cliente_service.go`) -/

/-- The interface `ports.ClienteRepository`, for the methods `clienteService.Create` calls, over
the state `σ` behind the implementation; an error is given by its text. -/
structure ClienteRepository (σ : Type) where
  FindByEmail : σ → String → σ × Option Cliente × Option String
  Create : σ → Cliente → σ × Cliente × Option String

/-- The method `clienteService.Create`. The argument `rand` is the randomness read by
`uuid.New()` and `agora` the value of `time.Now()`; the result carries the final value of the
client struct, which the method fills in place. -/
def clienteService.Create {σ : Type} (repo : ClienteRepository σ) (s : σ) (cliente : Cliente)
    (rand : Nat) (agora : Time) : σ × Cliente × Option String :=
  let continua (s1 : σ) : σ × Cliente × Option String :=
    -- Gera um UUID se não foi fornecido
    let cliente1 := if cliente.ID = uuidNil then { cliente with ID := uuidNew rand } else cliente
    -- Define a data de cadastro como o momento atual
    let cliente2 := { cliente1 with DataCadastro := agora }
    -- Define o cliente como ativo por padrão
    let cliente3 := { cliente2 with Ativo := true }
    repo.Create s1 cliente3
  -- Verificar se o email já existe
  if cliente.Email != "" then
    match repo.FindByEmail s cliente.Email with
    | (s1, some _, none) => (s1, cliente, some ("email " ++ cliente.Email ++ " já está em uso"))
    | (s1, _, _) => continua s1
  else continua s

/-- The zero value of `time.Time`: 0001-01-01T00:00:00Z. -/
def timeZero : Time := ⟨-62135596800000000000, 0⟩

/-- The method `Time.IsZero` of the standard library: the instant is that of the zero value,
whatever the location. -/
def Time.IsZero (t : Time) : Bool := t.nanos == timeZero.nanos

/-! ## The HTTP layer (`internal/middleware/auth.go`, `internal/adapters/primary`, `cmd/api`)

A handler is read as a function of the state behind the service it calls and of the parts of the
request it looks at; it returns that state after its calls and the response it writes. -/

/-- A value stored in the Gin context (Go type `any`), by dynamic type. -/
inductive Valor where
  /-- A `uuid.UUID`. -/
  | uuid (u : UUID)
  /-- A `string`. -/
  | texto (s : String)
  /-- A value of any other type. -/
  | outro
  deriving DecidableEq, Repr

/-- The keys of a Gin context (`c.Keys`), most recent binding first. -/
abbrev Keys := List (String × Valor)

/-- The method `c.Get`: the value bound to the key, if there is one. -/
def Keys.Get (c : Keys) (key : String) : Option Valor :=
  (c.find? (fun kv => kv.1 == key)).map (fun kv => kv.2)

/-- The constant `middleware.UsuarioIDKey`. -/
def UsuarioIDKey : String := "usuario_id"

/-- The constant `middleware.PerfilKey`. -/
def PerfilKey : String := "perfil"

/-- The constant `http.StatusOK`. -/
def http.StatusOK : Nat := 200
/-- The constant `http.StatusCreated`. -/
def http.StatusCreated : Nat := 201
/-- The constant `http.StatusBadRequest`. -/
def http.StatusBadRequest : Nat := 400
/-- The constant `http.StatusUnauthorized`. -/
def http.StatusUnauthorized : Nat := 401
/-- The constant `http.StatusForbidden`. -/
def http.StatusForbidden : Nat := 403
/-- The constant `http.StatusNotFound`. -/
def http.StatusNotFound : Nat := 404
/-- The constant `http.StatusInternalServerError`. -/
def http.StatusInternalServerError : Nat := 500

/-- The JSON body of a response. -/
inductive Corpo where
  /-- The body `gin.H{"error": msg}`. -/
  | erro (msg : String)
  /-- The body `gin.H{"message": msg}`. -/
  | mensagem (msg : String)
  /-- An appointment, serialised. -/
  | agendamento (a : Agendamento)
  /-- A user, serialised. -/
  | usuario (u : Usuario)
  /-- A service, serialised. -/
  | servico (sv : Servico)
  /-- No body. -/
  | vazio
  deriving DecidableEq, Repr

/-- A response: status code and body, as written by `c.JSON` or `c.AbortWithStatusJSON`. -/
structure Resposta where
  codigo : Nat
  corpo : Corpo
  deriving DecidableEq, Repr

/-- The middleware `RequirePerfil(perfisPermitidos...)` on a context: `none` when it reaches
`c.Next()`, the response when it aborts. -/
def RequirePerfil (perfisPermitidos : List String) (c : Keys) : Option Resposta :=
  -- Verificar se o usuário está autenticado
  match c.Get UsuarioIDKey with
  | none => some ⟨http.StatusUnauthorized, .erro "Usuário não autenticado"⟩
  | some _ =>
  -- Obter o perfil do usuário do contexto
  match c.Get PerfilKey with
  | none => some ⟨http.StatusForbidden, .erro "Perfil não disponível"⟩
  | some perfilRaw =>
  -- Converter para string
  match perfilRaw with
  | .texto perfil =>
    -- Verificar se o perfil está entre os permitidos
    let permitido := perfisPermitidos.any (fun p => perfil == p)
    if !permitido then
      some ⟨http.StatusForbidden, .erro "Acesso não autorizado para este perfil"⟩
    else none
  | _ => some ⟨http.StatusInternalServerError, .erro "Erro ao processar perfil"⟩

/-- The interface `ports.AgendamentoService`, for the methods the handlers modelled here call,
over the state `σ` behind the implementation. -/
structure AgendamentoService (σ : Type) where
  GetByID : σ → UUID → σ × Option Agendamento × Option Erro
  Create : σ → Agendamento → σ × Agendamento × Option Erro
  UpdateStatus : σ → UUID → String → σ × Option Erro
  SolicitarReagendamento : σ → UUID → UUID → σ × Option Erro

/-- The service built by `NewAgendamentoService` over the repositories of the database; `rand`
is the randomness its `Create` reads. -/
def NewAgendamentoService (rand : Nat) : AgendamentoService Banco :=
  { GetByID := agendamentoService.GetByID
    Create := fun b agendamento => agendamentoService.Create b agendamento rand
    UpdateStatus := agendamentoService.UpdateStatus
    SolicitarReagendamento := agendamentoService.SolicitarReagendamento }

/-- The text of the validation error of `ShouldBindJSON` for an empty field `Status` tagged
`binding:"required"` in the request struct of `UpdateStatus`. -/
def erroStatusRequired : String :=
  "Key: 'Status' Error:Field validation for 'Status' failed on the 'required' tag"

/-- The handler `AgendamentoHandler.Create`. The argument `corpo` is the outcome of decoding
the JSON body into a `domain.Agendamento`: the struct, or the text of the decoding error. -/
def AgendamentoHandler.Create {σ : Type} (agendamentoService : AgendamentoService σ) (s : σ)
    (corpo : Except String Agendamento) : σ × Resposta :=
  match corpo with
  | .error err => (s, ⟨http.StatusBadRequest, .erro err⟩)
  | .ok agendamento =>
  -- Validações básicas
  if agendamento.ClienteID = uuidNil then
    (s, ⟨http.StatusBadRequest, .erro "ID do cliente é obrigatório"⟩)
  else if agendamento.ServicoID = uuidNil then
    (s, ⟨http.StatusBadRequest, .erro "ID do serviço é obrigatório"⟩)
  else if agendamento.MassoterapeutaID = uuidNil then
    (s, ⟨http.StatusBadRequest, .erro "ID do massoterapeuta é obrigatório"⟩)
  else if agendamento.DataHora.IsZero then
    (s, ⟨http.StatusBadRequest, .erro "Data e hora são obrigatórias"⟩)
  else
  match agendamentoService.Create s agendamento with
  | (s1, _, some err) => (s1, ⟨http.StatusInternalServerError, .erro err.mensagem⟩)
  | (s1, agendamento1, none) => (s1, ⟨http.StatusCreated, .agendamento agendamento1⟩)

/-- The handler `AgendamentoHandler.UpdateStatus`. The argument `idParam` is the outcome of
`uuid.Parse(c.Param("id"))` (`none` for an error); `corpo` is the outcome of decoding the JSON
body into the request struct: its field `Status` (empty when the body has none), or the text of
the decoding error. -/
def AgendamentoHandler.UpdateStatus {σ : Type} (agendamentoService : AgendamentoService σ)
    (s : σ) (idParam : Option UUID) (corpo : Except String String) : σ × Resposta :=
  match idParam with
  | none => (s, ⟨http.StatusBadRequest, .erro "ID inválido"⟩)
  | some id =>
  match corpo with
  | .error err => (s, ⟨http.StatusBadRequest, .erro err⟩)
  | .ok status =>
  if status = "" then (s, ⟨http.StatusBadRequest, .erro erroStatusRequired⟩) else
  -- Validar o status
  let statusAgendamento : Option String :=
    if status = "agendado" then some StatusAgendado
    else if status = "confirmado" then some StatusConfirmado
    else if status = "realizado" then some StatusRealizado
    else if status = "cancelado" then some StatusCancelado
    else none
  match statusAgendamento with
  | none => (s, ⟨http.StatusBadRequest, .erro "Status inválido"⟩)
  | some statusAgendamento =>
  match agendamentoService.UpdateStatus s id statusAgendamento with
  | (s1, some err) => (s1, ⟨http.StatusInternalServerError, .erro err.mensagem⟩)
  | (s1, none) => (s1, ⟨http.StatusOK, .mensagem "Status atualizado com sucesso"⟩)

/-- The handler `AgendamentoHandler.SolicitarReagendamento`. The argument `idParam` is the
outcome of `uuid.Parse(c.Param("id"))`; `c` holds the keys of the context. A nil appointment
returned without error makes the handler panic, which the recovery middleware of `gin.Default`
answers with status 500. -/
def AgendamentoHandler.SolicitarReagendamento {σ : Type}
    (agendamentoService : AgendamentoService σ) (s : σ) (idParam : Option UUID) (c : Keys) :
    σ × Resposta :=
  match idParam with
  | none => (s, ⟨http.StatusBadRequest, .erro "ID inválido"⟩)
  | some id =>
  -- Obter ID do cliente a partir do token JWT
  match c.Get UsuarioIDKey with
  | none => (s, ⟨http.StatusUnauthorized, .erro "Usuário não autenticado"⟩)
  | some usuarioID =>
  match usuarioID with
  | .texto _ => (s, ⟨http.StatusInternalServerError, .erro "Erro ao processar ID do usuário"⟩)
  | .outro => (s, ⟨http.StatusInternalServerError, .erro "Erro ao processar ID do usuário"⟩)
  | .uuid usuarioAtualID =>
  -- Obter detalhes do agendamento para verificar se o cliente é o dono
  match agendamentoService.GetByID s id with
  | (s1, _, some _) => (s1, ⟨http.StatusNotFound, .erro "Agendamento não encontrado"⟩)
  | (s1, none, none) => (s1, ⟨http.StatusInternalServerError, .vazio⟩)
  | (s1, some agendamento, none) =>
  -- Extrair perfil do usuário atual do token
  let perfil : String :=
    match c.Get PerfilKey with
    | some (.texto p) => p
    | _ => ""
  -- Permitir a operação se for admin, massoterapeuta ou o próprio cliente dono do agendamento
  let podeReagendar :=
    perfil == "admin" || perfil == "massoterapeuta" || agendamento.ClienteID == usuarioAtualID
  if !podeReagendar then
    (s1, ⟨http.StatusForbidden,
      .erro "Você não tem permissão para reagendar este agendamento"⟩)
  else
  -- Solicitar reagendamento com o ID do cliente do agendamento
  match agendamentoService.SolicitarReagendamento s1 id agendamento.ClienteID with
  | (s2, some err) => (s2, ⟨http.StatusBadRequest, .erro err.mensagem⟩)
  | (s2, none) =>
    (s2, ⟨http.StatusOK, .mensagem
      "Sua solicitação de reagendamento foi enviada. O massoterapeuta entrará em contato para confirmar a nova data."⟩)

/-- An appointment route of `main` that changes the store. -/
inductive Rota where
  /-- The route `POST /agendamentos/`. -/
  | create
  /-- The route `PUT /agendamentos/:id`. -/
  | update
  /-- The route `PATCH /agendamentos/:id/status`. -/
  | updateStatus
  /-- The route `DELETE /agendamentos/:id`. -/
  | delete
  /-- The route `POST /agendamentos/:id/solicitar-reagendamento`. -/
  | solicitarReagendamento
  deriving DecidableEq, Repr

/-- The middlewares that `main` installs on a route after `JWTAuthMiddleware`: the group
`adminOrMasso` uses `RequirePerfil("admin", "massoterapeuta")`, the reschedule route is
registered on the group `auth` itself. -/
def Rota.middlewares : Rota → List (Keys → Option Resposta)
  | .solicitarReagendamento => []
  | _ => [RequirePerfil ["admin", "massoterapeuta"]]

/-- The handler chain of Gin: the middlewares run in order, the first one that aborts writes the
response and the handler is not run; otherwise the handler runs. -/
def serve {σ : Type} (middlewares : List (Keys → Option Resposta)) (handler : σ → σ × Resposta)
    (c : Keys) (s : σ) : σ × Resposta :=
  match middlewares with
  | [] => handler s
  | m :: ms =>
    match m c with
    | some r => (s, r)
    | none => serve ms handler c s

/-- A call received by an `AgendamentoService`. -/
inductive Chamada where
  | getByID (id : UUID)
  | create (agendamento : Agendamento)
  | updateStatus (id : UUID) (status : String)
  | solicitarReagendamento (id : UUID) (clienteID : UUID)
  deriving DecidableEq, Repr

/-- A service that records the calls it receives (most recent last) and passes them on. -/
def espiao {σ : Type} (svc : AgendamentoService σ) : AgendamentoService (σ × List Chamada) :=
  { GetByID := fun s id =>
      (((svc.GetByID s.1 id).1, s.2 ++ [.getByID id]), (svc.GetByID s.1 id).2)
    Create := fun s agendamento =>
      (((svc.Create s.1 agendamento).1, s.2 ++ [.create agendamento]),
        (svc.Create s.1 agendamento).2)
    UpdateStatus := fun s id status =>
      (((svc.UpdateStatus s.1 id status).1, s.2 ++ [.updateStatus id status]),
        (svc.UpdateStatus s.1 id status).2)
    SolicitarReagendamento := fun s id clienteID =>
      (((svc.SolicitarReagendamento s.1 id clienteID).1,
        s.2 ++ [.solicitarReagendamento id clienteID]),
        (svc.SolicitarReagendamento s.1 id clienteID).2) }

/-- The method `c.Set`: binds the key to the value. -/
def Keys.Set (c : Keys) (key : String) (value : Valor) : Keys := (key, value) :: c

/-- The function `strings.TrimPrefix` of the standard library: `s` without the leading `p`, or
`s` itself when it does not start with `p`. -/
def strings.TrimPrefix (s p : String) : String :=
  if p.data.isPrefixOf s.data then ⟨s.data.drop p.data.length⟩ else s

/-- A `jwt.MapClaims`: the claims of a token by name; the nil map is the empty list. -/
abbrev MapClaims := List (String × Valor)

/-- The interface `middleware.UsuarioService`, whose one method is `ValidateToken`, over the
state `τ` behind the implementation: the claims and the text of the error, if any. -/
abbrev ValidateToken (τ : Type) := τ → String → τ × MapClaims × Option String

/-- The outcome of the local validation of `JWTAuthMiddleware`, `jwt.Parse` with the built-in
secret: an error with its text, a token that is not valid or whose claims are not a
`jwt.MapClaims`, or the claims of a valid token. -/
inductive ValidacaoLocal where
  | erro (msg : String)
  | invalido
  | valido (claims : MapClaims)
  deriving DecidableEq, Repr

/-- The middleware `JWTAuthMiddleware`. The argument `usuarioService` is the package variable
of that name (`none` for nil); `jwtParse` is the local validation and `uuidParse` the function
`uuid.Parse` (`none` for an error); `authHeader` is the value of the header `Authorization`.
The result carries the state behind the service, the keys of the context, and the response
when the middleware aborts (`none` when it reaches `c.Next()`). -/
def JWTAuthMiddleware {τ : Type} (usuarioService : Option (ValidateToken τ))
    (jwtParse : String → ValidacaoLocal) (uuidParse : String → Option UUID)
    (authHeader : String) (c : Keys) (t : τ) : τ × Keys × Option Resposta :=
  -- Obter o token do cabeçalho Authorization
  if authHeader = "" then
    (t, c, some ⟨http.StatusUnauthorized, .erro "Cabeçalho de autorização não fornecido"⟩)
  else
  -- O token deve estar no formato "Bearer {token}"
  let tokenString := strings.TrimPrefix authHeader "Bearer "
  if tokenString = authHeader then
    (t, c, some ⟨http.StatusUnauthorized, .erro "Formato de token inválido"⟩)
  else
  -- Usar o serviço para validar o token
  let validado : τ × Except Resposta MapClaims :=
    match usuarioService with
    | some validateToken =>
      match validateToken t tokenString with
      | (t1, _, some err) =>
        (t1, .error ⟨http.StatusUnauthorized, .erro ("Token inválido: " ++ err)⟩)
      | (t1, claims, none) => (t1, .ok claims)
    | none =>
      -- Fallback para validação local quando não há serviço configurado
      match jwtParse tokenString with
      | .erro err => (t, .error ⟨http.StatusUnauthorized, .erro ("Token inválido: " ++ err)⟩)
      | .invalido => (t, .error ⟨http.StatusUnauthorized, .erro "Token inválido"⟩)
      | .valido claims => (t, .ok claims)
  match validado with
  | (t1, .error resposta) => (t1, c, some resposta)
  | (t1, .ok claims) =>
  -- Extrair o ID e perfil do usuário
  match Keys.Get claims "id" with
  | some (.texto userID) =>
    -- Converter string para UUID
    match uuidParse userID with
    | none =>
      (t1, c, some ⟨http.StatusInternalServerError, .erro "ID de usuário inválido no token"⟩)
    | some id =>
      -- Armazenar o ID e perfil do usuário no contexto
      let c1 := c.Set UsuarioIDKey (.uuid id)
      let c2 :=
        match Keys.Get claims "perfil" with
        | some (.texto perfil) => c1.Set PerfilKey (.texto perfil)
        | _ => c1
      (t1, c2, none)
  | _ => (t1, c, some ⟨http.StatusUnauthorized, .erro "Token não contém ID de usuário"⟩)

/-- A `ValidateToken` that records the tokens it receives (most recent last) and passes them
on. -/
def espiaoToken {τ : Type} (validateToken : ValidateToken τ) :
    ValidateToken (τ × List String) :=
  fun t tokenString =>
    (((validateToken t.1 tokenString).1, t.2 ++ [tokenString]),
      (validateToken t.1 tokenString).2)

/-- The struct `RegistroRequest`. -/
structure RegistroRequest where
  NomeCompleto : String
  Email : String
  Senha : String
  Telefone : String
  deriving DecidableEq, Repr

/-- The interface `ports.UsuarioService`, for the methods `AuthHandler.RegistrarAdmin` calls,
over the state `σ` behind the implementation; an error is given by its text. -/
structure UsuarioService (σ : Type) where
  GetAll : σ → σ × List Usuario × Option String
  Registrar : σ → Usuario → String → σ × Usuario × Option String

/-- The handler `AuthHandler.RegistrarAdmin`. The argument `corpo` is the outcome of
`ShouldBindJSON` on a `RegistroRequest`: the struct when the body decodes and passes the
binding rules, or the text of the error. -/
def AuthHandler.RegistrarAdmin {σ : Type} (usuarioService : UsuarioService σ) (s : σ)
    (corpo : Except String RegistroRequest) : σ × Resposta :=
  match corpo with
  | .error err => (s, ⟨http.StatusBadRequest, .erro err⟩)
  | .ok request =>
  -- Verificar se já existe algum administrador
  match usuarioService.GetAll s with
  | (s1, usuarios, err) =>
  -- Já existe um admin, bloquear criação para segurança
  if err.isNone && decide (usuarios.length > 0) &&
      usuarios.any (fun u => u.Perfil == PerfilAdmin) then
    (s1, ⟨http.StatusForbidden, .erro "Já existe um administrador no sistema"⟩)
  else
  -- Criar um novo usuário com perfil de administrador
  let usuario : Usuario :=
    { ID := uuidNil, NomeCompleto := request.NomeCompleto, Email := request.Email,
      SenhaHash := "", Telefone := request.Telefone, Perfil := PerfilAdmin, Ativo := false,
      DataCadastro := timeZero }
  match usuarioService.Registrar s1 usuario request.Senha with
  | (s2, _, some err) => (s2, ⟨http.StatusBadRequest, .erro err⟩)
  | (s2, usuario1, none) =>
    -- Remover dados sensíveis antes de retornar
    (s2, ⟨http.StatusCreated, .usuario { usuario1 with SenhaHash := "" }⟩)

/-- A call received by a `UsuarioService`. -/
inductive ChamadaUsuario where
  | getAll
  | registrar (usuario : Usuario) (password : String)
  deriving DecidableEq, Repr

/-- A user service that records the calls it receives (most recent last) and passes them on. -/
def espiaoUsuario {σ : Type} (svc : UsuarioService σ) : UsuarioService (σ × List ChamadaUsuario) :=
  { GetAll := fun s => (((svc.GetAll s.1).1, s.2 ++ [.getAll]), (svc.GetAll s.1).2)
    Registrar := fun s usuario password =>
      (((svc.Registrar s.1 usuario password).1, s.2 ++ [.registrar usuario password]),
        (svc.Registrar s.1 usuario password).2) }

/-- The interface `ports.ServicoService`, for the method `ServicoHandler.Create` calls, over the
state `σ` behind the implementation; an error is given by its text. -/
structure ServicoService (σ : Type) where
  Create : σ → Servico → σ × Servico × Option String

/-- The handler `ServicoHandler.Create`. The argument `corpo` is the outcome of decoding the
JSON body into a `domain.Servico`: the struct, or the text of the decoding error. -/
def ServicoHandler.Create {σ : Type} (servicoService : ServicoService σ) (s : σ)
    (corpo : Except String Servico) : σ × Resposta :=
  match corpo with
  | .error err => (s, ⟨http.StatusBadRequest, .erro err⟩)
  | .ok servico =>
  -- Validações básicas
  if servico.NomeServico = "" then
    (s, ⟨http.StatusBadRequest, .erro "Nome do serviço é obrigatório"⟩)
  else if servico.DuracaoMinutos ≤ 0 then
    (s, ⟨http.StatusBadRequest, .erro "Duração deve ser maior que zero"⟩)
  else if servico.Valor ≤ 0 then
    (s, ⟨http.StatusBadRequest, .erro "Valor deve ser maior que zero"⟩)
  else
  match servicoService.Create s servico with
  | (s1, _, some err) => (s1, ⟨http.StatusInternalServerError, .erro err⟩)
  | (s1, servico1, none) => (s1, ⟨http.StatusCreated, .servico servico1⟩)

/-- A service of services that records the structs its `Create` receives (most recent last) and
passes them on. -/
def espiaoServico {σ : Type} (svc : ServicoService σ) : ServicoService (σ × List Servico) :=
  { Create := fun s servico =>
      (((svc.Create s.1 servico).1, s.2 ++ [servico]), (svc.Create s.1 servico).2) }

/-- A call received by a `ClienteRepository`. -/
inductive ChamadaCliente where
  | findByEmail (email : String)
  | create (cliente : Cliente)
  deriving DecidableEq, Repr

/-- A client repository that records the calls it receives (most recent last) and passes them
on. -/
def espiaoCliente {σ : Type} (repo : ClienteRepository σ) :
    ClienteRepository (σ × List ChamadaCliente) :=
  { FindByEmail := fun s email =>
      (((repo.FindByEmail s.1 email).1, s.2 ++ [.findByEmail email]),
        (repo.FindByEmail s.1 email).2)
    Create := fun s cliente =>
      (((repo.Create s.1 cliente).1, s.2 ++ [.create cliente]), (repo.Create s.1 cliente).2) }

/-! ## Vocabulary of the properties -/

/-- The client row with the given id, if any. -/
def Banco.buscaCliente (b : Banco) (id : UUID) : Option Cliente :=
  b.clientes.find? (fun c => c.ID == id)

/-- The service row with the given id, if any. -/
def Banco.buscaServico (b : Banco) (id : UUID) : Option Servico :=
  b.servicos.find? (fun s => s.ID == id)

/-- The user row with the given id, if any. -/
def Banco.buscaUsuario (b : Banco) (id : UUID) : Option Usuario :=
  b.usuarios.find? (fun u => u.ID == id)

/-- A request has valid references: its client and its service exist and its practitioner is a
user with role `massoterapeuta`. -/
def referenciasValidas (b : Banco) (agendamento : Agendamento) : Bool :=
  (b.buscaCliente agendamento.ClienteID).isSome &&
  (b.buscaServico agendamento.ServicoID).isSome &&
  (match b.buscaUsuario agendamento.MassoterapeutaID with
   | some u => u.Perfil == PerfilMassoterapeuta
   | none => false)

/-- The end of the slot that starts at `inicio` for a service: `inicio + service.duration`. -/
def fimDoSlot (inicio : Time) (servico : Servico) : Time :=
  inicio.Add (duracao servico.DuracaoMinutos)

/-- The overlap rule of the specification for the half-open intervals `[inicioA, fimA)` and
`[inicioB, fimB)`: `inicioA < fimB` and `inicioB < fimA`. -/
def sobrepoe (inicioA fimA inicioB fimB : Time) : Bool :=
  decide (inicioA.nanos < fimB.nanos) && decide (inicioB.nanos < fimA.nanos)

/-- The slot of a stored appointment, `[m.start, m.start + its service duration)`, overlaps
`[inicio, fim)`. -/
def ocupa (b : Banco) (m : AgendamentoModel) (inicio fim : Time) : Bool :=
  match b.buscaServico m.ServicoID with
  | some s => sobrepoe m.DataHora (fimDoSlot m.DataHora s) inicio fim
  | none => false

/-- A stored appointment blocks a request under the half-open rule: same practitioner, status
other than `cancelado`, and its slot overlaps the slot of the request. -/
def bloqueia (b : Banco) (agendamento : Agendamento) (m : AgendamentoModel) : Bool :=
  match b.buscaServico agendamento.ServicoID with
  | some s =>
    m.MassoterapeutaID == agendamento.MassoterapeutaID && m.Status != StatusCancelado &&
      ocupa b m agendamento.DataHora (fimDoSlot agendamento.DataHora s)
  | none => false

/-- The identity under which `Create` stores a request: its own, or a fresh one if it has
none. -/
def idFinal (agendamento : Agendamento) (rand : Nat) : UUID :=
  if agendamento.ID = uuidNil then uuidNew rand else agendamento.ID

/-- The request as `Create` hands it to the repository: the three defaulting steps of the
method, in its order. -/
def preenchido (ag : Agendamento) (servico : Servico) (rand : Nat) : Agendamento :=
  let agendamento1 :=
    if ag.ValorCobrado = 0 then { ag with ValorCobrado := servico.Valor } else ag
  let agendamento2 :=
    if agendamento1.ID = uuidNil then { agendamento1 with ID := uuidNew rand } else agendamento1
  if agendamento2.Status = "" then { agendamento2 with Status := StatusAgendado }
  else agendamento2

/-- The insert of `Create` goes through: the final identity is not yet a key of the table. -/
def escritaLivre (b : Banco) (agendamento : Agendamento) (rand : Nat) : Bool :=
  !(b.agendamentos.any (fun m => m.ID == idFinal agendamento rand))

/-- An operation of the appointment service that changes the store. -/
inductive Operacao where
  | create (agendamento : Agendamento) (rand : Nat)
  | updateStatus (id : UUID) (status : String)
  | solicitarReagendamento (id : UUID) (clienteID : UUID)
  deriving DecidableEq, Repr

/-- Runs one operation: the database after the call and the returned error. -/
def executa (b : Banco) : Operacao → Banco × Option Erro
  | .create agendamento rand =>
    ((agendamentoService.Create b agendamento rand).1,
     (agendamentoService.Create b agendamento rand).2.2)
  | .updateStatus id status => agendamentoService.UpdateStatus b id status
  | .solicitarReagendamento id clienteID => agendamentoService.SolicitarReagendamento b id clienteID

/-- Runs a sequence of operations, each of which must be admitted by `permitida` in the state
it meets and must return without error; the result is the final database. -/
def executaTodas (permitida : Banco → Operacao → Bool) (b : Banco) : List Operacao → Option Banco
  | [] => some b
  | op :: ops =>
    if permitida b op && (executa b op).2.isNone then
      executaTodas permitida (executa b op).1 ops
    else none

/-- Every operation is admitted. -/
def qualquer (_ : Banco) (_ : Operacao) : Bool := true

/-- The operation does not move an appointment out of `cancelado`: a status change either sets
`cancelado` or targets no cancelled row, and a reschedule request targets no cancelled row. -/
def naoReativa (b : Banco) : Operacao → Bool
  | .create _ _ => true
  | .updateStatus id status =>
    status == StatusCancelado ||
      b.agendamentos.all (fun m => !(m.ID == id) || m.Status != StatusCancelado)
  | .solicitarReagendamento id _ =>
    b.agendamentos.all (fun m => !(m.ID == id) || m.Status != StatusCancelado)

/-- Two stored appointments of one practitioner, neither cancelled, overlap under the
half-open rule. -/
def conflitam (b : Banco) (x y : AgendamentoModel) : Bool :=
  x.MassoterapeutaID == y.MassoterapeutaID &&
  x.Status != StatusCancelado && y.Status != StatusCancelado &&
  (match b.buscaServico x.ServicoID, b.buscaServico y.ServicoID with
   | some sx, some sy =>
     sobrepoe x.DataHora (fimDoSlot x.DataHora sx) y.DataHora (fimDoSlot y.DataHora sy)
   | _, _ => false)

/-- The call that led from `b` to `b2` wrote nothing to table `agendamentos`: the rows are the
same and no statement logged since `b` is an insert, a save or a status update. -/
def semEscrita (b b2 : Banco) : Bool :=
  b2.agendamentos == b.agendamentos && b2.log.take b.log.length == b.log &&
    (b2.log.drop b.log.length).all (fun q => !q.escreve)

/-- The no-overlap property of a table: no two stored appointments with different identities
conflict. -/
def semSobreposicao (b : Banco) : Bool :=
  b.agendamentos.all (fun x => b.agendamentos.all (fun y => x.ID == y.ID || !conflitam b x y))

/-- The labels that `AgendamentoHandler.UpdateStatus` accepts. -/
def rotulosDeStatus : List String := ["agendado", "confirmado", "realizado", "cancelado"]

/-- The status written by `SolicitarReagendamento`. -/
def statusReagendamento : String := "reagendamento_solicitado"

/-- The text of the answer of `AgendamentoHandler.SolicitarReagendamento` on success. -/
def mensagemReagendamento : String :=
  "Sua solicitação de reagendamento foi enviada. O massoterapeuta entrará em contato para confirmar a nova data."

/-- The role that `AgendamentoHandler.SolicitarReagendamento` reads from the context: the
string bound to `PerfilKey`, or the empty string. -/
def perfilDoContexto (c : Keys) : String :=
  match c.Get PerfilKey with
  | some (.texto p) => p
  | _ => ""

/-- The start of a row, as an instant, lies in the closed window of instants `[inicio, fim]`. -/
def inicioNaJanela (inicio fim : Time) (m : AgendamentoModel) : Bool :=
  decide (inicio.nanos ≤ m.DataHora.nanos) && decide (m.DataHora.nanos ≤ fim.nanos)

/-! ## The scenario of the specification

Service `S` (60 minutes, price 100), practitioner `P`, clients `C1` and `C2`, an empty
appointment table; times are those of 2024-01-01 (UTC). -/

namespace Cenario

/-- Service `S`: 60 minutes, price 100. -/
def S : Servico :=
  { ID := 1, NomeServico := "Massagem", Descricao := "", DuracaoMinutos := 60, Valor := 100,
    ImagemURL := "" }

/-- Practitioner `P`. -/
def P : Usuario :=
  { ID := 2, NomeCompleto := "P", Email := "p@clinica", SenhaHash := "", Telefone := "",
    Perfil := PerfilMassoterapeuta, Ativo := true, DataCadastro := timeZero }

/-- Client `C1`. -/
def C1 : Cliente :=
  { ID := 3, NomeCompleto := "C1", CPF := "", Email := "c1@clinica", Telefone := "",
    DataNascimento := timeZero, DataCadastro := timeZero, Ativo := true }

/-- Client `C2`. -/
def C2 : Cliente :=
  { ID := 4, NomeCompleto := "C2", CPF := "", Email := "c2@clinica", Telefone := "",
    DataNascimento := timeZero, DataCadastro := timeZero, Ativo := true }

/-- A user with role `cliente` (the login of `C1`). -/
def U1 : Usuario :=
  { ID := 5, NomeCompleto := "C1", Email := "c1@clinica", SenhaHash := "", Telefone := "",
    Perfil := PerfilCliente, Ativo := true, DataCadastro := timeZero }

/-- The initial database: no appointment, nothing logged. -/
def banco0 : Banco :=
  { clientes := [C1, C2], servicos := [S], usuarios := [P, U1], agendamentos := [], log := [] }

/-- The time 2024-01-01T00:00:00Z plus `h` hours and `m` minutes, in UTC. -/
def hora (h m : Int) : Time := ⟨1704067200000000000 + (h * 60 + m) * timeMinute, 0⟩

/-- A booking request for service `S` with practitioner `P`, with identity `id` (`0` for none),
no amount, no status and no notes. -/
def pedido (id : UUID) (cliente : UUID) (inicio : Time) : Agendamento :=
  { ID := id, DataHora := inicio, ClienteID := cliente, ServicoID := 1, MassoterapeutaID := 2,
    ValorCobrado := 0, Status := "", Observacoes := "" }

/-- The stored appointment `A1`: client `C1`, service `S`, practitioner `P`, 10:00, scheduled. -/
def A1 : AgendamentoModel :=
  { ID := 10, DataHora := hora 10 0, ClienteID := 3, ServicoID := 1, MassoterapeutaID := 2,
    ValorCobrado := 100, Status := StatusAgendado, Observacoes := "" }

/-- The database that holds `A1` alone. -/
def bancoA1 : Banco := { banco0 with agendamentos := [A1] }

/-- Step 1 of the scenario: `Create(C1, S, P, 10:00)` on the empty table. -/
def passo1 : Banco × Agendamento × Option Erro :=
  agendamentoService.Create banco0 (pedido 0 3 (hora 10 0)) 1

/-- Step 2: `Create(C2, S, P, 10:30)`. -/
def passo2 : Banco × Agendamento × Option Erro :=
  agendamentoService.Create passo1.1 (pedido 0 4 (hora 10 30)) 2

/-- Step 3: `Create(C2, S, P, 11:00)`. -/
def passo3 : Banco × Agendamento × Option Erro :=
  agendamentoService.Create passo2.1 (pedido 0 4 (hora 11 0)) 3

/-- Step 4: `UpdateStatus(A1, cancelado)`. -/
def passo4 : Banco × Option Erro :=
  agendamentoService.UpdateStatus passo3.1 passo1.2.1.ID StatusCancelado

/-- Step 5: `Create(C2, S, P, 10:00)`. -/
def passo5 : Banco × Agendamento × Option Erro :=
  agendamentoService.Create passo4.1 (pedido 0 4 (hora 10 0)) 4

/-- Steps 3 to 5 on the table as it would be had step 2 stored nothing. -/
def passo5SemA2 : Banco × Agendamento × Option Erro :=
  agendamentoService.Create
    (agendamentoService.UpdateStatus
      (agendamentoService.Create passo1.1 (pedido 0 4 (hora 11 0)) 3).1
      passo1.2.1.ID StatusCancelado).1
    (pedido 0 4 (hora 10 0)) 4
/-- Two bookings of `P`, at 10:00 and at 10:30. -/
def opsSobrepostas : List Operacao :=
  [.create (pedido 0 3 (hora 10 0)) 1, .create (pedido 0 4 (hora 10 30)) 2]

/-- The database that holds `A1` alone, cancelled. -/
def bancoA1Cancelado : Banco :=
  { banco0 with agendamentos := [{ A1 with Status := StatusCancelado }] }

/-- The context of an authenticated actor with the given user id and role. -/
def contexto (usuario : UUID) (perfil : String) : Keys :=
  [(UsuarioIDKey, .uuid usuario), (PerfilKey, .texto perfil)]

/-- The context of an authenticated actor with the given user id and no role. -/
def contextoSemPerfil (usuario : UUID) : Keys := [(UsuarioIDKey, .uuid usuario)]

/-- The database that holds `A1` alone, completed. -/
def bancoA1Realizado : Banco :=
  { banco0 with agendamentos := [{ A1 with Status := StatusRealizado }] }
/-- The stored appointment `B1`: client `C2`, service `S`, practitioner `P`, 12:00, scheduled. -/
def B1 : AgendamentoModel :=
  { ID := 20, DataHora := hora 12 0, ClienteID := 4, ServicoID := 1, MassoterapeutaID := 2,
    ValorCobrado := 100, Status := StatusAgendado, Observacoes := "" }

/-- The database that holds `A1` (10:00) and `B1` (12:00). -/
def bancoA1B1 : Banco := { banco0 with agendamentos := [A1, B1] }

/-- The appointment `B1` moved to 10:30. -/
def B1as1030 : Agendamento := { B1.toEntity with DataHora := hora 10 30 }

/-- A second user with role `cliente` (the login of `C2`). -/
def U2 : Usuario :=
  { ID := 6, NomeCompleto := "C2", Email := "c2@clinica", SenhaHash := "", Telefone := "",
    Perfil := PerfilCliente, Ativo := true, DataCadastro := timeZero }

/-- The database with the users `P`, `U1` and `U2`, and an appointment whose `ClienteID` is the
id of `U1`. -/
def bancoUsuarios : Banco :=
  { banco0 with
    usuarios := [P, U1, U2]
    agendamentos := [{ A1 with ClienteID := 5 }] }

/-- A `ValidateToken` that accepts every token, with the claims of an administrator. -/
def validadorFixo : ValidateToken Unit :=
  fun t _ => (t, [("id", .texto "u7"), ("perfil", .texto "admin")], none)

/-- An administrator. -/
def Adm : Usuario :=
  { ID := 7, NomeCompleto := "Adm", Email := "adm@clinica", SenhaHash := "", Telefone := "",
    Perfil := PerfilAdmin, Ativo := true, DataCadastro := timeZero }

/-- A user service over a list of users held in memory: `GetAll` lists them, `Registrar` adds
the user it receives. -/
def usuariosEmMemoria : UsuarioService (List Usuario) :=
  { GetAll := fun s => (s, s, none)
    Registrar := fun s usuario _ => (s ++ [usuario], usuario, none) }

/-- The same user service with a listing that fails. -/
def usuariosComFalha : UsuarioService (List Usuario) :=
  { GetAll := fun s => (s, [], some "erro ao listar usuários")
    Registrar := fun s usuario _ => (s ++ [usuario], usuario, none) }

/-- A valid registration request. -/
def registro : RegistroRequest :=
  { NomeCompleto := "Novo", Email := "novo@clinica", Senha := "segredo1", Telefone := "" }

/-- A client repository over a list of clients held in memory. -/
def clientesEmMemoria : ClienteRepository (List Cliente) :=
  { FindByEmail := fun s email =>
      match s.find? (fun c => c.Email == email) with
      | some c => (s, some c, none)
      | none => (s, none, some "cliente não encontrado")
    Create := fun s cliente => (s ++ [cliente], cliente, none) }

/-- A new client with the email of `C1`. -/
def C3 : Cliente :=
  { ID := uuidNil, NomeCompleto := "C3", CPF := "", Email := "c1@clinica", Telefone := "",
    DataNascimento := timeZero, DataCadastro := timeZero, Ativo := false }

/-- A new client with an email nobody holds. -/
def C4 : Cliente := { C3 with NomeCompleto := "C4", Email := "c4@clinica" }

/-- A service of services over a list of services held in memory. -/
def servicosEmMemoria : ServicoService (List Servico) :=
  { Create := fun s servico => (s ++ [servico], servico, none) }

/-- The time 2024-01-01 `h`:`m` on the clock of a location `leste` hours east of UTC. -/
def horaEm (leste h m : Int) : Time :=
  ⟨1704067200000000000 + ((h - leste) * 60 + m) * timeMinute, leste * 3600⟩

/-- A `ValidateToken` that refuses every token. -/
def validadorQueRecusa : ValidateToken Unit :=
  fun t _ => (t, [], some "token expirado")

end Cenario

/-! ## Lemmas on the embedding -/

@[simp]
theorem registra_clientes (b : Banco) (q : Consulta) : (b.registra q).clientes = b.clientes := rfl
@[simp]
theorem registra_servicos (b : Banco) (q : Consulta) : (b.registra q).servicos = b.servicos := rfl
@[simp]
theorem registra_usuarios (b : Banco) (q : Consulta) : (b.registra q).usuarios = b.usuarios := rfl
@[simp]
theorem registra_agendamentos (b : Banco) (q : Consulta) :
    (b.registra q).agendamentos = b.agendamentos := rfl
@[simp]
theorem registra_log (b : Banco) (q : Consulta) : (b.registra q).log = b.log ++ [q] := rfl

theorem toEntity_fromEntity (e : Agendamento) : (agendamentoFromEntity e).toEntity = e := rfl

theorem uuidNew_ne_nil (r : Nat) : uuidNew r ≠ uuidNil := by
  intro h
  have hpos : 0 < (r % 2 ^ 128 / 2 ^ 72 % 256 % 16 + 64) * 2 ^ 72 := by positivity
  have h1 := (Nat.add_eq_zero_iff.mp h).1
  have h2 := (Nat.add_eq_zero_iff.mp h1).2
  exact absurd h2 (Nat.pos_iff_ne_zero.mp hpos)

theorem preenchido_eq (ag : Agendamento) (servico : Servico) (rand : Nat) :
    preenchido ag servico rand =
      { ag with
        ValorCobrado := if ag.ValorCobrado = 0 then servico.Valor else ag.ValorCobrado
        ID := idFinal ag rand
        Status := if ag.Status = "" then StatusAgendado else ag.Status } := by
  unfold preenchido idFinal
  by_cases hv : ag.ValorCobrado = 0 <;> by_cases hi : ag.ID = uuidNil <;>
    by_cases hst : ag.Status = "" <;> simp [hv, hi, hst]

theorem preenchido_ID (ag : Agendamento) (servico : Servico) (rand : Nat) :
    (preenchido ag servico rand).ID = idFinal ag rand := by
  rw [preenchido_eq]

theorem repoCreate_eq (b : Banco) (ag : Agendamento) :
    agendamentoRepository.Create b ag =
      if b.agendamentos.any (fun m => m.ID == ag.ID) then
        (b.registra (.insertAgendamento (agendamentoFromEntity ag)), ag,
          some (.erroAoCriarAgendamento .uniqueConstraint))
      else
        ({ b.registra (.insertAgendamento (agendamentoFromEntity ag)) with
            agendamentos := b.agendamentos ++ [agendamentoFromEntity ag] }, ag, none) := rfl

theorem temConflito_janela (l : List AgendamentoModel) (ini fim : Time) (ag : Agendamento) :
    temConflito ((l.filter (noPeriodo ini fim)).map AgendamentoModel.toEntity) ag
      = l.any (fun m => noPeriodo ini fim m &&
          (m.MassoterapeutaID == ag.MassoterapeutaID && m.Status != StatusCancelado)) := by
  unfold temConflito
  induction l with
  | nil => rfl
  | cons m l ih =>
    by_cases h : noPeriodo ini fim m = true
    · simp only [List.filter_cons, h, if_true, List.map_cons, List.any_cons, ih, Bool.true_and]
      rfl
    · simpa [List.filter_cons, h] using ih

theorem clienteFindByID_eq (b : Banco) (id : UUID) :
    clienteRepository.FindByID b id =
      (b.registra (.selectCliente id), b.buscaCliente id,
        if (b.buscaCliente id).isSome then none else some (.gorm .recordNotFound)) := by
  unfold clienteRepository.FindByID Banco.buscaCliente
  cases b.clientes.find? (fun c => c.ID == id) <;> rfl

theorem servicoFindByID_eq (b : Banco) (id : UUID) :
    servicoRepository.FindByID b id =
      (b.registra (.selectServico id), b.buscaServico id,
        if (b.buscaServico id).isSome then none else some (.gorm .recordNotFound)) := by
  unfold servicoRepository.FindByID Banco.buscaServico
  cases b.servicos.find? (fun c => c.ID == id) <;> rfl

theorem usuarioFindByID_eq (b : Banco) (id : UUID) :
    usuarioRepository.FindByID b id =
      (b.registra (.selectUsuario id), b.buscaUsuario id,
        if (b.buscaUsuario id).isSome then none else some (.gorm .recordNotFound)) := by
  unfold usuarioRepository.FindByID Banco.buscaUsuario
  cases b.usuarios.find? (fun c => c.ID == id) <;> rfl

@[simp]
theorem registra_buscaCliente (b : Banco) (q : Consulta) (id : UUID) :
    (b.registra q).buscaCliente id = b.buscaCliente id := rfl
@[simp]
theorem registra_buscaServico (b : Banco) (q : Consulta) (id : UUID) :
    (b.registra q).buscaServico id = b.buscaServico id := rfl
@[simp]
theorem registra_buscaUsuario (b : Banco) (q : Consulta) (id : UUID) :
    (b.registra q).buscaUsuario id = b.buscaUsuario id := rfl

theorem create_eq (b : Banco) (ag : Agendamento) (rand : Nat) :
    agendamentoService.Create b ag rand =
      match b.buscaCliente ag.ClienteID with
      | none => (b.registra (.selectCliente ag.ClienteID), ag,
          some (.clienteNaoEncontrado (some (.gorm .recordNotFound))))
      | some _ =>
        let b1 := b.registra (.selectCliente ag.ClienteID)
        match b.buscaServico ag.ServicoID with
        | none => (b1.registra (.selectServico ag.ServicoID), ag,
            some (.servicoNaoEncontrado (some (.gorm .recordNotFound))))
        | some s =>
          let b2 := b1.registra (.selectServico ag.ServicoID)
          match b.buscaUsuario ag.MassoterapeutaID with
          | none => (b2.registra (.selectUsuario ag.MassoterapeutaID), ag,
              some (.massoterapeutaNaoEncontrado (some (.gorm .recordNotFound))))
          | some u =>
            let b3 := b2.registra (.selectUsuario ag.MassoterapeutaID)
            if u.Perfil ≠ PerfilMassoterapeuta then
              (b3, ag, some (.massoterapeutaNaoEncontrado none))
            else
              let b4 := b3.registra (.selectAgendamentosPeriodo ag.DataHora (fimDoSlot ag.DataHora s))
              if b.agendamentos.any (fun m => noPeriodo ag.DataHora (fimDoSlot ag.DataHora s) m &&
                  (m.MassoterapeutaID == ag.MassoterapeutaID && m.Status != StatusCancelado)) then
                (b4, ag, some .horarioOcupado)
              else
                let b5 := b4.registra (.insertAgendamento (agendamentoFromEntity (preenchido ag s rand)))
                if b.agendamentos.any (fun m => m.ID == idFinal ag rand) then
                  (b5, preenchido ag s rand,
                    some (.repo (.erroAoCriarAgendamento .uniqueConstraint)))
                else
                  ({ b5 with agendamentos :=
                      b.agendamentos ++ [agendamentoFromEntity (preenchido ag s rand)] },
                   preenchido ag s rand, none) := by
  unfold agendamentoService.Create
  rw [clienteFindByID_eq]
  rcases Option.eq_none_or_eq_some (b.buscaCliente ag.ClienteID) with hc | ⟨c, hc⟩
  · simp [hc]
  simp only [hc, Option.isSome_some, if_true, Option.isNone_some, Bool.or_self,
    Bool.false_eq_true, if_false, Option.isSome_none]
  rw [servicoFindByID_eq]
  simp only [registra_buscaServico]
  rcases Option.eq_none_or_eq_some (b.buscaServico ag.ServicoID) with hs | ⟨s, hs⟩
  · simp [hs]
  simp only [hs, Option.isSome_some, if_true]
  rw [usuarioFindByID_eq]
  simp only [registra_buscaUsuario]
  rcases Option.eq_none_or_eq_some (b.buscaUsuario ag.MassoterapeutaID) with hu | ⟨u, hu⟩
  · simp [hu]
  simp only [hu, Option.isSome_some, if_true]
  by_cases hp : u.Perfil = PerfilMassoterapeuta
  · simp only [hp, bne_self_eq_false, Bool.false_eq_true, if_false, ne_eq, not_true_eq_false]
    unfold agendamentoRepository.FindByPeriodo
    simp only [registra_agendamentos, temConflito_janela, fimDoSlot]
    split
    · rfl
    · change (match agendamentoRepository.Create _ (preenchido ag s rand) with
        | (b5, agendamento4, err) => (b5, agendamento4, err.map Erro.repo)) = _
      rw [repoCreate_eq]
      simp only [registra_agendamentos, preenchido_ID]
      split <;> rfl
  · have hp2 : (u.Perfil != PerfilMassoterapeuta) = true := by simpa using hp
    simp [hp, hp2]


theorem create_sucesso (b : Banco) (ag : Agendamento) (rand : Nat)
    (h : (agendamentoService.Create b ag rand).2.2 = none) :
    ∃ c s u, b.buscaCliente ag.ClienteID = some c ∧ b.buscaServico ag.ServicoID = some s ∧
      b.buscaUsuario ag.MassoterapeutaID = some u ∧ u.Perfil = PerfilMassoterapeuta ∧
      (b.agendamentos.any (fun m => noPeriodo ag.DataHora (fimDoSlot ag.DataHora s) m &&
          (m.MassoterapeutaID == ag.MassoterapeutaID && m.Status != StatusCancelado))) = false ∧
      (b.agendamentos.any (fun m => m.ID == idFinal ag rand)) = false ∧
      agendamentoService.Create b ag rand =
        ({ clientes := b.clientes, servicos := b.servicos, usuarios := b.usuarios,
           agendamentos := b.agendamentos ++ [agendamentoFromEntity (preenchido ag s rand)],
           log := b.log ++ [.selectCliente ag.ClienteID, .selectServico ag.ServicoID,
             .selectUsuario ag.MassoterapeutaID,
             .selectAgendamentosPeriodo ag.DataHora (fimDoSlot ag.DataHora s),
             .insertAgendamento (agendamentoFromEntity (preenchido ag s rand))] },
         preenchido ag s rand, none) := by
  rw [create_eq] at h ⊢
  rcases Option.eq_none_or_eq_some (b.buscaCliente ag.ClienteID) with hc | ⟨c, hc⟩
  · simp [hc] at h
  rcases Option.eq_none_or_eq_some (b.buscaServico ag.ServicoID) with hs | ⟨s, hs⟩
  · simp [hc, hs] at h
  rcases Option.eq_none_or_eq_some (b.buscaUsuario ag.MassoterapeutaID) with hu | ⟨u, hu⟩
  · simp [hc, hs, hu] at h
  simp only [hc, hs, hu] at h ⊢
  by_cases hp : u.Perfil = PerfilMassoterapeuta
  · simp only [hp, ne_eq, not_true_eq_false, if_false] at h ⊢
    by_cases hk : (b.agendamentos.any (fun m => noPeriodo ag.DataHora (fimDoSlot ag.DataHora s) m &&
          (m.MassoterapeutaID == ag.MassoterapeutaID && m.Status != StatusCancelado))) = true
    · simp [hk] at h
    · by_cases hd : (b.agendamentos.any (fun m => m.ID == idFinal ag rand)) = true
      · simp [hk, hd] at h
      · refine ⟨c, s, u, rfl, rfl, rfl, hp, by simpa using hk, by simpa using hd, ?_⟩
        simp only [hk, hd, if_false, Bool.false_eq_true]
        simp [Banco.registra]
  · simp [hp] at h

theorem create_ok (b : Banco) (ag : Agendamento) (rand : Nat) (c : Cliente) (s : Servico)
    (u : Usuario) (hc : b.buscaCliente ag.ClienteID = some c)
    (hs : b.buscaServico ag.ServicoID = some s)
    (hu : b.buscaUsuario ag.MassoterapeutaID = some u) (hp : u.Perfil = PerfilMassoterapeuta)
    (hk : (b.agendamentos.any (fun m => noPeriodo ag.DataHora (fimDoSlot ag.DataHora s) m &&
          (m.MassoterapeutaID == ag.MassoterapeutaID && m.Status != StatusCancelado))) = false)
    (hd : (b.agendamentos.any (fun m => m.ID == idFinal ag rand)) = false) :
    (agendamentoService.Create b ag rand).2.2 = none := by
  rw [create_eq]
  simp only [hc, hs, hu, hp, ne_eq, not_true_eq_false, if_false, hk, hd, Bool.false_eq_true]

theorem semEscrita_of_log (b b2 : Banco) (qs : List Consulta)
    (ha : b2.agendamentos = b.agendamentos) (hl : b2.log = b.log ++ qs)
    (hq : ∀ q ∈ qs, q.escreve = false) : semEscrita b b2 = true := by
  unfold semEscrita
  simp only [ha, hl, beq_self_eq_true, List.take_left', List.drop_left', Bool.true_and,
    List.all_eq_true, Bool.not_eq_true']
  exact hq

theorem semConflito_iff (l : List AgendamentoModel) (ini fim : Time) (ag : Agendamento) :
    (l.any (fun m => noPeriodo ini fim m &&
        (m.MassoterapeutaID == ag.MassoterapeutaID && m.Status != StatusCancelado))) = false ↔
      ∀ m ∈ l, m.MassoterapeutaID = ag.MassoterapeutaID → noPeriodo ini fim m = true →
        m.Status = StatusCancelado := by
  simp only [List.any_eq_false, Bool.and_eq_true, beq_iff_eq, bne_iff_ne, ne_eq, not_and,
    not_not]
  constructor
  · intro h m hm hp hj; exact h m hm hj hp
  · intro h m hm hj hp; exact h m hm hp hj


theorem referenciasValidas_iff (b : Banco) (ag : Agendamento) :
    referenciasValidas b ag = true ↔
      ∃ c s u, b.buscaCliente ag.ClienteID = some c ∧ b.buscaServico ag.ServicoID = some s ∧
        b.buscaUsuario ag.MassoterapeutaID = some u ∧ u.Perfil = PerfilMassoterapeuta := by
  unfold referenciasValidas
  rcases Option.eq_none_or_eq_some (b.buscaCliente ag.ClienteID) with hc | ⟨c, hc⟩
  · simp [hc]
  rcases Option.eq_none_or_eq_some (b.buscaServico ag.ServicoID) with hs | ⟨s, hs⟩
  · simp [hc, hs]
  rcases Option.eq_none_or_eq_some (b.buscaUsuario ag.MassoterapeutaID) with hu | ⟨u, hu⟩
  · simp [hc, hs, hu]
  simp [hc, hs, hu]

theorem updateStatus_eq (b : Banco) (id : UUID) (status : String) :
    agendamentoService.UpdateStatus b id status =
      ({ b.registra (.updateStatusAgendamento id status) with
          agendamentos :=
            b.agendamentos.map (fun m => if m.ID = id then { m with Status := status } else m) },
       none) := rfl

theorem agendamentoFindByID_eq (b : Banco) (id : UUID) :
    agendamentoRepository.FindByID b id =
      (b.registra (.selectAgendamento id),
        (b.agendamentos.find? (fun m => m.ID == id)).map AgendamentoModel.toEntity,
        if (b.agendamentos.find? (fun m => m.ID == id)).isSome then none
        else some (.gorm .recordNotFound)) := by
  unfold agendamentoRepository.FindByID
  cases b.agendamentos.find? (fun m => m.ID == id) <;> rfl

theorem repoUpdate_existente (b : Banco) (ag : Agendamento)
    (h : (agendamentoRepository.Update b ag).2.2 = none)
    (hex : b.agendamentos.any (fun m => m.ID == ag.ID) = true) :
    (agendamentoRepository.Update b ag).1.agendamentos =
        b.agendamentos.map (fun m => if m.ID = ag.ID then agendamentoFromEntity ag else m) ∧
      (agendamentoRepository.Update b ag).1.servicos = b.servicos := by
  unfold agendamentoRepository.Update at h ⊢
  have hid : (agendamentoFromEntity ag).ID = ag.ID := rfl
  simp only [hid, hex, if_true] at h ⊢
  by_cases hn : ag.ID = uuidNil
  · simp [hn] at h
  · rw [if_neg hn]
    exact ⟨rfl, rfl⟩

theorem solicitar_sucesso (b : Banco) (id clienteID : UUID)
    (h : (agendamentoService.SolicitarReagendamento b id clienteID).2 = none) :
    ∃ m0, b.agendamentos.find? (fun m => m.ID == id) = some m0 ∧
      (agendamentoService.SolicitarReagendamento b id clienteID).1.agendamentos =
        b.agendamentos.map (fun m =>
          if m.ID = id then { m0 with Status := "reagendamento_solicitado" } else m) ∧
      (agendamentoService.SolicitarReagendamento b id clienteID).1.servicos = b.servicos := by
  unfold agendamentoService.SolicitarReagendamento at h ⊢
  rw [agendamentoFindByID_eq] at h ⊢
  rcases Option.eq_none_or_eq_some (b.agendamentos.find? (fun m => m.ID == id)) with hf | ⟨m0, hf⟩
  · simp [hf] at h
  have hm0 : m0 ∈ b.agendamentos := List.mem_of_find?_eq_some hf
  have hid0 : m0.ID = id := by simpa using List.find?_some hf
  refine ⟨m0, hf, ?_⟩
  simp only [hf, Option.map_some', Option.isSome_some, if_true] at h ⊢
  by_cases hcl : m0.toEntity.ClienteID = clienteID
  · have hcl2 : (m0.toEntity.ClienteID != clienteID) = false := by simpa using hcl
    simp only [hcl2, Bool.false_eq_true, if_false] at h ⊢
    rw [clienteFindByID_eq] at h ⊢
    rcases Option.eq_none_or_eq_some (b.buscaCliente clienteID) with hc | ⟨c, hc⟩
    · simp [hc] at h
    simp only [registra_buscaCliente, hc, Option.isSome_some, if_true] at h ⊢
    rw [servicoFindByID_eq] at h ⊢
    rcases Option.eq_none_or_eq_some (b.buscaServico m0.toEntity.ServicoID) with hs | ⟨s, hs⟩
    · simp [hs] at h
    simp only [registra_buscaServico, hs, Option.isSome_some, if_true] at h ⊢
    generalize hb3 : ((b.registra (Consulta.selectAgendamento id)).registra
      (Consulta.selectCliente clienteID)).registra (Consulta.selectServico m0.toEntity.ServicoID)
      = b3 at h ⊢
    have hb3a : b3.agendamentos = b.agendamentos := by rw [← hb3]; rfl
    have hb3s : b3.servicos = b.servicos := by rw [← hb3]; rfl
    generalize hag : ({ m0.toEntity with Status := "reagendamento_solicitado" } : Agendamento)
      = ag at h ⊢
    have hagid : ag.ID = id := by rw [← hag]; exact hid0
    have hfrom : agendamentoFromEntity ag = { m0 with Status := "reagendamento_solicitado" } := by
      rw [← hag]; rfl
    have hex : b3.agendamentos.any (fun m => m.ID == ag.ID) = true := by
      rw [hb3a, List.any_eq_true]
      exact ⟨m0, hm0, by simp [hagid, hid0]⟩
    rcases hupd : agendamentoRepository.Update b3 ag with ⟨b4, a4, e4⟩
    rw [hupd] at h
    cases e4 with
    | some e => simp at h
    | none =>
      have := repoUpdate_existente b3 ag (by rw [hupd]) hex
      rw [hupd] at this
      simp only [hagid, hfrom, hb3a, hb3s] at this
      exact this
  · have hcl2 : (m0.toEntity.ClienteID != clienteID) = true := by simpa using hcl
    simp [hcl2] at h

theorem requirePerfil_none_iff (perfisPermitidos : List String) (c : Keys) :
    RequirePerfil perfisPermitidos c = none ↔
      (c.Get UsuarioIDKey).isSome = true ∧
        ∃ perfil, c.Get PerfilKey = some (.texto perfil) ∧ perfil ∈ perfisPermitidos := by
  unfold RequirePerfil
  rcases Option.eq_none_or_eq_some (c.Get UsuarioIDKey) with hu | ⟨u, hu⟩
  · simp [hu]
  rcases Option.eq_none_or_eq_some (c.Get PerfilKey) with hp | ⟨p, hp⟩
  · simp [hu, hp]
  cases p with
  | uuid x => simp [hu, hp]
  | outro => simp [hu, hp]
  | texto perfil =>
    simp only [hu, hp, Option.isSome_some, true_and, Option.some.injEq, Valor.texto.injEq,
      exists_eq_left']
    by_cases hm : perfil ∈ perfisPermitidos
    · have : perfisPermitidos.any (fun p => perfil == p) = true := by
        rw [List.any_eq_true]; exact ⟨perfil, hm, by simp⟩
      simp [this, hm]
    · have : perfisPermitidos.any (fun p => perfil == p) = false := by
        rw [List.any_eq_false]
        intro x hx hxe
        have : perfil = x := by simpa using hxe
        exact hm (this ▸ hx)
      simp [this, hm]

theorem handlerUpdateStatus_valido {σ : Type} (svc : AgendamentoService σ) (s : σ) (id : UUID)
    (status : String) (h : status ∈ rotulosDeStatus) :
    AgendamentoHandler.UpdateStatus svc s (some id) (.ok status) =
      match svc.UpdateStatus s id status with
      | (s1, some err) => (s1, ⟨http.StatusInternalServerError, .erro err.mensagem⟩)
      | (s1, none) => (s1, ⟨http.StatusOK, .mensagem "Status atualizado com sucesso"⟩) := by
  simp only [rotulosDeStatus, List.mem_cons, List.mem_singleton, List.not_mem_nil, or_false] at h
  rcases h with rfl | rfl | rfl | rfl <;> rfl

theorem getByID_eq (b : Banco) (id : UUID) :
    agendamentoService.GetByID b id =
      (b.registra (.selectAgendamento id),
        (b.agendamentos.find? (fun m => m.ID == id)).map AgendamentoModel.toEntity,
        if (b.agendamentos.find? (fun m => m.ID == id)).isSome then none
        else some (.repo (.gorm .recordNotFound))) := by
  unfold agendamentoService.GetByID
  rw [agendamentoFindByID_eq]
  cases b.agendamentos.find? (fun m => m.ID == id) <;> rfl

theorem find_of_mem_nodup (l : List AgendamentoModel) (m : AgendamentoModel)
    (hnd : (l.map (fun x => x.ID)).Nodup) (hm : m ∈ l) :
    l.find? (fun x => x.ID == m.ID) = some m := by
  rcases Option.eq_none_or_eq_some (l.find? (fun x => x.ID == m.ID)) with h | ⟨m0, h⟩
  · have := List.find?_eq_none.mp h m hm
    simp at this
  · have hm0 : m0 ∈ l := List.mem_of_find?_eq_some h
    have hid : m0.ID = m.ID := by simpa using List.find?_some h
    rw [h, List.inj_on_of_nodup_map hnd hm0 hm hid]

theorem solicitar_naoAutorizado (b : Banco) (id clienteID : UUID) (m : AgendamentoModel)
    (hf : b.agendamentos.find? (fun x => x.ID == id) = some m) (hc : m.ClienteID ≠ clienteID) :
    agendamentoService.SolicitarReagendamento b id clienteID =
      (b.registra (.selectAgendamento id), some .naoAutorizado) := by
  unfold agendamentoService.SolicitarReagendamento
  rw [agendamentoFindByID_eq]
  have hcl : (m.toEntity.ClienteID != clienteID) = true := by simpa using hc
  simp only [hf, Option.map_some', Option.isSome_some, if_true, hcl]

theorem solicitar_ok (b : Banco) (id clienteID : UUID) (m : AgendamentoModel)
    (hf : b.agendamentos.find? (fun x => x.ID == id) = some m) (hc : m.ClienteID = clienteID)
    (hcli : b.buscaCliente clienteID ≠ none) (hsv : b.buscaServico m.ServicoID ≠ none)
    (hnil : m.ID ≠ uuidNil) :
    (agendamentoService.SolicitarReagendamento b id clienteID).2 = none := by
  have hm0 : m ∈ b.agendamentos := List.mem_of_find?_eq_some hf
  have hid0 : m.ID = id := by simpa using List.find?_some hf
  obtain ⟨c, hcli⟩ := Option.ne_none_iff_exists'.mp hcli
  obtain ⟨sv, hsv⟩ := Option.ne_none_iff_exists'.mp hsv
  unfold agendamentoService.SolicitarReagendamento
  rw [agendamentoFindByID_eq]
  have hcl : (m.toEntity.ClienteID != clienteID) = false := by simpa using hc
  simp only [hf, Option.map_some', Option.isSome_some, if_true, hcl, Bool.false_eq_true,
    if_false]
  rw [clienteFindByID_eq]
  simp only [registra_buscaCliente, hcli, Option.isSome_some, if_true]
  rw [servicoFindByID_eq]
  have hsv2 : b.buscaServico m.toEntity.ServicoID = some sv := hsv
  simp only [registra_buscaServico, hsv2, Option.isSome_some, if_true]
  unfold agendamentoRepository.Update
  have hidm : (agendamentoFromEntity
      { m.toEntity with Status := "reagendamento_solicitado" }).ID = m.ID := rfl
  have hex : b.agendamentos.any (fun x => x.ID == m.ID) = true := by
    rw [List.any_eq_true]; exact ⟨m, hm0, by simp⟩
  simp only [hidm, registra_agendamentos, hex, if_true, if_neg hnil]

theorem solicitar_efeito (b : Banco) (m : AgendamentoModel)
    (hnd : (b.agendamentos.map (fun x => x.ID)).Nodup) (hm : m ∈ b.agendamentos)
    (hnil : m.ID ≠ uuidNil) (hcli : b.buscaCliente m.ClienteID ≠ none)
    (hsv : b.buscaServico m.ServicoID ≠ none) :
    (agendamentoService.SolicitarReagendamento b m.ID m.ClienteID).2 = none ∧
    List.Forall₂ (fun antes depois =>
        (antes.ID = m.ID → depois = { antes with Status := statusReagendamento }) ∧
        (antes.ID ≠ m.ID → depois = antes))
      b.agendamentos
      (agendamentoService.SolicitarReagendamento b m.ID m.ClienteID).1.agendamentos := by
  have hf := find_of_mem_nodup b.agendamentos m hnd hm
  have hok := solicitar_ok b m.ID m.ClienteID m hf rfl hcli hsv hnil
  refine ⟨hok, ?_⟩
  obtain ⟨m0, hf0, ha, -⟩ := solicitar_sucesso b m.ID m.ClienteID hok
  obtain rfl : m = m0 := Option.some.inj (hf.symm.trans hf0)
  rw [ha, List.forall₂_map_right_iff, List.forall₂_same]
  intro x hx
  by_cases hid : x.ID = m.ID
  · have : x = m := List.inj_on_of_nodup_map hnd hx hm hid
    subst this
    simp [statusReagendamento]
  · simp [hid]

theorem handlerSolicitar_eq {σ : Type} (svc : AgendamentoService σ) (s s1 : σ) (id u : UUID)
    (c : Keys) (ag : Agendamento) (hu : c.Get UsuarioIDKey = some (.uuid u))
    (hg : svc.GetByID s id = (s1, some ag, none)) :
    AgendamentoHandler.SolicitarReagendamento svc s (some id) c =
      if (perfilDoContexto c == "admin" || perfilDoContexto c == "massoterapeuta" ||
          ag.ClienteID == u) = true then
        match svc.SolicitarReagendamento s1 id ag.ClienteID with
        | (s2, some err) => (s2, ⟨http.StatusBadRequest, .erro err.mensagem⟩)
        | (s2, none) => (s2, ⟨http.StatusOK, .mensagem mensagemReagendamento⟩)
      else
        (s1, ⟨http.StatusForbidden,
          .erro "Você não tem permissão para reagendar este agendamento"⟩) := by
  unfold AgendamentoHandler.SolicitarReagendamento
  simp only [hu, hg]
  show (if (!(perfilDoContexto c == "admin" || perfilDoContexto c == "massoterapeuta" ||
          ag.ClienteID == u)) = true then _ else _) = _
  by_cases hp : (perfilDoContexto c == "admin" || perfilDoContexto c == "massoterapeuta" ||
          ag.ClienteID == u) = true
  · rw [if_pos hp, hp]
    rfl
  · rw [if_neg hp]
    have hp2 : (perfilDoContexto c == "admin" || perfilDoContexto c == "massoterapeuta" ||
          ag.ClienteID == u) = false := by simpa using hp
    rw [hp2]
    rfl

theorem handlerSolicitar_real (b : Banco) (rand : Nat) (id u : UUID) (c : Keys)
    (m : AgendamentoModel) (hu : c.Get UsuarioIDKey = some (.uuid u))
    (hf : b.agendamentos.find? (fun x => x.ID == id) = some m) :
    AgendamentoHandler.SolicitarReagendamento (espiao (NewAgendamentoService rand)) (b, [])
        (some id) c =
      if (perfilDoContexto c == "admin" || perfilDoContexto c == "massoterapeuta" ||
          m.ClienteID == u) = true then
        match agendamentoService.SolicitarReagendamento (b.registra (.selectAgendamento id)) id
            m.ClienteID with
        | (b2, some err) =>
          ((b2, [.getByID id, .solicitarReagendamento id m.ClienteID]),
            ⟨http.StatusBadRequest, .erro err.mensagem⟩)
        | (b2, none) =>
          ((b2, [.getByID id, .solicitarReagendamento id m.ClienteID]),
            ⟨http.StatusOK, .mensagem mensagemReagendamento⟩)
      else
        ((b.registra (.selectAgendamento id), [.getByID id]), ⟨http.StatusForbidden,
          .erro "Você não tem permissão para reagendar este agendamento"⟩) := by
  have hg : (espiao (NewAgendamentoService rand)).GetByID (b, []) id =
      ((b.registra (.selectAgendamento id), [.getByID id]), some m.toEntity, none) := by
    show (((agendamentoService.GetByID b id).1, [] ++ [Chamada.getByID id]),
      (agendamentoService.GetByID b id).2) = _
    rw [getByID_eq, hf]
    rfl
  rw [handlerSolicitar_eq _ _ _ id u c m.toEntity hu hg]
  show (if (perfilDoContexto c == "admin" || perfilDoContexto c == "massoterapeuta" ||
          m.ClienteID == u) = true then _ else _) = _
  split
  · have hs : (espiao (NewAgendamentoService rand)).SolicitarReagendamento
        (b.registra (.selectAgendamento id), [Chamada.getByID id]) id m.toEntity.ClienteID =
        (((agendamentoService.SolicitarReagendamento
          (b.registra (.selectAgendamento id)) id m.ClienteID).1,
          [Chamada.getByID id, Chamada.solicitarReagendamento id m.ClienteID]),
        (agendamentoService.SolicitarReagendamento
          (b.registra (.selectAgendamento id)) id m.ClienteID).2) := rfl
    rw [hs]
    generalize agendamentoService.SolicitarReagendamento
      (b.registra (.selectAgendamento id)) id m.ClienteID = r
    obtain ⟨b2, e⟩ := r
    cases e <;> rfl
  · rfl

theorem forall₂_mem_esquerda {α β : Type} {R : α → β → Prop} {l : List α} {l2 : List β}
    (h : List.Forall₂ R l l2) : ∀ a ∈ l, ∃ c ∈ l2, R a c := by
  induction h with
  | nil => intro a ha; exact absurd ha (List.not_mem_nil a)
  | cons hr _ ih =>
    intro a ha
    rcases List.mem_cons.mp ha with rfl | ha
    · exact ⟨_, List.mem_cons_self _ _, hr⟩
    · obtain ⟨c, hc, hrc⟩ := ih a ha
      exact ⟨c, List.mem_cons_of_mem _ hc, hrc⟩

theorem serviceUpdate_eq (b : Banco) (ag : Agendamento) (h : ag.ID ≠ uuidNil) :
    agendamentoService.Update b ag =
      if b.agendamentos.any (fun m => m.ID == ag.ID) then
        ({ b.registra (.saveAgendamento (agendamentoFromEntity ag)) with
            agendamentos := b.agendamentos.map
              (fun m => if m.ID = ag.ID then agendamentoFromEntity ag else m) }, ag, none)
      else
        ({ b.registra (.saveAgendamento (agendamentoFromEntity ag)) with
            agendamentos := b.agendamentos ++ [agendamentoFromEntity ag] }, ag, none) := by
  unfold agendamentoService.Update agendamentoRepository.Update
  have hid : (agendamentoFromEntity ag).ID = ag.ID := rfl
  simp only [hid, if_neg h]
  split <;> rfl

theorem forall₂_exists_transfer {α : Type} {R : α → α → Prop} {P : α → Prop} {l l2 : List α}
    (h : List.Forall₂ R l l2) (hP : ∀ a c, R a c → (P a ↔ P c)) :
    (∃ a ∈ l, P a) ↔ ∃ c ∈ l2, P c := by
  induction h with
  | nil => simp
  | cons hr _ ih =>
    simp only [List.mem_cons, exists_eq_or_imp]
    rw [hP _ _ hr, ih]

theorem trimPrefix_com (p t : String) : strings.TrimPrefix (p ++ t) p = t := by
  unfold strings.TrimPrefix
  have h : p.data.isPrefixOf (p ++ t).data = true := by
    rw [String.data_append, List.isPrefixOf_iff_prefix]
    exact List.prefix_append _ _
  rw [if_pos h]
  apply String.ext
  show List.drop p.data.length (p ++ t).data = t.data
  rw [String.data_append, List.drop_left]

theorem trimPrefix_sem (s p : String) (h : ¬ ∃ t, s = p ++ t) : strings.TrimPrefix s p = s := by
  unfold strings.TrimPrefix
  by_cases hp : p.data.isPrefixOf s.data = true
  · exfalso
    rw [List.isPrefixOf_iff_prefix] at hp
    obtain ⟨r, hr⟩ := hp
    exact h ⟨⟨r⟩, String.ext (by rw [String.data_append]; exact hr.symm)⟩
  · rw [if_neg hp]

theorem bearer_ne (t : String) : t ≠ "Bearer " ++ t := by
  intro h
  have := congrArg String.length h
  rw [String.length_append] at this
  have h7 : "Bearer ".length = 7 := by decide
  omega

theorem bearer_ne_vazio (t : String) : "Bearer " ++ t ≠ "" := by
  intro h
  have := congrArg String.length h
  rw [String.length_append] at this
  have h7 : "Bearer ".length = 7 := by decide
  have h0 : "".length = 0 := by decide
  omega

theorem temConflito_filtro (l : List AgendamentoModel) (p : AgendamentoModel → Bool)
    (ag : Agendamento) :
    temConflito ((l.filter p).map AgendamentoModel.toEntity) ag
      = l.any (fun m => p m &&
          (m.MassoterapeutaID == ag.MassoterapeutaID && m.Status != StatusCancelado)) := by
  unfold temConflito
  induction l with
  | nil => rfl
  | cons m l ih =>
    by_cases h : p m = true
    · simp only [List.filter_cons, h, if_true, List.map_cons, List.any_cons, ih, Bool.true_and]
      rfl
    · simpa [List.filter_cons, h] using ih

theorem create_ocupado_iff (b : Banco) (ag : Agendamento) (rand : Nat) (s : Servico)
    (href : referenciasValidas b ag = true) (hs : b.buscaServico ag.ServicoID = some s) :
    (agendamentoService.Create b ag rand).2.2 = some .horarioOcupado ↔
      temConflito
        (agendamentoRepository.FindByPeriodo b ag.DataHora (fimDoSlot ag.DataHora s)).2.1 ag =
          true := by
  obtain ⟨c, s2, u, hc, hs2, hu, hp⟩ := (referenciasValidas_iff b ag).mp href
  obtain rfl : s2 = s := Option.some.inj (hs2.symm.trans hs)
  have hf : (agendamentoRepository.FindByPeriodo b ag.DataHora (fimDoSlot ag.DataHora s2)).2.1 =
      (b.agendamentos.filter (noPeriodo ag.DataHora (fimDoSlot ag.DataHora s2))).map
        AgendamentoModel.toEntity := rfl
  rw [hf, temConflito_filtro, create_eq]
  simp only [hc, hs, hu, hp, ne_eq, not_true_eq_false, if_false]
  by_cases hk : (b.agendamentos.any (fun m => noPeriodo ag.DataHora (fimDoSlot ag.DataHora s2) m &&
      (m.MassoterapeutaID == ag.MassoterapeutaID && m.Status != StatusCancelado))) = true
  · simp only [hk, if_true]
  · simp only [hk, if_false, Bool.false_eq_true, iff_false]
    by_cases hd : (b.agendamentos.any (fun m => m.ID == idFinal ag rand)) = true
    · simp [hd]
    · simp [hd]

theorem espiaoToken_eq {τ : Type} (svc : ValidateToken τ) (t t1 : τ) (tok : String)
    (claims : MapClaims) (e : Option String) (h : svc t tok = (t1, claims, e)) :
    espiaoToken svc (t, []) tok = ((t1, [tok]), claims, e) := by
  show (((svc t tok).1, [] ++ [tok]), (svc t tok).2) = _
  rw [h]; rfl

/-! ## The claims -/

open Cenario

/-- C1, evaluated at its failing input. The table holds `A1` (practitioner `P`, status
`agendado`, slot 10:00 to 11:00), which blocks the request of `C2` for `P` at 10:30 under the
half-open rule; `Create` nevertheless returns no error and stores a second row. -/
theorem c1_create_aceita_sobreposicao :
    referenciasValidas bancoA1 (pedido 0 4 (hora 10 30)) = true ∧
    bancoA1.agendamentos.any (bloqueia bancoA1 (pedido 0 4 (hora 10 30))) = true ∧
    (agendamentoService.Create bancoA1 (pedido 0 4 (hora 10 30)) 1).2.2 = none ∧
    (agendamentoService.Create bancoA1 (pedido 0 4 (hora 10 30)) 1).1.agendamentos.length = 2 := by
  decide

/-- C2, evaluated at its failing input. The table holds `A1` alone (slot 10:00 to 11:00); the
request for `P` at 09:00 ends at 10:00, so no stored appointment blocks it under the half-open
rule and its insert would go through, yet `Create` answers that the slot is taken and stores
nothing. The request at 11:00, which starts where `A1` ends, is accepted. -/
theorem c2_create_rejeita_adjacente :
    referenciasValidas bancoA1 (pedido 0 4 (hora 9 0)) = true ∧
    bancoA1.agendamentos.any (bloqueia bancoA1 (pedido 0 4 (hora 9 0))) = false ∧
    escritaLivre bancoA1 (pedido 0 4 (hora 9 0)) 1 = true ∧
    (agendamentoService.Create bancoA1 (pedido 0 4 (hora 9 0)) 1).2.2 = some .horarioOcupado ∧
    (agendamentoService.Create bancoA1 (pedido 0 4 (hora 9 0)) 1).1.agendamentos = [A1] ∧
    (agendamentoService.Create bancoA1 (pedido 0 4 (hora 11 0)) 1).2.2 = none := by
  decide

/-- C3, evaluated at its failing input. From the empty table of the scenario, `Create` for
practitioner `P` at 10:00 and then at 10:30 both return without error; no status is changed and
no reschedule is requested. The table they leave holds two appointments of `P`, both `agendado`,
whose slots 10:00 to 11:00 and 10:30 to 11:30 overlap under the half-open rule. -/
theorem c3_sobreposicao_por_create :
    (executaTodas naoReativa banco0 opsSobrepostas).map
        (fun b => b.agendamentos.map (fun m => (m.MassoterapeutaID, m.Status, m.DataHora))) =
      some [(2, StatusAgendado, hora 10 0), (2, StatusAgendado, hora 10 30)] ∧
    sobrepoe (hora 10 0) (fimDoSlot (hora 10 0) S) (hora 10 30) (fimDoSlot (hora 10 30) S) =
      true ∧
    (executaTodas naoReativa banco0 opsSobrepostas).map semSobreposicao = some false := by
  decide

/-- C4, evaluated on the scenario. Booking `A1` at 10:00 succeeds with status `agendado` and
amount 100. The attempt at 10:30 returns no error and is stored, where the scenario expects the
slot to be refused. The booking at 11:00 succeeds and `A1` is cancelled. The attempt at 10:00 is
then refused, where the scenario expects it to succeed; it is refused as well on the table
without the 10:30 row, by the row that starts at 11:00. -/
theorem c4_cenario_diverge :
    passo1.2.2 = none ∧ passo1.2.1.Status = StatusAgendado ∧ passo1.2.1.ValorCobrado = 100 ∧
    passo2.2.2 = none ∧ passo2.1.agendamentos.length = 2 ∧
    passo3.2.2 = none ∧
    passo4.2 = none ∧
    passo5.2.2 = some .horarioOcupado ∧
    passo5SemA2.2.2 = some .horarioOcupado := by
  decide

/-- C5, evaluated at its failing inputs. On the table that holds `A1` alone (practitioner `P`,
`agendado`, 10:00 to 11:00 UTC), no stored appointment of `P` that is not cancelled overlaps the
slot 09:00 to 10:00 of the first request, and none overlaps the slot of the second request,
09:30 to 10:30 on a clock three hours east of UTC (06:30 to 07:30 UTC), nor starts in that
window; the references are valid and the insert would go through. `Create` refuses both with
the slot-occupied error and stores nothing. The cancelled `A1` itself does not block: the
request at 10:00 on the table that holds it cancelled is stored. -/
theorem c5_nao_cancelado_fora_da_janela_bloqueia :
    (referenciasValidas bancoA1 (pedido 0 4 (hora 9 0)) = true ∧
      escritaLivre bancoA1 (pedido 0 4 (hora 9 0)) 1 = true ∧
      bancoA1.agendamentos.any (bloqueia bancoA1 (pedido 0 4 (hora 9 0))) = false ∧
      (agendamentoService.Create bancoA1 (pedido 0 4 (hora 9 0)) 1).2.2 =
        some .horarioOcupado ∧
      (agendamentoService.Create bancoA1 (pedido 0 4 (hora 9 0)) 1).1.agendamentos = [A1]) ∧
    (referenciasValidas bancoA1 (pedido 0 4 (horaEm 3 9 30)) = true ∧
      escritaLivre bancoA1 (pedido 0 4 (horaEm 3 9 30)) 1 = true ∧
      (horaEm 3 9 30).nanos = (hora 6 30).nanos ∧
      bancoA1.agendamentos.any (bloqueia bancoA1 (pedido 0 4 (horaEm 3 9 30))) = false ∧
      bancoA1.agendamentos.any
        (inicioNaJanela (horaEm 3 9 30) (fimDoSlot (horaEm 3 9 30) S)) = false ∧
      (agendamentoService.Create bancoA1 (pedido 0 4 (horaEm 3 9 30)) 1).2.2 =
        some .horarioOcupado ∧
      (agendamentoService.Create bancoA1 (pedido 0 4 (horaEm 3 9 30)) 1).1.agendamentos =
        [A1]) ∧
    ((agendamentoService.Create bancoA1Cancelado (pedido 0 4 (hora 10 0)) 1).2.2 = none ∧
      (agendamentoService.Create bancoA1Cancelado (pedido 0 4 (hora 10 0)) 1).1.agendamentos.map
        (fun m => (m.Status, m.DataHora)) =
          [(StatusCancelado, hora 10 0), (StatusAgendado, hora 10 0)]) := by
  decide

/-- C6, counterexample. A request that carries status `cancelado` is stored with status
`cancelado`, not `agendado`. -/
theorem c6_status_do_pedido_mantido :
    (agendamentoService.Create banco0
        { pedido 0 3 (hora 10 0) with Status := StatusCancelado } 1).2.2 = none ∧
    (agendamentoService.Create banco0
        { pedido 0 3 (hora 10 0) with Status := StatusCancelado } 1).1.agendamentos.map
          (fun m => m.Status) = [StatusCancelado] ∧
    StatusCancelado ≠ StatusAgendado := by
  decide

/-- C6, as amended. Every appointment stored by a successful `Create` has status `agendado`
when the request carried the empty status, and the status of the request otherwise. -/
theorem c6_status_inicial (b : Banco) (ag : Agendamento) (rand : Nat)
    (h : (agendamentoService.Create b ag rand).2.2 = none) :
    ∃ m, (agendamentoService.Create b ag rand).1.agendamentos = b.agendamentos ++ [m] ∧
      (agendamentoService.Create b ag rand).2.1 = m.toEntity ∧
      m.Status = if ag.Status = "" then StatusAgendado else ag.Status := by
  obtain ⟨c, s, u, -, -, -, -, -, -, heq⟩ := create_sucesso b ag rand h
  refine ⟨agendamentoFromEntity (preenchido ag s rand), ?_, ?_, ?_⟩
  · rw [heq]
  · rw [heq]; rfl
  · rw [preenchido_eq]; rfl

/-- C6, witness of the amended statement on the scenario. -/
theorem c6_status_inicial_witness :
    (agendamentoService.Create banco0 (pedido 0 3 (hora 10 0)) 1).2.2 = none ∧
    ∃ m, (agendamentoService.Create banco0 (pedido 0 3 (hora 10 0)) 1).1.agendamentos =
        banco0.agendamentos ++ [m] ∧
      (agendamentoService.Create banco0 (pedido 0 3 (hora 10 0)) 1).2.1 = m.toEntity ∧
      m.Status = if (pedido 0 3 (hora 10 0)).Status = "" then StatusAgendado
        else (pedido 0 3 (hora 10 0)).Status :=
  ⟨by decide, c6_status_inicial banco0 (pedido 0 3 (hora 10 0)) 1 (by decide)⟩

/-- C7. For every successful `Create` whose request has charged amount zero, the stored
appointment has as `ValorCobrado` the `Valor` of the service the request refers to. -/
theorem c7_valor_padrao (b : Banco) (ag : Agendamento) (rand : Nat)
    (h : (agendamentoService.Create b ag rand).2.2 = none) (hz : ag.ValorCobrado = 0) :
    ∃ m s, (agendamentoService.Create b ag rand).1.agendamentos = b.agendamentos ++ [m] ∧
      (agendamentoService.Create b ag rand).2.1 = m.toEntity ∧
      b.buscaServico ag.ServicoID = some s ∧ m.ValorCobrado = s.Valor := by
  obtain ⟨c, s, u, -, hs, -, -, -, -, heq⟩ := create_sucesso b ag rand h
  refine ⟨agendamentoFromEntity (preenchido ag s rand), s, ?_, ?_, hs, ?_⟩
  · rw [heq]
  · rw [heq]; rfl
  · rw [preenchido_eq]; simp [agendamentoFromEntity, hz]

/-- C7, witness on the scenario. -/
theorem c7_valor_padrao_witness :
    (agendamentoService.Create banco0 (pedido 0 3 (hora 10 0)) 1).2.2 = none ∧
    (pedido 0 3 (hora 10 0)).ValorCobrado = 0 ∧
    ∃ m s, (agendamentoService.Create banco0 (pedido 0 3 (hora 10 0)) 1).1.agendamentos =
        banco0.agendamentos ++ [m] ∧
      (agendamentoService.Create banco0 (pedido 0 3 (hora 10 0)) 1).2.1 = m.toEntity ∧
      banco0.buscaServico (pedido 0 3 (hora 10 0)).ServicoID = some s ∧
      m.ValorCobrado = s.Valor :=
  ⟨by decide, by decide,
    c7_valor_padrao banco0 (pedido 0 3 (hora 10 0)) 1 (by decide) (by decide)⟩

/-- C8. On a successful `Create` the stored appointment keeps the client, service,
practitioner, start time and notes of the request; an identity other than `uuid.Nil` and a
charged amount other than zero are kept; the identity `uuid.Nil` is replaced by the generated
one, which is not `uuid.Nil`. -/
theorem c8_campos_mantidos (b : Banco) (ag : Agendamento) (rand : Nat)
    (h : (agendamentoService.Create b ag rand).2.2 = none) :
    ∃ m, (agendamentoService.Create b ag rand).1.agendamentos = b.agendamentos ++ [m] ∧
      (agendamentoService.Create b ag rand).2.1 = m.toEntity ∧
      m.ClienteID = ag.ClienteID ∧ m.ServicoID = ag.ServicoID ∧
      m.MassoterapeutaID = ag.MassoterapeutaID ∧ m.DataHora = ag.DataHora ∧
      m.Observacoes = ag.Observacoes ∧
      (ag.ID ≠ uuidNil → m.ID = ag.ID) ∧
      (ag.ValorCobrado ≠ 0 → m.ValorCobrado = ag.ValorCobrado) ∧
      (ag.ID = uuidNil → m.ID = uuidNew rand ∧ m.ID ≠ uuidNil) := by
  obtain ⟨c, s, u, -, hs, -, -, -, -, heq⟩ := create_sucesso b ag rand h
  refine ⟨agendamentoFromEntity (preenchido ag s rand), ?_, ?_, ?_⟩
  · rw [heq]
  · rw [heq]; rfl
  · rw [preenchido_eq]
    refine ⟨rfl, rfl, rfl, rfl, rfl, ?_, ?_, ?_⟩
    · intro hid; simp [agendamentoFromEntity, idFinal, hid]
    · intro hv; simp [agendamentoFromEntity, hv]
    · intro hid
      have : (agendamentoFromEntity
          { ag with
            ValorCobrado := if ag.ValorCobrado = 0 then s.Valor else ag.ValorCobrado
            ID := idFinal ag rand
            Status := if ag.Status = "" then StatusAgendado else ag.Status }).ID = uuidNew rand := by
        simp [agendamentoFromEntity, idFinal, hid]
      exact ⟨this, this ▸ uuidNew_ne_nil rand⟩

/-- C8, witness on the scenario: a request without identity, and a request with identity 11
and amount 80. -/
theorem c8_campos_mantidos_witness :
    (agendamentoService.Create banco0
      { pedido 11 3 (hora 10 0) with ValorCobrado := 80, Observacoes := "sala 2" } 1).2.2 = none ∧
    (agendamentoService.Create banco0
      { pedido 11 3 (hora 10 0) with ValorCobrado := 80, Observacoes := "sala 2" } 1).1.agendamentos
      = [{ ID := 11, DataHora := hora 10 0, ClienteID := 3, ServicoID := 1, MassoterapeutaID := 2,
           ValorCobrado := 80, Status := StatusAgendado, Observacoes := "sala 2" }] ∧
    ∃ m, (agendamentoService.Create banco0 (pedido 0 3 (hora 10 0)) 1).1.agendamentos =
        banco0.agendamentos ++ [m] ∧
      (agendamentoService.Create banco0 (pedido 0 3 (hora 10 0)) 1).2.1 = m.toEntity ∧
      m.ClienteID = (pedido 0 3 (hora 10 0)).ClienteID ∧
      m.ServicoID = (pedido 0 3 (hora 10 0)).ServicoID ∧
      m.MassoterapeutaID = (pedido 0 3 (hora 10 0)).MassoterapeutaID ∧
      m.DataHora = (pedido 0 3 (hora 10 0)).DataHora ∧
      m.Observacoes = (pedido 0 3 (hora 10 0)).Observacoes ∧
      ((pedido 0 3 (hora 10 0)).ID ≠ uuidNil → m.ID = (pedido 0 3 (hora 10 0)).ID) ∧
      ((pedido 0 3 (hora 10 0)).ValorCobrado ≠ 0 →
        m.ValorCobrado = (pedido 0 3 (hora 10 0)).ValorCobrado) ∧
      ((pedido 0 3 (hora 10 0)).ID = uuidNil → m.ID = uuidNew 1 ∧ m.ID ≠ uuidNil) :=
  ⟨by decide, by decide, c8_campos_mantidos banco0 (pedido 0 3 (hora 10 0)) 1 (by decide)⟩

/-- C9. When the client of the request does not exist, `Create` fails with the error
`cliente não encontrado`; when the client exists and the service does not, with
`serviço não encontrado`; when both exist and no user has the practitioner id, with
`massoterapeuta não encontrado`. Each of these errors wraps the not-found error of the store,
the request is left as it was and nothing is written to the appointment table. -/
theorem c9_referencia_ausente (b : Banco) (ag : Agendamento) (rand : Nat) :
    (b.buscaCliente ag.ClienteID = none →
      (agendamentoService.Create b ag rand).2 =
        (ag, some (.clienteNaoEncontrado (some (.gorm .recordNotFound)))) ∧
      semEscrita b (agendamentoService.Create b ag rand).1 = true) ∧
    (b.buscaCliente ag.ClienteID ≠ none → b.buscaServico ag.ServicoID = none →
      (agendamentoService.Create b ag rand).2 =
        (ag, some (.servicoNaoEncontrado (some (.gorm .recordNotFound)))) ∧
      semEscrita b (agendamentoService.Create b ag rand).1 = true) ∧
    (b.buscaCliente ag.ClienteID ≠ none → b.buscaServico ag.ServicoID ≠ none →
      b.buscaUsuario ag.MassoterapeutaID = none →
      (agendamentoService.Create b ag rand).2 =
        (ag, some (.massoterapeutaNaoEncontrado (some (.gorm .recordNotFound)))) ∧
      semEscrita b (agendamentoService.Create b ag rand).1 = true) := by
  refine ⟨fun hc => ?_, fun hc hs => ?_, fun hc hs hu => ?_⟩
  · rw [create_eq]
    simp only [hc]
    exact ⟨trivial, semEscrita_of_log _ _ [.selectCliente ag.ClienteID] rfl rfl (by simp [Consulta.escreve])⟩
  · obtain ⟨c, hc⟩ := Option.ne_none_iff_exists'.mp hc
    rw [create_eq]
    simp only [hc, hs]
    exact ⟨trivial, semEscrita_of_log _ _ [.selectCliente ag.ClienteID, .selectServico ag.ServicoID]
      rfl (by simp [Banco.registra]) (by simp [Consulta.escreve])⟩
  · obtain ⟨c, hc⟩ := Option.ne_none_iff_exists'.mp hc
    obtain ⟨s, hs⟩ := Option.ne_none_iff_exists'.mp hs
    rw [create_eq]
    simp only [hc, hs, hu]
    exact ⟨trivial, semEscrita_of_log _ _ [.selectCliente ag.ClienteID, .selectServico ag.ServicoID,
      .selectUsuario ag.MassoterapeutaID]
      rfl (by simp [Banco.registra]) (by simp [Consulta.escreve])⟩

/-- C9, witness on the scenario: a request with an unknown client, one with an unknown service
and one with an unknown practitioner, with the text of each error. -/
theorem c9_referencia_ausente_witness :
    (banco0.buscaCliente 77 = none ∧
      (agendamentoService.Create banco0 (pedido 0 77 (hora 10 0)) 1).2 =
        (pedido 0 77 (hora 10 0), some (.clienteNaoEncontrado (some (.gorm .recordNotFound)))) ∧
      semEscrita banco0 (agendamentoService.Create banco0 (pedido 0 77 (hora 10 0)) 1).1 = true) ∧
    (banco0.buscaServico 78 = none ∧
      (agendamentoService.Create banco0 { pedido 0 3 (hora 10 0) with ServicoID := 78 } 1).2 =
        ({ pedido 0 3 (hora 10 0) with ServicoID := 78 },
          some (.servicoNaoEncontrado (some (.gorm .recordNotFound))))) ∧
    (banco0.buscaUsuario 79 = none ∧
      (agendamentoService.Create banco0
          { pedido 0 3 (hora 10 0) with MassoterapeutaID := 79 } 1).2 =
        ({ pedido 0 3 (hora 10 0) with MassoterapeutaID := 79 },
          some (.massoterapeutaNaoEncontrado (some (.gorm .recordNotFound))))) ∧
    (Erro.clienteNaoEncontrado (some (.gorm .recordNotFound))).mensagem =
      "cliente não encontrado: record not found" :=
  ⟨⟨by decide, (c9_referencia_ausente banco0 (pedido 0 77 (hora 10 0)) 1).1 (by decide)⟩,
   ⟨by decide,
    ((c9_referencia_ausente banco0 { pedido 0 3 (hora 10 0) with ServicoID := 78 } 1).2.1
      (by decide) (by decide)).1⟩,
   ⟨by decide,
    ((c9_referencia_ausente banco0 { pedido 0 3 (hora 10 0) with MassoterapeutaID := 79 } 1).2.2
      (by decide) (by decide) (by decide)).1⟩,
   by decide⟩

/-- C10, counterexample. On the scenario, a request whose practitioner id is that of a user
with role `cliente` and a request whose practitioner id is that of no user fail with the same
error, `massoterapeuta não encontrado`; they differ only in the wrapped cause. With an unknown
client the first request fails with `cliente não encontrado` instead. -/
theorem c10_mesmo_erro_para_perfil_errado :
    (banco0.buscaUsuario 5).map (fun u => u.Perfil) = some PerfilCliente ∧
    (agendamentoService.Create banco0 { pedido 0 3 (hora 10 0) with MassoterapeutaID := 5 } 1).2.2
      = some (.massoterapeutaNaoEncontrado none) ∧
    banco0.buscaUsuario 79 = none ∧
    (agendamentoService.Create banco0 { pedido 0 3 (hora 10 0) with MassoterapeutaID := 79 } 1).2.2
      = some (.massoterapeutaNaoEncontrado (some (.gorm .recordNotFound))) ∧
    (Erro.massoterapeutaNaoEncontrado none).cabecalho =
      (Erro.massoterapeutaNaoEncontrado (some (.gorm .recordNotFound))).cabecalho ∧
    (agendamentoService.Create banco0 { pedido 0 77 (hora 10 0) with MassoterapeutaID := 5 } 1).2.2
      = some (.clienteNaoEncontrado (some (.gorm .recordNotFound))) := by
  decide

/-- C10, as amended. When the client and the service of the request exist and its practitioner
id is that of a user whose role is not `massoterapeuta`, `Create` fails with the error
`massoterapeuta não encontrado`, the one it returns when no user has that id, here without a
wrapped cause; the request is left as it was and nothing is written. -/
theorem c10_perfil_errado (b : Banco) (ag : Agendamento) (rand : Nat) (u : Usuario)
    (hc : b.buscaCliente ag.ClienteID ≠ none) (hs : b.buscaServico ag.ServicoID ≠ none)
    (hu : b.buscaUsuario ag.MassoterapeutaID = some u) (hp : u.Perfil ≠ PerfilMassoterapeuta) :
    (agendamentoService.Create b ag rand).2 = (ag, some (.massoterapeutaNaoEncontrado none)) ∧
    semEscrita b (agendamentoService.Create b ag rand).1 = true := by
  obtain ⟨c, hc⟩ := Option.ne_none_iff_exists'.mp hc
  obtain ⟨s, hs⟩ := Option.ne_none_iff_exists'.mp hs
  rw [create_eq]
  simp only [hc, hs, hu, hp, ne_eq, not_false_eq_true, if_true]
  exact ⟨trivial, semEscrita_of_log _ _ [.selectCliente ag.ClienteID, .selectServico ag.ServicoID,
      .selectUsuario ag.MassoterapeutaID]
      rfl (by simp [Banco.registra]) (by simp [Consulta.escreve])⟩

/-- C10, witness of the amended statement on the scenario. -/
theorem c10_perfil_errado_witness :
    (banco0.buscaCliente 3 ≠ none ∧ banco0.buscaServico 1 ≠ none ∧
      banco0.buscaUsuario 5 = some U1 ∧ U1.Perfil ≠ PerfilMassoterapeuta) ∧
    (agendamentoService.Create banco0 { pedido 0 3 (hora 10 0) with MassoterapeutaID := 5 } 1).2 =
      ({ pedido 0 3 (hora 10 0) with MassoterapeutaID := 5 },
        some (.massoterapeutaNaoEncontrado none)) ∧
    semEscrita banco0
      (agendamentoService.Create banco0
        { pedido 0 3 (hora 10 0) with MassoterapeutaID := 5 } 1).1 = true :=
  ⟨by decide,
   c10_perfil_errado banco0 { pedido 0 3 (hora 10 0) with MassoterapeutaID := 5 } 1 U1
    (by decide) (by decide) (by decide) (by decide)⟩

/-- C11, counterexample. `agendamentoService.Create` called with the zero time as start, on
the scenario, returns no error and stores the appointment. Through the handler, a request with
the zero time and no client id is answered with the error of the missing client id. -/
theorem c11_servico_aceita_hora_zero :
    timeZero.IsZero = true ∧
    (agendamentoService.Create banco0 (pedido 0 3 timeZero) 1).2.2 = none ∧
    (agendamentoService.Create banco0 (pedido 0 3 timeZero) 1).1.agendamentos.map
      (fun m => m.DataHora) = [timeZero] ∧
    (AgendamentoHandler.Create (NewAgendamentoService 1) banco0
      (.ok (pedido 0 0 timeZero))).2 =
        ⟨http.StatusBadRequest, .erro "ID do cliente é obrigatório"⟩ := by
  decide

/-- C11, as amended. For a request whose start time is the zero time,
`AgendamentoHandler.Create` answers 400 whatever the service behind it, which receives no call
and whose state is unchanged; the error is `Data e hora são obrigatórias` when the client,
service and practitioner ids are all given, and the error of the first missing id otherwise. `agendamentoService.Create` called directly makes
no test of the start time: with valid references, an insert the store accepts and no
appointment of the practitioner that is not cancelled in the queried window, it returns no
error and stores the appointment with the start time of the request, the zero time. -/
theorem c11_hora_zero :
    (∀ (σ : Type) (svc : AgendamentoService σ) (s : σ) (ag : Agendamento),
      ag.DataHora.IsZero = true →
      (AgendamentoHandler.Create (espiao svc) (s, []) (.ok ag)).1 = (s, []) ∧
      (AgendamentoHandler.Create (espiao svc) (s, []) (.ok ag)).2.codigo =
        http.StatusBadRequest ∧
      (ag.ClienteID ≠ uuidNil → ag.ServicoID ≠ uuidNil → ag.MassoterapeutaID ≠ uuidNil →
        (AgendamentoHandler.Create (espiao svc) (s, []) (.ok ag)).2.corpo =
          .erro "Data e hora são obrigatórias") ∧
      (ag.ClienteID = uuidNil →
        (AgendamentoHandler.Create (espiao svc) (s, []) (.ok ag)).2.corpo =
          .erro "ID do cliente é obrigatório") ∧
      (ag.ClienteID ≠ uuidNil → ag.ServicoID = uuidNil →
        (AgendamentoHandler.Create (espiao svc) (s, []) (.ok ag)).2.corpo =
          .erro "ID do serviço é obrigatório") ∧
      (ag.ClienteID ≠ uuidNil → ag.ServicoID ≠ uuidNil → ag.MassoterapeutaID = uuidNil →
        (AgendamentoHandler.Create (espiao svc) (s, []) (.ok ag)).2.corpo =
          .erro "ID do massoterapeuta é obrigatório")) ∧
    (∀ (b : Banco) (ag : Agendamento) (rand : Nat) (sv : Servico),
      ag.DataHora.IsZero = true →
      referenciasValidas b ag = true → b.buscaServico ag.ServicoID = some sv →
      escritaLivre b ag rand = true →
      (∀ m ∈ b.agendamentos, m.MassoterapeutaID = ag.MassoterapeutaID →
        noPeriodo ag.DataHora (fimDoSlot ag.DataHora sv) m = true → m.Status = StatusCancelado) →
      (agendamentoService.Create b ag rand).2.2 = none ∧
      ∃ m, (agendamentoService.Create b ag rand).1.agendamentos = b.agendamentos ++ [m] ∧
        m.DataHora = ag.DataHora ∧ m.DataHora.IsZero = true) := by
  constructor
  · intro σ svc s ag hz
    unfold AgendamentoHandler.Create
    by_cases h1 : ag.ClienteID = uuidNil
    · simp [h1]
    by_cases h2 : ag.ServicoID = uuidNil
    · simp [h1, h2]
    by_cases h3 : ag.MassoterapeutaID = uuidNil
    · simp [h1, h2, h3]
    simp [h1, h2, h3, hz]
  · intro b ag rand sv hz href hs hlivre hcanc
    obtain ⟨c, s2, u, hc, hs2, hu, hp⟩ := (referenciasValidas_iff b ag).mp href
    obtain rfl : s2 = sv := Option.some.inj (hs2.symm.trans hs)
    have hok := create_ok b ag rand c s2 u hc hs hu hp ((semConflito_iff _ _ _ _).mpr hcanc)
      (by simpa [escritaLivre] using hlivre)
    refine ⟨hok, ?_⟩
    obtain ⟨c2, s3, u2, -, hs3, -, -, -, -, heq⟩ := create_sucesso b ag rand hok
    have hdh : (agendamentoFromEntity (preenchido ag s3 rand)).DataHora = ag.DataHora := by
      rw [preenchido_eq]; rfl
    refine ⟨agendamentoFromEntity (preenchido ag s3 rand), by rw [heq], hdh, ?_⟩
    rw [hdh]; exact hz

/-- C11, witness of the amended statement on the scenario. -/
theorem c11_hora_zero_witness :
    ((AgendamentoHandler.Create (espiao (NewAgendamentoService 1)) (banco0, [])
        (.ok (pedido 0 3 timeZero))).1 = (banco0, []) ∧
      (AgendamentoHandler.Create (espiao (NewAgendamentoService 1)) (banco0, [])
        (.ok (pedido 0 3 timeZero))).2 =
          ⟨http.StatusBadRequest, .erro "Data e hora são obrigatórias"⟩) ∧
    ((agendamentoService.Create banco0 (pedido 0 3 timeZero) 1).2.2 = none ∧
      ∃ m, (agendamentoService.Create banco0 (pedido 0 3 timeZero) 1).1.agendamentos =
        banco0.agendamentos ++ [m] ∧ m.DataHora = timeZero ∧ m.DataHora.IsZero = true) :=
  ⟨⟨(c11_hora_zero.1 Banco (NewAgendamentoService 1) banco0 (pedido 0 3 timeZero)
      (by decide)).1, by decide⟩,
   c11_hora_zero.2 banco0 (pedido 0 3 timeZero) 1 S (by decide) (by decide) (by decide)
     (by decide) (by decide)⟩

/-- C12. For every status string other than `agendado`, `confirmado`, `realizado` and
`cancelado`, `AgendamentoHandler.UpdateStatus` answers 400 Bad Request, whatever the service
behind it: the service receives no call and the state behind it, hence every stored status, is
unchanged. The error is `Status inválido` for every such string but the empty one, which the
rule `required` of the binding refuses one step earlier. -/
theorem c12_status_invalido (σ : Type) (svc : AgendamentoService σ) (s : σ) (id : UUID)
    (status : String) (h : status ∉ rotulosDeStatus) :
    (AgendamentoHandler.UpdateStatus (espiao svc) (s, []) (some id) (.ok status)).1 = (s, []) ∧
    (AgendamentoHandler.UpdateStatus (espiao svc) (s, []) (some id) (.ok status)).2.codigo =
      http.StatusBadRequest ∧
    (status ≠ "" →
      (AgendamentoHandler.UpdateStatus (espiao svc) (s, []) (some id) (.ok status)).2.corpo =
        .erro "Status inválido") := by
  simp only [rotulosDeStatus, List.mem_cons, List.mem_singleton, List.not_mem_nil, or_false,
    not_or] at h
  obtain ⟨h1, h2, h3, h4⟩ := h
  unfold AgendamentoHandler.UpdateStatus
  by_cases he : status = ""
  · simp [he]
  · simp [he, h1, h2, h3, h4]

/-- C12, witness: the label `remarcado` on the table that holds `A1`, with the service of the
application behind the handler. -/
theorem c12_status_invalido_witness :
    "remarcado" ∉ rotulosDeStatus ∧
    AgendamentoHandler.UpdateStatus (espiao (NewAgendamentoService 1)) (bancoA1, [])
        (some 10) (.ok "remarcado") =
      ((bancoA1, []), ⟨http.StatusBadRequest, .erro "Status inválido"⟩) :=
  ⟨by decide,
   Prod.ext (c12_status_invalido Banco (NewAgendamentoService 1) bancoA1 10 "remarcado"
      (by decide)).1 (by decide)⟩

/-- C13, evaluated at its failing input. On the table that holds `A1` (identity 10) alone,
`UpdateStatus(99, cancelado)` returns no error, and the handler answers 200 with the message of
success; the table is as before. -/
theorem c13_id_ausente_sem_erro :
    bancoA1.agendamentos.any (fun m => m.ID == 99) = false ∧
    (agendamentoService.UpdateStatus bancoA1 99 StatusCancelado).2 = none ∧
    (AgendamentoHandler.UpdateStatus (NewAgendamentoService 1) bancoA1 (some 99)
        (.ok "cancelado")).2 = ⟨http.StatusOK, .mensagem "Status atualizado com sucesso"⟩ ∧
    (AgendamentoHandler.UpdateStatus (NewAgendamentoService 1) bancoA1 (some 99)
        (.ok "cancelado")).1.agendamentos = bancoA1.agendamentos := by
  decide

/-- C14. `UpdateStatus(id, s)` returns no error and leaves a table of the same rows in the same
order, in which a row with identity `id` has status `s` and its other fields as before, and a
row with another identity is as before; the other tables are untouched. -/
theorem c14_so_o_status (b : Banco) (id : UUID) (s : String) :
    (agendamentoService.UpdateStatus b id s).2 = none ∧
    List.Forall₂ (fun antes depois =>
        (antes.ID = id →
          depois.Status = s ∧ depois.ID = antes.ID ∧ depois.DataHora = antes.DataHora ∧
          depois.ClienteID = antes.ClienteID ∧ depois.ServicoID = antes.ServicoID ∧
          depois.MassoterapeutaID = antes.MassoterapeutaID ∧
          depois.ValorCobrado = antes.ValorCobrado ∧ depois.Observacoes = antes.Observacoes) ∧
        (antes.ID ≠ id → depois = antes))
      b.agendamentos (agendamentoService.UpdateStatus b id s).1.agendamentos ∧
    (agendamentoService.UpdateStatus b id s).1.clientes = b.clientes ∧
    (agendamentoService.UpdateStatus b id s).1.servicos = b.servicos ∧
    (agendamentoService.UpdateStatus b id s).1.usuarios = b.usuarios := by
  rw [updateStatus_eq]
  refine ⟨rfl, ?_, rfl, rfl, rfl⟩
  show List.Forall₂ _ b.agendamentos (b.agendamentos.map _)
  rw [List.forall₂_map_right_iff, List.forall₂_same]
  intro m _
  by_cases hid : m.ID = id
  · simp [hid]
  · simp [hid]

/-- C15. No status is terminal. For every stored appointment, whatever its current status, and
every label among `agendado`, `confirmado`, `realizado` and `cancelado`,
`AgendamentoHandler.UpdateStatus` over the service of the application answers 200 and the
appointment is stored with the label as its status and its other fields as before. -/
theorem c15_nenhum_status_terminal (b : Banco) (rand : Nat) (m : AgendamentoModel)
    (rotulo : String) (hm : m ∈ b.agendamentos) (hr : rotulo ∈ rotulosDeStatus) :
    (AgendamentoHandler.UpdateStatus (NewAgendamentoService rand) b (some m.ID)
        (.ok rotulo)).2 = ⟨http.StatusOK, .mensagem "Status atualizado com sucesso"⟩ ∧
    { m with Status := rotulo } ∈
      (AgendamentoHandler.UpdateStatus (NewAgendamentoService rand) b (some m.ID)
        (.ok rotulo)).1.agendamentos ∧
    ∀ m2 ∈ (AgendamentoHandler.UpdateStatus (NewAgendamentoService rand) b (some m.ID)
        (.ok rotulo)).1.agendamentos, m2.ID = m.ID → m2.Status = rotulo := by
  rw [handlerUpdateStatus_valido _ _ _ _ hr]
  show (match agendamentoService.UpdateStatus b m.ID rotulo with
      | (s1, some err) => (s1, (⟨http.StatusInternalServerError, .erro err.mensagem⟩ : Resposta))
      | (s1, none) => (s1, ⟨http.StatusOK, .mensagem "Status atualizado com sucesso"⟩)).2 = _ ∧ _
  rw [updateStatus_eq]
  refine ⟨rfl, ?_, ?_⟩
  · show _ ∈ b.agendamentos.map _
    rw [List.mem_map]
    exact ⟨m, hm, by simp⟩
  · intro m2 hm2 hid
    have hm2' : m2 ∈ b.agendamentos.map
        (fun x => if x.ID = m.ID then { x with Status := rotulo } else x) := hm2
    rw [List.mem_map] at hm2'
    obtain ⟨x, _, rfl⟩ := hm2'
    by_cases hx : x.ID = m.ID
    · simp [hx]
    · simp [hx] at hid

/-- C15, witness on the table that holds `A1` cancelled: the label `agendado`. -/
theorem c15_nenhum_status_terminal_witness :
    { A1 with Status := StatusCancelado } ∈ bancoA1Cancelado.agendamentos ∧
    "agendado" ∈ rotulosDeStatus ∧
    (AgendamentoHandler.UpdateStatus (NewAgendamentoService 1) bancoA1Cancelado (some 10)
        (.ok "agendado")).2 = ⟨http.StatusOK, .mensagem "Status atualizado com sucesso"⟩ ∧
    A1 ∈ (AgendamentoHandler.UpdateStatus (NewAgendamentoService 1) bancoA1Cancelado (some 10)
        (.ok "agendado")).1.agendamentos :=
  ⟨by decide, by decide,
   (c15_nenhum_status_terminal bancoA1Cancelado 1 { A1 with Status := StatusCancelado }
      "agendado" (by decide) (by decide)).1,
   (c15_nenhum_status_terminal bancoA1Cancelado 1 { A1 with Status := StatusCancelado }
      "agendado" (by decide) (by decide)).2.1⟩

/-- C16. A reschedule request by a client who does not own the appointment is refused without
side effect. Through `AgendamentoHandler.SolicitarReagendamento` over the service of the
application: when the actor has role `cliente` and an id other than the `ClienteID` of the
stored appointment, the answer is 403, the only call the service receives is `GetByID`, and the
appointment table is not written. Through `agendamentoService.SolicitarReagendamento` with a
client id other than the `ClienteID` of the appointment: the error is the not-authorized one
and the appointment table is not written. -/
theorem c16_cliente_nao_dono :
    (∀ (b : Banco) (rand : Nat) (id u : UUID) (c : Keys) (m : AgendamentoModel),
      b.agendamentos.find? (fun x => x.ID == id) = some m →
      c.Get UsuarioIDKey = some (.uuid u) → c.Get PerfilKey = some (.texto PerfilCliente) →
      m.ClienteID ≠ u →
      (AgendamentoHandler.SolicitarReagendamento (espiao (NewAgendamentoService rand)) (b, [])
          (some id) c).2 = ⟨http.StatusForbidden,
            .erro "Você não tem permissão para reagendar este agendamento"⟩ ∧
      (AgendamentoHandler.SolicitarReagendamento (espiao (NewAgendamentoService rand)) (b, [])
          (some id) c).1.2 = [.getByID id] ∧
      semEscrita b (AgendamentoHandler.SolicitarReagendamento
        (espiao (NewAgendamentoService rand)) (b, []) (some id) c).1.1 = true) ∧
    (∀ (b : Banco) (id clienteID : UUID) (m : AgendamentoModel),
      b.agendamentos.find? (fun x => x.ID == id) = some m → m.ClienteID ≠ clienteID →
      (agendamentoService.SolicitarReagendamento b id clienteID).2 = some .naoAutorizado ∧
      semEscrita b (agendamentoService.SolicitarReagendamento b id clienteID).1 = true) := by
  constructor
  · intro b rand id u c m hf hu hp hne
    rw [handlerSolicitar_real b rand id u c m hu hf]
    have hperfil : perfilDoContexto c = "cliente" := by
      unfold perfilDoContexto; rw [hp]; rfl
    have hcond : (perfilDoContexto c == "admin" || perfilDoContexto c == "massoterapeuta" ||
          m.ClienteID == u) = false := by
      rw [hperfil]
      have : (m.ClienteID == u) = false := by simpa using hne
      rw [this]; decide
    rw [hcond]
    exact ⟨rfl, rfl, semEscrita_of_log _ _ [.selectAgendamento id] rfl rfl
      (by simp [Consulta.escreve])⟩
  · intro b id clienteID m hf hne
    rw [solicitar_naoAutorizado b id clienteID m hf hne]
    exact ⟨rfl, semEscrita_of_log _ _ [.selectAgendamento id] rfl rfl
      (by simp [Consulta.escreve])⟩

/-- C16, witness on the table that holds `A1`, whose client is `C1` (id 3): the handler called
by the user 4 with role `cliente`, and the service called with client id 4. -/
theorem c16_cliente_nao_dono_witness :
    ((AgendamentoHandler.SolicitarReagendamento (espiao (NewAgendamentoService 1)) (bancoA1, [])
          (some 10) (contexto 4 PerfilCliente)).2 = ⟨http.StatusForbidden,
            .erro "Você não tem permissão para reagendar este agendamento"⟩ ∧
      (AgendamentoHandler.SolicitarReagendamento (espiao (NewAgendamentoService 1)) (bancoA1, [])
          (some 10) (contexto 4 PerfilCliente)).1.2 = [.getByID 10] ∧
      semEscrita bancoA1 (AgendamentoHandler.SolicitarReagendamento
        (espiao (NewAgendamentoService 1)) (bancoA1, []) (some 10)
          (contexto 4 PerfilCliente)).1.1 = true) ∧
    ((agendamentoService.SolicitarReagendamento bancoA1 10 4).2 = some .naoAutorizado ∧
      semEscrita bancoA1 (agendamentoService.SolicitarReagendamento bancoA1 10 4).1 = true) :=
  ⟨c16_cliente_nao_dono.1 bancoA1 1 10 4 (contexto 4 PerfilCliente) A1
      (by decide) (by decide) (by decide) (by decide),
   c16_cliente_nao_dono.2 bancoA1 10 4 A1 (by decide) (by decide)⟩

/-- C17. A reschedule request by the owning client or by staff succeeds and only sets the
marker. On a table whose identities are distinct, for a stored appointment with an identity
other than `uuid.Nil` whose client and service exist, when the actor is authenticated and has
role `admin`, has role `massoterapeuta`, or has the id of the client of the appointment,
`AgendamentoHandler.SolicitarReagendamento` over the service of the application answers 200,
and afterwards the appointment has status `reagendamento_solicitado` and its other fields as
before, every other appointment being as before. -/
theorem c17_reagendamento_aceito (b : Banco) (rand : Nat) (m : AgendamentoModel) (u : UUID)
    (c : Keys) (hnd : (b.agendamentos.map (fun x => x.ID)).Nodup) (hm : m ∈ b.agendamentos)
    (hnil : m.ID ≠ uuidNil) (hcli : b.buscaCliente m.ClienteID ≠ none)
    (hsv : b.buscaServico m.ServicoID ≠ none) (hu : c.Get UsuarioIDKey = some (.uuid u))
    (hator : c.Get PerfilKey = some (.texto PerfilAdmin) ∨
      c.Get PerfilKey = some (.texto PerfilMassoterapeuta) ∨ m.ClienteID = u) :
    (AgendamentoHandler.SolicitarReagendamento (NewAgendamentoService rand) b (some m.ID) c).2 =
      ⟨http.StatusOK, .mensagem mensagemReagendamento⟩ ∧
    List.Forall₂ (fun antes depois =>
        (antes.ID = m.ID → depois = { antes with Status := statusReagendamento }) ∧
        (antes.ID ≠ m.ID → depois = antes))
      b.agendamentos
      (AgendamentoHandler.SolicitarReagendamento (NewAgendamentoService rand) b (some m.ID)
        c).1.agendamentos := by
  have hf := find_of_mem_nodup b.agendamentos m hnd hm
  have hg : (NewAgendamentoService rand).GetByID b m.ID =
      (b.registra (.selectAgendamento m.ID), some m.toEntity, none) := by
    show agendamentoService.GetByID b m.ID = _
    rw [getByID_eq, hf]; rfl
  rw [handlerSolicitar_eq _ _ _ m.ID u c m.toEntity hu hg]
  have hcond : (perfilDoContexto c == "admin" || perfilDoContexto c == "massoterapeuta" ||
      m.toEntity.ClienteID == u) = true := by
    rcases hator with h | h | h
    · have : perfilDoContexto c = "admin" := by unfold perfilDoContexto; rw [h]; rfl
      rw [this]; rfl
    · have : perfilDoContexto c = "massoterapeuta" := by unfold perfilDoContexto; rw [h]; rfl
      rw [this]; simp
    · have : (m.toEntity.ClienteID == u) = true := by simpa using h
      rw [this]; simp
  rw [if_pos hcond]
  have hef := solicitar_efeito (b.registra (.selectAgendamento m.ID)) m hnd hm hnil hcli hsv
  have hs : (NewAgendamentoService rand).SolicitarReagendamento
      (b.registra (.selectAgendamento m.ID)) m.ID m.toEntity.ClienteID =
      agendamentoService.SolicitarReagendamento (b.registra (.selectAgendamento m.ID)) m.ID
        m.ClienteID := rfl
  rw [hs]
  generalize agendamentoService.SolicitarReagendamento
      (b.registra (.selectAgendamento m.ID)) m.ID m.ClienteID = r at hef
  obtain ⟨b2, e⟩ := r
  obtain ⟨he, hfa⟩ := hef
  simp only at he
  subst he
  exact ⟨rfl, hfa⟩

/-- C17, witness on the table that holds `A1` (client `C1`, id 3): the request of the admin
with id 9 and the request of the user with id 3 and no role. -/
theorem c17_reagendamento_aceito_witness :
    ((AgendamentoHandler.SolicitarReagendamento (NewAgendamentoService 1) bancoA1 (some A1.ID)
        (contexto 9 PerfilAdmin)).2 = ⟨http.StatusOK, .mensagem mensagemReagendamento⟩ ∧
      List.Forall₂ (fun antes depois =>
          (antes.ID = A1.ID → depois = { antes with Status := statusReagendamento }) ∧
          (antes.ID ≠ A1.ID → depois = antes))
        bancoA1.agendamentos
        (AgendamentoHandler.SolicitarReagendamento (NewAgendamentoService 1) bancoA1
          (some A1.ID) (contexto 9 PerfilAdmin)).1.agendamentos) ∧
    (AgendamentoHandler.SolicitarReagendamento (NewAgendamentoService 1) bancoA1 (some A1.ID)
        (contextoSemPerfil 3)).1.agendamentos = [{ A1 with Status := statusReagendamento }] :=
  ⟨c17_reagendamento_aceito bancoA1 1 A1 9 (contexto 9 PerfilAdmin)
      (by decide) (by decide) (by decide) (by decide) (by decide) (by decide) (by decide),
   by decide⟩

/-- C18, counterexample. On the table that holds `A1` cancelled, and on the table that holds
`A1` completed, `SolicitarReagendamento` for its client returns no error and the stored status
becomes `reagendamento_solicitado`. -/
theorem c18_reagendamento_de_cancelado :
    (agendamentoService.SolicitarReagendamento bancoA1Cancelado 10 3).2 = none ∧
    (agendamentoService.SolicitarReagendamento bancoA1Cancelado 10 3).1.agendamentos.map
      (fun m => m.Status) = ["reagendamento_solicitado"] ∧
    (agendamentoService.SolicitarReagendamento bancoA1Realizado 10 3).2 = none ∧
    (agendamentoService.SolicitarReagendamento bancoA1Realizado 10 3).1.agendamentos.map
      (fun m => m.Status) = ["reagendamento_solicitado"] := by
  decide

/-- C18, as amended. `SolicitarReagendamento` does not look at the current status. On a table
whose identities are distinct, for a stored appointment in any status, with an identity other
than `uuid.Nil`, whose client and service exist, the call for its client returns no error and
leaves the appointment with status `reagendamento_solicitado` and its other fields as before,
every other appointment being as before. -/
theorem c18_reagendamento_de_qualquer_status (b : Banco) (m : AgendamentoModel)
    (hnd : (b.agendamentos.map (fun x => x.ID)).Nodup) (hm : m ∈ b.agendamentos)
    (hnil : m.ID ≠ uuidNil) (hcli : b.buscaCliente m.ClienteID ≠ none)
    (hsv : b.buscaServico m.ServicoID ≠ none) :
    (agendamentoService.SolicitarReagendamento b m.ID m.ClienteID).2 = none ∧
    { m with Status := statusReagendamento } ∈
      (agendamentoService.SolicitarReagendamento b m.ID m.ClienteID).1.agendamentos ∧
    List.Forall₂ (fun antes depois =>
        (antes.ID = m.ID → depois = { antes with Status := statusReagendamento }) ∧
        (antes.ID ≠ m.ID → depois = antes))
      b.agendamentos
      (agendamentoService.SolicitarReagendamento b m.ID m.ClienteID).1.agendamentos := by
  obtain ⟨hok, hfa⟩ := solicitar_efeito b m hnd hm hnil hcli hsv
  refine ⟨hok, ?_, hfa⟩
  obtain ⟨m2, hm2, hrel⟩ := forall₂_mem_esquerda hfa m hm
  rw [← hrel.1 rfl]
  exact hm2

/-- C18, witness of the amended statement on the table that holds `A1` completed. -/
theorem c18_reagendamento_de_qualquer_status_witness :
    { A1 with Status := StatusRealizado } ∈ bancoA1Realizado.agendamentos ∧
    ((agendamentoService.SolicitarReagendamento bancoA1Realizado 10 3).2 = none ∧
    { { A1 with Status := StatusRealizado } with Status := statusReagendamento } ∈
      (agendamentoService.SolicitarReagendamento bancoA1Realizado 10 3).1.agendamentos ∧
    List.Forall₂ (fun antes depois =>
        (antes.ID = 10 → depois = { antes with Status := statusReagendamento }) ∧
        (antes.ID ≠ 10 → depois = antes))
      bancoA1Realizado.agendamentos
      (agendamentoService.SolicitarReagendamento bancoA1Realizado 10 3).1.agendamentos) :=
  ⟨by decide, c18_reagendamento_de_qualquer_status bancoA1Realizado
    { A1 with Status := StatusRealizado } (by decide) (by decide) (by decide) (by decide)
    (by decide)⟩

/-- C19. `RequirePerfil(allowed)` reaches `c.Next()` exactly when the context holds a user id
and a string role that is a member of `allowed`. On each of the routes create, update, change
status and delete, which `main` puts behind `RequirePerfil("admin", "massoterapeuta")`, an
authenticated actor with role `admin` or `massoterapeuta` reaches the handler, and an
authenticated actor with role `cliente` is answered 403 while the handler is not run. -/
theorem c19_guarda_de_perfil :
    (∀ (perfisPermitidos : List String) (c : Keys),
      RequirePerfil perfisPermitidos c = none ↔
        (c.Get UsuarioIDKey).isSome = true ∧
          ∃ perfil, c.Get PerfilKey = some (.texto perfil) ∧ perfil ∈ perfisPermitidos) ∧
    (∀ (σ : Type) (rota : Rota) (handler : σ → σ × Resposta) (c : Keys) (s : σ)
        (usuario : Valor) (perfil : String),
      rota ≠ .solicitarReagendamento →
      c.Get UsuarioIDKey = some usuario → c.Get PerfilKey = some (.texto perfil) →
      ((perfil = "admin" ∨ perfil = "massoterapeuta") →
        serve rota.middlewares handler c s = handler s) ∧
      (perfil = "cliente" →
        serve rota.middlewares handler c s =
          (s, ⟨http.StatusForbidden, .erro "Acesso não autorizado para este perfil"⟩))) := by
  refine ⟨requirePerfil_none_iff, ?_⟩
  intro σ rota handler c s usuario perfil hrota hu hp
  have hm : rota.middlewares = [RequirePerfil ["admin", "massoterapeuta"]] := by
    cases rota <;> first | rfl | exact absurd rfl hrota
  rw [hm]
  constructor
  · intro hperfil
    have : RequirePerfil ["admin", "massoterapeuta"] c = none := by
      rw [requirePerfil_none_iff]
      refine ⟨by simp [hu], perfil, hp, ?_⟩
      rcases hperfil with h | h <;> simp [h]
    simp [serve, this]
  · intro hperfil
    subst hperfil
    have : RequirePerfil ["admin", "massoterapeuta"] c =
        some ⟨http.StatusForbidden, .erro "Acesso não autorizado para este perfil"⟩ := by
      unfold RequirePerfil
      simp only [hu, hp]
      decide
    simp [serve, this]

/-- C19, witness on the table that holds `A1`: the admin with id 9 reaches the handler of the
route create, the client with id 3 is answered 403 on the route change status, and the guard
passes for the practitioner with id 2. -/
theorem c19_guarda_de_perfil_witness :
    RequirePerfil ["admin", "massoterapeuta"] (contexto 2 PerfilMassoterapeuta) = none ∧
    serve Rota.create.middlewares
        (fun s => AgendamentoHandler.Create (NewAgendamentoService 1) s
          (.ok (pedido 0 4 (hora 12 0)))) (contexto 9 PerfilAdmin) bancoA1 =
      AgendamentoHandler.Create (NewAgendamentoService 1) bancoA1
        (.ok (pedido 0 4 (hora 12 0))) ∧
    serve Rota.updateStatus.middlewares
        (fun s => AgendamentoHandler.UpdateStatus (NewAgendamentoService 1) s (some 10)
          (.ok "cancelado")) (contexto 3 PerfilCliente) bancoA1 =
      (bancoA1, ⟨http.StatusForbidden, .erro "Acesso não autorizado para este perfil"⟩) :=
  ⟨(c19_guarda_de_perfil.1 ["admin", "massoterapeuta"] (contexto 2 PerfilMassoterapeuta)).mpr
      ⟨by decide, "massoterapeuta", by decide, by decide⟩,
   (c19_guarda_de_perfil.2 Banco .create _ (contexto 9 PerfilAdmin) bancoA1 (.uuid 9) "admin"
      (by decide) (by decide) (by decide)).1 (Or.inl rfl),
   (c19_guarda_de_perfil.2 Banco .updateStatus _ (contexto 3 PerfilCliente) bancoA1 (.uuid 3)
      "cliente" (by decide) (by decide) (by decide)).2 rfl⟩

/-- C20, counterexample. An authenticated actor without role, and one with the role `gerente`,
are answered 403 and not 401 by `RequirePerfil("admin", "massoterapeuta")`. On the reschedule
route, the actor with id 3 and role `gerente`, and the actor with id 3 and no role, are
answered 200 for the appointment `A1` of client 3, which is stored with the marker status. -/
theorem c20_perfil_desconhecido_nao_e_401 :
    RequirePerfil ["admin", "massoterapeuta"] (contextoSemPerfil 3) =
      some ⟨http.StatusForbidden, .erro "Perfil não disponível"⟩ ∧
    RequirePerfil ["admin", "massoterapeuta"] (contexto 3 "gerente") =
      some ⟨http.StatusForbidden, .erro "Acesso não autorizado para este perfil"⟩ ∧
    (serve Rota.solicitarReagendamento.middlewares
        (fun s => AgendamentoHandler.SolicitarReagendamento (NewAgendamentoService 1) s
          (some 10) (contexto 3 "gerente")) (contexto 3 "gerente") bancoA1).2 =
      ⟨http.StatusOK, .mensagem mensagemReagendamento⟩ ∧
    (serve Rota.solicitarReagendamento.middlewares
        (fun s => AgendamentoHandler.SolicitarReagendamento (NewAgendamentoService 1) s
          (some 10) (contextoSemPerfil 3)) (contextoSemPerfil 3) bancoA1).2 =
      ⟨http.StatusOK, .mensagem mensagemReagendamento⟩ ∧
    (serve Rota.solicitarReagendamento.middlewares
        (fun s => AgendamentoHandler.SolicitarReagendamento (NewAgendamentoService 1) s
          (some 10) (contextoSemPerfil 3)) (contextoSemPerfil 3) bancoA1).1.agendamentos =
      [{ A1 with Status := statusReagendamento }] := by
  decide

/-- C20, as amended. An unauthenticated actor (no user id in the context) is answered 401 on
every appointment mutation: by `RequirePerfil` on the routes create, update, change status and
delete, whose handler is not run, and by `AgendamentoHandler.SolicitarReagendamento` on the
reschedule route, which calls no service method. An authenticated actor whose role is missing,
or is a string other than `admin` and `massoterapeuta`, is answered 403 by `RequirePerfil` on
the first four routes, whose handler is not run; on the reschedule route, for an appointment
the service finds, such an actor is answered 403 without a call of `SolicitarReagendamento`
when its id is not the `ClienteID` of the appointment, and is let through to
`SolicitarReagendamento` when it is. -/
theorem c20_negacoes_por_perfil :
    (∀ (σ : Type) (rota : Rota) (handler : σ → σ × Resposta) (c : Keys) (s : σ),
      rota ≠ .solicitarReagendamento → c.Get UsuarioIDKey = none →
      serve rota.middlewares handler c s =
        (s, ⟨http.StatusUnauthorized, .erro "Usuário não autenticado"⟩)) ∧
    (∀ (σ : Type) (svc : AgendamentoService σ) (s : σ) (id : UUID) (c : Keys),
      c.Get UsuarioIDKey = none →
      serve Rota.solicitarReagendamento.middlewares
          (fun s1 => AgendamentoHandler.SolicitarReagendamento (espiao svc) s1 (some id) c)
          c (s, []) =
        ((s, []), ⟨http.StatusUnauthorized, .erro "Usuário não autenticado"⟩)) ∧
    (∀ (σ : Type) (rota : Rota) (handler : σ → σ × Resposta) (c : Keys) (s : σ) (usuario : Valor),
      rota ≠ .solicitarReagendamento → c.Get UsuarioIDKey = some usuario →
      (c.Get PerfilKey = none ∨
        ∃ p, c.Get PerfilKey = some (.texto p) ∧ p ≠ "admin" ∧ p ≠ "massoterapeuta") →
      ∃ msg, serve rota.middlewares handler c s = (s, ⟨http.StatusForbidden, .erro msg⟩)) ∧
    (∀ (σ : Type) (svc : AgendamentoService σ) (s s1 : σ) (id u : UUID) (c : Keys)
        (ag : Agendamento),
      c.Get UsuarioIDKey = some (.uuid u) →
      (c.Get PerfilKey = none ∨
        ∃ p, c.Get PerfilKey = some (.texto p) ∧ p ≠ "admin" ∧ p ≠ "massoterapeuta") →
      svc.GetByID s id = (s1, some ag, none) →
      (ag.ClienteID ≠ u →
        serve Rota.solicitarReagendamento.middlewares
            (fun s0 => AgendamentoHandler.SolicitarReagendamento (espiao svc) s0 (some id) c)
            c (s, []) =
          ((s1, [.getByID id]), ⟨http.StatusForbidden,
            .erro "Você não tem permissão para reagendar este agendamento"⟩)) ∧
      (ag.ClienteID = u →
        (serve Rota.solicitarReagendamento.middlewares
            (fun s0 => AgendamentoHandler.SolicitarReagendamento (espiao svc) s0 (some id) c)
            c (s, [])).1 =
          ((svc.SolicitarReagendamento s1 id u).1,
            [.getByID id, .solicitarReagendamento id u]))) := by
  refine ⟨?_, ?_, ?_, ?_⟩
  · intro σ rota handler c s hrota hu
    have hm : rota.middlewares = [RequirePerfil ["admin", "massoterapeuta"]] := by
      cases rota <;> first | rfl | exact absurd rfl hrota
    rw [hm]
    simp [serve, RequirePerfil, hu]
  · intro σ svc s id c hu
    simp [Rota.middlewares, serve, AgendamentoHandler.SolicitarReagendamento, hu]
  · intro σ rota handler c s usuario hrota hu hp
    have hm : rota.middlewares = [RequirePerfil ["admin", "massoterapeuta"]] := by
      cases rota <;> first | rfl | exact absurd rfl hrota
    rw [hm]
    rcases hp with hp | ⟨p, hp, h1, h2⟩
    · exact ⟨"Perfil não disponível", by simp [serve, RequirePerfil, hu, hp]⟩
    · refine ⟨"Acesso não autorizado para este perfil", ?_⟩
      simp [serve, RequirePerfil, hu, hp, h1, h2]
  · intro σ svc s s1 id u c ag hu hp hg
    have hperfil : (perfilDoContexto c == "admin") = false ∧
        (perfilDoContexto c == "massoterapeuta") = false := by
      rcases hp with hp | ⟨p, hp, h1, h2⟩
      · have : perfilDoContexto c = "" := by unfold perfilDoContexto; rw [hp]
        rw [this]; exact ⟨by decide, by decide⟩
      · have : perfilDoContexto c = p := by unfold perfilDoContexto; rw [hp]
        rw [this]; exact ⟨by simpa using h1, by simpa using h2⟩
    have hg2 : (espiao svc).GetByID (s, []) id = ((s1, [.getByID id]), some ag, none) := by
      show (((svc.GetByID s id).1, [] ++ [Chamada.getByID id]), (svc.GetByID s id).2) = _
      rw [hg]; rfl
    have hserve : serve Rota.solicitarReagendamento.middlewares
        (fun s0 => AgendamentoHandler.SolicitarReagendamento (espiao svc) s0 (some id) c)
        c (s, []) =
        AgendamentoHandler.SolicitarReagendamento (espiao svc) (s, []) (some id) c := rfl
    rw [hserve, handlerSolicitar_eq _ _ _ id u c ag hu hg2, hperfil.1, hperfil.2]
    constructor
    · intro hne
      have : (ag.ClienteID == u) = false := by simpa using hne
      rw [this]; rfl
    · intro heq
      subst heq
      have : (ag.ClienteID == ag.ClienteID) = true := by simp
      rw [this]
      simp only [Bool.or_self, Bool.false_or, if_true]
      have hs : (espiao svc).SolicitarReagendamento (s1, [Chamada.getByID id]) id ag.ClienteID =
          (((svc.SolicitarReagendamento s1 id ag.ClienteID).1,
            [Chamada.getByID id, Chamada.solicitarReagendamento id ag.ClienteID]),
          (svc.SolicitarReagendamento s1 id ag.ClienteID).2) := rfl
      rw [hs]
      generalize svc.SolicitarReagendamento s1 id ag.ClienteID = r
      obtain ⟨s2, e⟩ := r
      cases e <;> rfl

/-- C20, witness of the amended statement on the table that holds `A1` (client 3): no user id
on the route create and on the reschedule route; the user 3 without role on the route delete;
the user 4 with role `gerente` on the reschedule route. -/
theorem c20_negacoes_por_perfil_witness :
    serve Rota.create.middlewares
        (fun s => AgendamentoHandler.Create (NewAgendamentoService 1) s
          (.ok (pedido 0 4 (hora 12 0)))) [] bancoA1 =
      (bancoA1, ⟨http.StatusUnauthorized, .erro "Usuário não autenticado"⟩) ∧
    serve Rota.solicitarReagendamento.middlewares
        (fun s1 => AgendamentoHandler.SolicitarReagendamento (espiao (NewAgendamentoService 1))
          s1 (some 10) []) [] (bancoA1, []) =
      ((bancoA1, []), ⟨http.StatusUnauthorized, .erro "Usuário não autenticado"⟩) ∧
    (∃ msg, serve Rota.delete.middlewares (fun s => (s, ⟨http.StatusOK, .vazio⟩))
        (contextoSemPerfil 3) bancoA1 = (bancoA1, ⟨http.StatusForbidden, .erro msg⟩)) ∧
    serve Rota.solicitarReagendamento.middlewares
        (fun s0 => AgendamentoHandler.SolicitarReagendamento (espiao (NewAgendamentoService 1))
          s0 (some 10) (contexto 4 "gerente")) (contexto 4 "gerente") (bancoA1, []) =
      ((bancoA1.registra (.selectAgendamento 10), [.getByID 10]), ⟨http.StatusForbidden,
        .erro "Você não tem permissão para reagendar este agendamento"⟩) :=
  ⟨c20_negacoes_por_perfil.1 Banco .create _ [] bancoA1 (by decide) (by decide),
   c20_negacoes_por_perfil.2.1 Banco (NewAgendamentoService 1) bancoA1 10 [] (by decide),
   c20_negacoes_por_perfil.2.2.1 Banco .delete _ (contextoSemPerfil 3) bancoA1 (.uuid 3)
     (by decide) (by decide) (Or.inl (by decide)),
   (c20_negacoes_por_perfil.2.2.2 Banco (NewAgendamentoService 1) bancoA1
     (bancoA1.registra (.selectAgendamento 10)) 10 4 (contexto 4 "gerente") A1.toEntity
     (by decide) (Or.inr ⟨"gerente", by decide, by decide, by decide⟩) (by decide)).1
     (by decide)⟩

/-- C21. `agendamentoService.Update` makes no conflict test. Given an appointment with an
identity other than `uuid.Nil`, it returns no error and stores exactly that appointment under
its identity, every row with another identity being kept. On the table that holds `A1` (10:00)
and `B1` (12:00), both scheduled for `P` and not overlapping, the update that moves `B1` to
10:30 succeeds and leaves the two rows overlapping. -/
theorem c21_update_sem_teste_de_conflito :
    (∀ (b : Banco) (ag : Agendamento), ag.ID ≠ uuidNil →
      (agendamentoService.Update b ag).2 = (ag, none) ∧
      agendamentoFromEntity ag ∈ (agendamentoService.Update b ag).1.agendamentos ∧
      (∀ m ∈ (agendamentoService.Update b ag).1.agendamentos,
        (m.ID = ag.ID → m = agendamentoFromEntity ag) ∧ (m.ID ≠ ag.ID → m ∈ b.agendamentos)) ∧
      (∀ m ∈ b.agendamentos, m.ID ≠ ag.ID →
        m ∈ (agendamentoService.Update b ag).1.agendamentos)) ∧
    (semSobreposicao bancoA1B1 = true ∧
      (agendamentoService.Update bancoA1B1 B1as1030).2.2 = none ∧
      (agendamentoService.Update bancoA1B1 B1as1030).1.agendamentos =
        [A1, { B1 with DataHora := hora 10 30 }] ∧
      conflitam bancoA1B1 A1 { B1 with DataHora := hora 10 30 } = true ∧
      semSobreposicao (agendamentoService.Update bancoA1B1 B1as1030).1 = false) := by
  refine ⟨?_, by decide⟩
  intro b ag hnil
  rw [serviceUpdate_eq b ag hnil]
  by_cases hex : b.agendamentos.any (fun m => m.ID == ag.ID) = true
  · simp only [hex, if_true]
    refine ⟨trivial, ?_, ?_, ?_⟩
    · obtain ⟨m, hm, hid⟩ := List.any_eq_true.mp hex
      exact List.mem_map.mpr ⟨m, hm, by simp [beq_iff_eq.mp hid]⟩
    · intro m hm
      obtain ⟨m0, hm0, rfl⟩ := List.mem_map.mp hm
      by_cases hid : m0.ID = ag.ID
      · simp [hid, agendamentoFromEntity]
      · simp [hid, hm0]
    · intro m hm hid
      exact List.mem_map.mpr ⟨m, hm, by simp [hid]⟩
  · have hex2 : ∀ x ∈ b.agendamentos, ¬ x.ID = ag.ID := by simpa using hex
    simp only [hex, if_false, Bool.false_eq_true]
    refine ⟨trivial, ?_, ?_, ?_⟩
    · exact List.mem_append.mpr (Or.inr (List.mem_singleton.mpr rfl))
    · intro m hm
      rcases List.mem_append.mp hm with h | h
      · exact ⟨fun hid => absurd hid (hex2 m h), fun _ => h⟩
      · rw [List.mem_singleton] at h
        subst h
        exact ⟨fun _ => rfl, fun hne => absurd rfl hne⟩
    · intro m hm _
      exact List.mem_append.mpr (Or.inl hm)

/-- C21, witness of the general part on the table that holds `A1` and `B1`. -/
theorem c21_update_sem_teste_de_conflito_witness :
    B1as1030.ID ≠ uuidNil ∧
    (agendamentoService.Update bancoA1B1 B1as1030).2 = (B1as1030, none) ∧
    agendamentoFromEntity B1as1030 ∈ (agendamentoService.Update bancoA1B1 B1as1030).1.agendamentos :=
  ⟨by decide, (c21_update_sem_teste_de_conflito.1 bancoA1B1 B1as1030 (by decide)).1,
    (c21_update_sem_teste_de_conflito.1 bancoA1B1 B1as1030 (by decide)).2.1⟩

/-- C22. Persistence round trip: `toEntity(agendamentoFromEntity(e))` is `e` for every
appointment `e`, the stored status being the status of `e` as a string, so that each label is
read back as it was written; and the four constants of `StatusAgendamento` are the strings
`agendado`, `confirmado`, `realizado` and `cancelado`. -/
theorem c22_ida_e_volta :
    (∀ e : Agendamento, (agendamentoFromEntity e).toEntity = e) ∧
    (∀ e : Agendamento, (agendamentoFromEntity e).Status = e.Status ∧
      (agendamentoFromEntity e).toEntity.Status = e.Status) ∧
    (∀ e : Agendamento,
      (agendamentoFromEntity e).toEntity.ID = e.ID ∧
      (agendamentoFromEntity e).toEntity.DataHora = e.DataHora ∧
      (agendamentoFromEntity e).toEntity.ClienteID = e.ClienteID ∧
      (agendamentoFromEntity e).toEntity.ServicoID = e.ServicoID ∧
      (agendamentoFromEntity e).toEntity.MassoterapeutaID = e.MassoterapeutaID ∧
      (agendamentoFromEntity e).toEntity.ValorCobrado = e.ValorCobrado ∧
      (agendamentoFromEntity e).toEntity.Observacoes = e.Observacoes) ∧
    (∀ rotulo ∈ ["agendado", "confirmado", "realizado", "cancelado", "reagendamento_solicitado"],
      ∀ e : Agendamento, e.Status = rotulo →
        (agendamentoFromEntity e).Status = rotulo ∧
        (agendamentoFromEntity e).toEntity.Status = rotulo) ∧
    StatusAgendado = "agendado" ∧ StatusConfirmado = "confirmado" ∧
    StatusRealizado = "realizado" ∧ StatusCancelado = "cancelado" := by
  refine ⟨fun _ => rfl, fun _ => ⟨rfl, rfl⟩, fun _ => ⟨rfl, rfl, rfl, rfl, rfl, rfl, rfl⟩,
    ?_, rfl, rfl, rfl, rfl⟩
  intro rotulo _ e he
  exact ⟨he, he⟩

/-- C22, witness: the appointment `A1` read back, whose status is `agendado`. -/
theorem c22_ida_e_volta_witness :
    A1.toEntity.Status = "agendado" ∧
    (agendamentoFromEntity A1.toEntity).Status = "agendado" ∧
    (agendamentoFromEntity A1.toEntity).toEntity.Status = "agendado" :=
  ⟨by decide, c22_ida_e_volta.2.2.2.1 "agendado" (by decide) A1.toEntity (by decide)⟩

/-- C23, counterexample. With no service configured in the middleware, as `main` leaves it, the
header `Bearer abc` reaches no `ValidateToken`: the token goes to the local validation, which
fails on it, and the request is answered 401 with the context unchanged. -/
theorem c23_sem_servico_nenhuma_chamada :
    (JWTAuthMiddleware (none : Option (ValidateToken (Unit × List String)))
        (fun _ => .erro "token is malformed: token contains an invalid number of segments")
        (fun _ => none) "Bearer abc" [] ((), [])).1 = ((), []) ∧
    (JWTAuthMiddleware (none : Option (ValidateToken (Unit × List String)))
        (fun _ => .erro "token is malformed: token contains an invalid number of segments")
        (fun _ => none) "Bearer abc" [] ((), [])).2.1 = [] ∧
    (JWTAuthMiddleware (none : Option (ValidateToken (Unit × List String)))
        (fun _ => .erro "token is malformed: token contains an invalid number of segments")
        (fun _ => none) "Bearer abc" [] ((), [])).2.2.map (fun r => r.codigo) =
      some http.StatusUnauthorized := by
  decide

/-- C23, as amended. For a header `Authorization` that is empty or does not start with
`Bearer `, `JWTAuthMiddleware` aborts with 401, hands no token to `ValidateToken` and leaves the
keys of the context as they were. For the header `Bearer ` followed by `t`: when a service is
configured its `ValidateToken` is called once, with `t`; an error of the service is answered
401 with the context unchanged, and claims it accepts set the user id (and the role, when the
claims hold one) and let the request through, or are answered 401 without an id and 500 with an
id that is no UUID. When no service is configured the state behind the service is untouched and
`t` goes to the local validation: an error or a token that is not valid is answered 401 with
the context unchanged, and valid claims are treated as those a service accepts. -/
theorem c23_cabecalho_de_autorizacao :
    (∀ (τ : Type) (svc : Option (ValidateToken τ)) (jwtParse : String → ValidacaoLocal)
        (uuidParse : String → Option UUID) (authHeader : String) (c : Keys) (t : τ),
      (authHeader = "" ∨ ¬ ∃ tok, authHeader = "Bearer " ++ tok) →
      (JWTAuthMiddleware (svc.map espiaoToken) jwtParse uuidParse authHeader c (t, [])).1 =
        (t, []) ∧
      (JWTAuthMiddleware (svc.map espiaoToken) jwtParse uuidParse authHeader c (t, [])).2.1 = c ∧
      ∃ msg, (JWTAuthMiddleware (svc.map espiaoToken) jwtParse uuidParse authHeader c
        (t, [])).2.2 = some ⟨http.StatusUnauthorized, .erro msg⟩) ∧
    (∀ (τ : Type) (svc : ValidateToken τ) (jwtParse : String → ValidacaoLocal)
        (uuidParse : String → Option UUID) (tok : String) (c : Keys) (t : τ),
      (JWTAuthMiddleware (some (espiaoToken svc)) jwtParse uuidParse ("Bearer " ++ tok) c
        (t, [])).1 = ((svc t tok).1, [tok]) ∧
      (∀ err, (svc t tok).2.2 = some err →
        (JWTAuthMiddleware (some (espiaoToken svc)) jwtParse uuidParse ("Bearer " ++ tok) c
          (t, [])).2 =
            (c, some ⟨http.StatusUnauthorized, .erro ("Token inválido: " ++ err)⟩)) ∧
      ((svc t tok).2.2 = none →
        (∀ userID id, Keys.Get (svc t tok).2.1 "id" = some (.texto userID) →
          uuidParse userID = some id →
          (JWTAuthMiddleware (some (espiaoToken svc)) jwtParse uuidParse ("Bearer " ++ tok) c
            (t, [])).2.2 = none ∧
          (∀ perfil, Keys.Get (svc t tok).2.1 "perfil" = some (.texto perfil) →
            (JWTAuthMiddleware (some (espiaoToken svc)) jwtParse uuidParse ("Bearer " ++ tok) c
              (t, [])).2.1 = (c.Set UsuarioIDKey (.uuid id)).Set PerfilKey (.texto perfil)) ∧
          ((∀ perfil, Keys.Get (svc t tok).2.1 "perfil" ≠ some (.texto perfil)) →
            (JWTAuthMiddleware (some (espiaoToken svc)) jwtParse uuidParse ("Bearer " ++ tok) c
              (t, [])).2.1 = c.Set UsuarioIDKey (.uuid id))) ∧
        (∀ userID, Keys.Get (svc t tok).2.1 "id" = some (.texto userID) →
          uuidParse userID = none →
          (JWTAuthMiddleware (some (espiaoToken svc)) jwtParse uuidParse ("Bearer " ++ tok) c
            (t, [])).2 =
              (c, some ⟨http.StatusInternalServerError,
                .erro "ID de usuário inválido no token"⟩)) ∧
        ((∀ userID, Keys.Get (svc t tok).2.1 "id" ≠ some (.texto userID)) →
          (JWTAuthMiddleware (some (espiaoToken svc)) jwtParse uuidParse ("Bearer " ++ tok) c
            (t, [])).2 =
              (c, some ⟨http.StatusUnauthorized, .erro "Token não contém ID de usuário"⟩)))) ∧
    (∀ (τ : Type) (jwtParse : String → ValidacaoLocal) (uuidParse : String → Option UUID)
        (tok : String) (c : Keys) (t : τ),
      (JWTAuthMiddleware none jwtParse uuidParse ("Bearer " ++ tok) c t).1 = t ∧
      (∀ err, jwtParse tok = .erro err →
        JWTAuthMiddleware none jwtParse uuidParse ("Bearer " ++ tok) c t =
          (t, c, some ⟨http.StatusUnauthorized, .erro ("Token inválido: " ++ err)⟩)) ∧
      (jwtParse tok = .invalido →
        JWTAuthMiddleware none jwtParse uuidParse ("Bearer " ++ tok) c t =
          (t, c, some ⟨http.StatusUnauthorized, .erro "Token inválido"⟩)) ∧
      (∀ claims, jwtParse tok = .valido claims →
        JWTAuthMiddleware none jwtParse uuidParse ("Bearer " ++ tok) c t =
          JWTAuthMiddleware (some (fun t0 _ => (t0, claims, none))) jwtParse uuidParse
            ("Bearer " ++ tok) c t)) := by
  refine ⟨?_, ?_, ?_⟩
  · intro τ svc jwtParse uuidParse authHeader c t h
    unfold JWTAuthMiddleware
    by_cases he : authHeader = ""
    · simp [he]
    · have hno : ¬ ∃ tok, authHeader = "Bearer " ++ tok := by
        rcases h with h | h
        · exact absurd h he
        · exact h
      simp [he, trimPrefix_sem authHeader "Bearer " hno]
  · intro τ svc jwtParse uuidParse tok c t
    rcases hr : svc t tok with ⟨t1, claims, e⟩
    have hs := espiaoToken_eq svc t t1 tok claims e hr
    unfold JWTAuthMiddleware
    simp only [trimPrefix_com, if_neg (bearer_ne_vazio tok), if_neg (bearer_ne tok), hs]
    cases e with
    | some err =>
      refine ⟨rfl, ?_, ?_⟩
      · intro err2 h2
        cases h2
        rfl
      · intro h2
        cases h2
    | none =>
      simp only
      refine ⟨?_, ?_, ?_⟩
      · cases Keys.Get claims "id" with
        | none => rfl
        | some v =>
          cases v with
          | uuid x => rfl
          | outro => rfl
          | texto userID =>
            simp only
            cases uuidParse userID <;> rfl
      · intro err2 h2
        cases h2
      · intro _
        refine ⟨?_, ?_, ?_⟩
        · intro userID id hid hu
          simp only [hid, hu]
          refine ⟨trivial, ?_, ?_⟩
          · intro perfil hp
            simp only [hp]
          · intro hp
            cases hpf : Keys.Get claims "perfil" with
            | none => rfl
            | some v =>
              cases v with
              | uuid x => rfl
              | outro => rfl
              | texto perfil => exact absurd hpf (hp perfil)
        · intro userID hid hu
          simp only [hid, hu]
        · intro hid
          cases hk : Keys.Get claims "id" with
          | none => rfl
          | some v =>
            cases v with
            | uuid x => rfl
            | outro => rfl
            | texto userID => exact absurd hk (hid userID)
  · intro τ jwtParse uuidParse tok c t
    unfold JWTAuthMiddleware
    simp only [trimPrefix_com, if_neg (bearer_ne_vazio tok), if_neg (bearer_ne tok)]
    refine ⟨?_, ?_, ?_, ?_⟩
    · cases jwtParse tok with
      | erro msg => rfl
      | invalido => rfl
      | valido claims =>
        simp only
        cases Keys.Get claims "id" with
        | none => rfl
        | some v =>
          cases v with
          | uuid x => rfl
          | outro => rfl
          | texto userID =>
            simp only
            cases uuidParse userID <;> rfl
    · intro err h
      rw [h]
    · intro h
      rw [h]
    · intro claims h
      rw [h]

/-- C23, witness of the amended statement: the header `Basic abc` with a service configured; the
header `Bearer abc` with a service that refuses the token, with a service that accepts it with
the claims of an administrator, and with no service and a local validation that fails. -/
theorem c23_cabecalho_de_autorizacao_witness :
    ((JWTAuthMiddleware ((some validadorFixo).map espiaoToken) (fun _ => .invalido)
        (fun _ => some 7) "Basic abc" ([] : Keys) ((), [])).1 = ((), []) ∧
      (JWTAuthMiddleware ((some validadorFixo).map espiaoToken) (fun _ => .invalido)
        (fun _ => some 7) "Basic abc" ([] : Keys) ((), [])).2.1 = ([] : Keys) ∧
      ∃ msg, (JWTAuthMiddleware ((some validadorFixo).map espiaoToken) (fun _ => .invalido)
        (fun _ => some 7) "Basic abc" ([] : Keys) ((), [])).2.2 =
          some ⟨http.StatusUnauthorized, .erro msg⟩) ∧
    (JWTAuthMiddleware (some (espiaoToken validadorQueRecusa)) (fun _ => .invalido)
        (fun _ => some 7) ("Bearer " ++ "abc") ([] : Keys) ((), [])).2 =
      ([], some ⟨http.StatusUnauthorized, .erro ("Token inválido: " ++ "token expirado")⟩) ∧
    ((JWTAuthMiddleware (some (espiaoToken validadorFixo)) (fun _ => .invalido)
        (fun _ => some 7) ("Bearer " ++ "abc") ([] : Keys) ((), [])).2.2 = none ∧
      (JWTAuthMiddleware (some (espiaoToken validadorFixo)) (fun _ => .invalido)
        (fun _ => some 7) ("Bearer " ++ "abc") ([] : Keys) ((), [])).2.1 =
          (Keys.Set [] UsuarioIDKey (.uuid 7)).Set PerfilKey (.texto "admin")) ∧
    JWTAuthMiddleware none (fun _ => .erro "token malformado") (fun _ => some 7)
        ("Bearer " ++ "abc") ([] : Keys) () =
      ((), [], some ⟨http.StatusUnauthorized, .erro ("Token inválido: " ++ "token malformado")⟩) ∧
    JWTAuthMiddleware none (fun _ => .invalido) (fun _ => some 7) ("Bearer " ++ "abc")
        ([] : Keys) () =
      ((), [], some ⟨http.StatusUnauthorized, .erro "Token inválido"⟩) :=
  ⟨c23_cabecalho_de_autorizacao.1 Unit (some validadorFixo) (fun _ => .invalido)
      (fun _ => some 7) "Basic abc" [] ()
      (Or.inr (by
        rintro ⟨tok, h⟩
        have h2 := congrArg (fun s => s.data.take 2) h
        simp only [String.data_append] at h2
        simp at h2)),
    (c23_cabecalho_de_autorizacao.2.1 Unit validadorQueRecusa (fun _ => .invalido)
      (fun _ => some 7) "abc" [] ()).2.1 "token expirado" rfl,
    ⟨((c23_cabecalho_de_autorizacao.2.1 Unit validadorFixo (fun _ => .invalido)
        (fun _ => some 7) "abc" [] ()).2.2 rfl).1 "u7" 7 (by decide) rfl |>.1,
      ((c23_cabecalho_de_autorizacao.2.1 Unit validadorFixo (fun _ => .invalido)
        (fun _ => some 7) "abc" [] ()).2.2 rfl).1 "u7" 7 (by decide) rfl |>.2.1 "admin"
          (by decide)⟩,
    (c23_cabecalho_de_autorizacao.2.2 Unit (fun _ => .erro "token malformado")
      (fun _ => some 7) "abc" [] ()).2.1 "token malformado" rfl,
    (c23_cabecalho_de_autorizacao.2.2 Unit (fun _ => .invalido) (fun _ => some 7) "abc"
      [] ()).2.2.1 rfl⟩

/-- C24. For a registration request that passes the binding, when `GetAll` succeeds with a list
that holds a user of role admin, `AuthHandler.RegistrarAdmin` answers 403 and the only call the
user service has received is `GetAll`; when `GetAll` succeeds with a list that holds no admin,
the service receives, after `GetAll`, one call of `Registrar`, with the password of the request
and a user of role admin built from the request. -/
theorem c24_administrador_unico {σ : Type} (svc : UsuarioService σ) (s s1 : σ)
    (usuarios : List Usuario) (request : RegistroRequest)
    (hg : svc.GetAll s = (s1, usuarios, none)) :
    ((∃ u ∈ usuarios, u.Perfil = PerfilAdmin) →
      AuthHandler.RegistrarAdmin (espiaoUsuario svc) (s, []) (.ok request) =
        ((s1, [.getAll]),
          ⟨http.StatusForbidden, .erro "Já existe um administrador no sistema"⟩)) ∧
    ((∀ u ∈ usuarios, u.Perfil ≠ PerfilAdmin) →
      ∃ usuario : Usuario, usuario.Perfil = PerfilAdmin ∧
        usuario.NomeCompleto = request.NomeCompleto ∧ usuario.Email = request.Email ∧
        (AuthHandler.RegistrarAdmin (espiaoUsuario svc) (s, []) (.ok request)).1.2 =
          [.getAll, .registrar usuario request.Senha]) := by
  have hs : (espiaoUsuario svc).GetAll (s, []) = ((s1, [.getAll]), usuarios, none) := by
    show (((svc.GetAll s).1, [] ++ [ChamadaUsuario.getAll]), (svc.GetAll s).2) = _
    rw [hg]; rfl
  constructor
  · rintro ⟨u, hu, hp⟩
    have hany : usuarios.any (fun u => u.Perfil == PerfilAdmin) = true :=
      List.any_eq_true.mpr ⟨u, hu, by simp [hp]⟩
    have hlen : decide (usuarios.length > 0) = true := by
      cases usuarios with
      | nil => cases hu
      | cons a l => simp
    unfold AuthHandler.RegistrarAdmin
    simp only [hs, hany, hlen, Option.isNone_none, Bool.and_self, if_true]
  · intro hn
    have hany : usuarios.any (fun u => u.Perfil == PerfilAdmin) = false := by
      rw [List.any_eq_false]
      intro u hu
      simpa using hn u hu
    refine ⟨⟨uuidNil, request.NomeCompleto, request.Email, "", request.Telefone, PerfilAdmin,
      false, timeZero⟩, rfl, rfl, rfl, ?_⟩
    unfold AuthHandler.RegistrarAdmin
    simp only [hs, hany, Bool.and_false, Bool.false_eq_true, if_false]
    generalize hr : svc.Registrar s1 _ request.Senha = r
    obtain ⟨s2, u2, e⟩ := r
    have hr2 : ∀ u, svc.Registrar s1 u request.Senha = (s2, u2, e) →
        (espiaoUsuario svc).Registrar (s1, [.getAll]) u request.Senha =
          ((s2, [.getAll, .registrar u request.Senha]), u2, e) := by
      intro u h
      show (((svc.Registrar s1 u request.Senha).1, [ChamadaUsuario.getAll] ++ [.registrar u request.Senha]),
        (svc.Registrar s1 u request.Senha).2) = _
      rw [h]; rfl
    rw [hr2 _ hr]
    cases e <;> rfl

/-- C24, witness on the service in memory: with the users `P` and `Adm` the answer is 403, and
with the users `P` and `U1` the service receives `Registrar`. -/
theorem c24_administrador_unico_witness :
    AuthHandler.RegistrarAdmin (espiaoUsuario usuariosEmMemoria) ([P, Adm], []) (.ok registro) =
        (([P, Adm], [.getAll]),
          ⟨http.StatusForbidden, .erro "Já existe um administrador no sistema"⟩) ∧
    ∃ usuario : Usuario, usuario.Perfil = PerfilAdmin ∧
        usuario.NomeCompleto = registro.NomeCompleto ∧ usuario.Email = registro.Email ∧
        (AuthHandler.RegistrarAdmin (espiaoUsuario usuariosEmMemoria) ([P, U1], [])
          (.ok registro)).1.2 = [.getAll, .registrar usuario registro.Senha] :=
  ⟨(c24_administrador_unico usuariosEmMemoria [P, Adm] [P, Adm] [P, Adm] registro rfl).1
      ⟨Adm, by decide, rfl⟩,
    (c24_administrador_unico usuariosEmMemoria [P, U1] [P, U1] [P, U1] registro rfl).2
      (by decide)⟩

/-- C25. When the email of the client is not empty and `FindByEmail` returns a stored client
without error, `clienteService.Create` returns the error `email <email> já está em uso`, the
only call the repository has received is that `FindByEmail`, and the client struct is the one
given (its ID, registration date and active flag included). In every other case the repository
receives one `Create`, as the last call, with a struct whose ID is not nil, whose `Ativo` is
true and whose registration date is the current time, and the outcome is the one of that call;
so when the call succeeds and the repository keeps the ID and the active flag of what it stores,
the client ends with an ID that is not nil and `Ativo = true`. -/
theorem c25_email_em_uso {σ : Type} (repo : ClienteRepository σ) (s : σ) (cliente : Cliente)
    (rand : Nat) (agora : Time) :
    (∀ (s1 : σ) (existente : Cliente), cliente.Email ≠ "" →
      repo.FindByEmail s cliente.Email = (s1, some existente, none) →
      clienteService.Create (espiaoCliente repo) (s, []) cliente rand agora =
        ((s1, [.findByEmail cliente.Email]), cliente,
          some ("email " ++ cliente.Email ++ " já está em uso")) ∧
      ∃ p : String, "email " ++ cliente.Email ++ " já está em uso" = p ++ "já está em uso") ∧
    ((cliente.Email = "" ∨
        ∀ (s1 : σ) (existente : Cliente),
          repo.FindByEmail s cliente.Email ≠ (s1, some existente, none)) →
      ∃ (enviado : Cliente) (s1 : σ) (antes : List ChamadaCliente),
        enviado.ID ≠ uuidNil ∧ enviado.Ativo = true ∧ enviado.DataCadastro = agora ∧
        (∀ c, ChamadaCliente.create c ∉ antes) ∧
        clienteService.Create (espiaoCliente repo) (s, []) cliente rand agora =
          (((repo.Create s1 enviado).1, antes ++ [.create enviado]),
            (repo.Create s1 enviado).2) ∧
        ((∀ (s2 : σ) (c : Cliente), (repo.Create s2 c).2.2 = none →
            (repo.Create s2 c).2.1.ID = c.ID ∧ (repo.Create s2 c).2.1.Ativo = c.Ativo) →
          (clienteService.Create (espiaoCliente repo) (s, []) cliente rand agora).2.2 = none →
          (clienteService.Create (espiaoCliente repo) (s, []) cliente rand agora).2.1.ID ≠
              uuidNil ∧
            (clienteService.Create (espiaoCliente repo) (s, []) cliente rand agora).2.1.Ativo =
              true)) := by
  have hf : (espiaoCliente repo).FindByEmail (s, []) cliente.Email =
      (((repo.FindByEmail s cliente.Email).1, [.findByEmail cliente.Email]),
        (repo.FindByEmail s cliente.Email).2) := rfl
  have hc : ∀ (s1 : σ) (l : List ChamadaCliente) (c : Cliente),
      (espiaoCliente repo).Create (s1, l) c =
        (((repo.Create s1 c).1, l ++ [.create c]), (repo.Create s1 c).2) := fun _ _ _ => rfl
  have hid : (if cliente.ID = uuidNil then { cliente with ID := uuidNew rand }
      else cliente).ID ≠ uuidNil := by
    by_cases h : cliente.ID = uuidNil
    · rw [if_pos h]; exact uuidNew_ne_nil rand
    · rw [if_neg h]; exact h
  have fim : ∀ (enviado : Cliente) (s1 : σ) (antes : List ChamadaCliente),
      enviado.ID ≠ uuidNil → enviado.Ativo = true → enviado.DataCadastro = agora →
      (∀ c, ChamadaCliente.create c ∉ antes) →
      clienteService.Create (espiaoCliente repo) (s, []) cliente rand agora =
        (espiaoCliente repo).Create (s1, antes) enviado →
      ∃ (enviado : Cliente) (s1 : σ) (antes : List ChamadaCliente),
        enviado.ID ≠ uuidNil ∧ enviado.Ativo = true ∧ enviado.DataCadastro = agora ∧
        (∀ c, ChamadaCliente.create c ∉ antes) ∧
        clienteService.Create (espiaoCliente repo) (s, []) cliente rand agora =
          (((repo.Create s1 enviado).1, antes ++ [.create enviado]),
            (repo.Create s1 enviado).2) ∧
        ((∀ (s2 : σ) (c : Cliente), (repo.Create s2 c).2.2 = none →
            (repo.Create s2 c).2.1.ID = c.ID ∧ (repo.Create s2 c).2.1.Ativo = c.Ativo) →
          (clienteService.Create (espiaoCliente repo) (s, []) cliente rand agora).2.2 = none →
          (clienteService.Create (espiaoCliente repo) (s, []) cliente rand agora).2.1.ID ≠
              uuidNil ∧
            (clienteService.Create (espiaoCliente repo) (s, []) cliente rand agora).2.1.Ativo =
              true) := by
    intro enviado s1 antes h1 h2 h3 hantes h
    rw [hc] at h
    refine ⟨enviado, s1, antes, h1, h2, h3, hantes, h, ?_⟩
    intro hk hok
    rw [h] at hok ⊢
    have hk2 := hk s1 enviado hok
    exact ⟨by rw [hk2.1]; exact h1, by rw [hk2.2]; exact h2⟩
  constructor
  · intro s1 existente he hfind
    constructor
    · unfold clienteService.Create
      have hb : (cliente.Email != "") = true := by simpa using he
      rw [if_pos hb, hf, hfind]
    · exact ⟨"email " ++ cliente.Email ++ " ", by
        apply String.ext
        simp only [String.data_append, List.append_assoc]
        rfl⟩
  · intro h
    by_cases he : cliente.Email = ""
    · refine fim
        { (if cliente.ID = uuidNil then { cliente with ID := uuidNew rand } else cliente) with
          DataCadastro := agora, Ativo := true } s [] hid rfl rfl (by simp) ?_
      unfold clienteService.Create
      have hb : ¬ (cliente.Email != "") = true := by simp [he]
      rw [if_neg hb]
    · have hno : ∀ (s1 : σ) (existente : Cliente),
          repo.FindByEmail s cliente.Email ≠ (s1, some existente, none) := by
        rcases h with h | h
        · exact absurd h he
        · exact h
      have hb : (cliente.Email != "") = true := by simpa using he
      refine fim
        { (if cliente.ID = uuidNil then { cliente with ID := uuidNew rand } else cliente) with
          DataCadastro := agora, Ativo := true }
        (repo.FindByEmail s cliente.Email).1 [.findByEmail cliente.Email] hid rfl rfl
        (by simp) ?_
      unfold clienteService.Create
      rw [if_pos hb, hf]
      rcases hr : repo.FindByEmail s cliente.Email with ⟨s1, oc, oe⟩
      rw [hr] at hno
      cases oc with
      | none => rfl
      | some c =>
        cases oe with
        | none => exact absurd rfl (hno s1 c)
        | some e => rfl

/-- C25, witness on the repository in memory that holds `C1` and `C2`: the client `C3` has the
email of `C1`, the client `C4` an email nobody holds. -/
theorem c25_email_em_uso_witness :
    (clienteService.Create (espiaoCliente clientesEmMemoria) ([C1, C2], []) C3 9 (hora 9 0) =
        (([C1, C2], [.findByEmail "c1@clinica"]), C3, some "email c1@clinica já está em uso") ∧
      ∃ p : String, "email " ++ C3.Email ++ " já está em uso" = p ++ "já está em uso") ∧
    ∃ (enviado : Cliente) (s1 : List Cliente) (antes : List ChamadaCliente),
      enviado.ID ≠ uuidNil ∧ enviado.Ativo = true ∧ enviado.DataCadastro = hora 9 0 ∧
      (∀ c, ChamadaCliente.create c ∉ antes) ∧
      clienteService.Create (espiaoCliente clientesEmMemoria) ([C1, C2], []) C4 9 (hora 9 0) =
        (((clientesEmMemoria.Create s1 enviado).1, antes ++ [.create enviado]),
          (clientesEmMemoria.Create s1 enviado).2) ∧
      ((∀ (s2 : List Cliente) (c : Cliente), (clientesEmMemoria.Create s2 c).2.2 = none →
          (clientesEmMemoria.Create s2 c).2.1.ID = c.ID ∧
            (clientesEmMemoria.Create s2 c).2.1.Ativo = c.Ativo) →
        (clienteService.Create (espiaoCliente clientesEmMemoria) ([C1, C2], []) C4 9 (hora 9 0)).2.2 =
          none →
        (clienteService.Create (espiaoCliente clientesEmMemoria) ([C1, C2], []) C4 9
            (hora 9 0)).2.1.ID ≠ uuidNil ∧
          (clienteService.Create (espiaoCliente clientesEmMemoria) ([C1, C2], []) C4 9
            (hora 9 0)).2.1.Ativo = true) :=
  ⟨(c25_email_em_uso clientesEmMemoria [C1, C2] C3 9 (hora 9 0)).1 [C1, C2] C1 (by decide)
      (by decide),
    (c25_email_em_uso clientesEmMemoria [C1, C2] C4 9 (hora 9 0)).2
      (Or.inr (fun s1 existente h => by
        have h2 : (clientesEmMemoria.FindByEmail [C1, C2] C4.Email).2.1 = none := by decide
        rw [h] at h2
        cases h2))⟩

/-- C26. For a body that decodes into a service, `ServicoHandler.Create` answers 400 and the
service of services receives no call when the name is empty, or the duration in minutes is not
greater than zero, or the price is not greater than zero; and the service receives a call of
`Create`, one, with the decoded struct, exactly when the three checks pass. -/
theorem c26_validacao_do_servico {σ : Type} (svc : ServicoService σ) (s : σ)
    (servico : Servico) :
    ((servico.NomeServico = "" ∨ servico.DuracaoMinutos ≤ 0 ∨ servico.Valor ≤ 0) →
      (ServicoHandler.Create (espiaoServico svc) (s, []) (.ok servico)).1 = (s, []) ∧
      (ServicoHandler.Create (espiaoServico svc) (s, []) (.ok servico)).2.codigo =
        http.StatusBadRequest) ∧
    ((servico.NomeServico ≠ "" ∧ 0 < servico.DuracaoMinutos ∧ 0 < servico.Valor) →
      (ServicoHandler.Create (espiaoServico svc) (s, []) (.ok servico)).1 =
        ((svc.Create s servico).1, [servico])) ∧
    ((ServicoHandler.Create (espiaoServico svc) (s, []) (.ok servico)).1.2 ≠ [] ↔
      (servico.NomeServico ≠ "" ∧ 0 < servico.DuracaoMinutos ∧ 0 < servico.Valor)) := by
  have hc : (espiaoServico svc).Create (s, []) servico =
      (((svc.Create s servico).1, [servico]), (svc.Create s servico).2) := rfl
  have passa : servico.NomeServico ≠ "" ∧ 0 < servico.DuracaoMinutos ∧ 0 < servico.Valor →
      (ServicoHandler.Create (espiaoServico svc) (s, []) (.ok servico)).1 =
        ((svc.Create s servico).1, [servico]) := by
    rintro ⟨hn, hd, hv⟩
    unfold ServicoHandler.Create
    simp only [if_neg hn, if_neg (not_le.mpr hd), if_neg (not_le.mpr hv), hc]
    rcases svc.Create s servico with ⟨s1, sv1, _ | e⟩ <;> rfl
  have falha : (servico.NomeServico = "" ∨ servico.DuracaoMinutos ≤ 0 ∨ servico.Valor ≤ 0) →
      (ServicoHandler.Create (espiaoServico svc) (s, []) (.ok servico)).1 = (s, []) ∧
      (ServicoHandler.Create (espiaoServico svc) (s, []) (.ok servico)).2.codigo =
        http.StatusBadRequest := by
    intro h
    unfold ServicoHandler.Create
    dsimp only
    by_cases hn : servico.NomeServico = ""
    · rw [if_pos hn]; exact ⟨rfl, rfl⟩
    · by_cases hd : servico.DuracaoMinutos ≤ 0
      · rw [if_neg hn, if_pos hd]; exact ⟨rfl, rfl⟩
      · by_cases hv : servico.Valor ≤ 0
        · rw [if_neg hn, if_neg hd, if_pos hv]; exact ⟨rfl, rfl⟩
        · rcases h with h | h | h
          · exact absurd h hn
          · exact absurd h hd
          · exact absurd h hv
  refine ⟨falha, passa, ?_, ?_⟩
  · intro hne
    by_contra hnot
    have hf : servico.NomeServico = "" ∨ servico.DuracaoMinutos ≤ 0 ∨ servico.Valor ≤ 0 := by
      by_cases hn : servico.NomeServico = ""
      · exact Or.inl hn
      · by_cases hd : servico.DuracaoMinutos ≤ 0
        · exact Or.inr (Or.inl hd)
        · refine Or.inr (Or.inr ?_)
          by_contra hv
          exact hnot ⟨hn, not_le.mp hd, not_le.mp hv⟩
    exact hne (by rw [(falha hf).1])
  · intro h
    rw [passa h]
    simp

/-- C26, witness on the service in memory: the service `S` with duration 0, and the service
`S`. -/
theorem c26_validacao_do_servico_witness :
    ((ServicoHandler.Create (espiaoServico servicosEmMemoria) ([], [])
        (.ok { S with DuracaoMinutos := 0 })).1 = ([], []) ∧
      (ServicoHandler.Create (espiaoServico servicosEmMemoria) ([], [])
        (.ok { S with DuracaoMinutos := 0 })).2.codigo = http.StatusBadRequest) ∧
    (ServicoHandler.Create (espiaoServico servicosEmMemoria) ([], []) (.ok S)).1 =
      ((servicosEmMemoria.Create [] S).1, [S]) :=
  ⟨(c26_validacao_do_servico servicosEmMemoria [] { S with DuracaoMinutos := 0 }).1
      (Or.inr (Or.inl (by decide))),
    (c26_validacao_do_servico servicosEmMemoria [] S).2.1 (by decide)⟩

/-- C27. The conflict test as implemented. For a request with valid references, when
`FindByPeriodo` returns exactly the stored appointments whose start instant lies in the closed
window `[start, start + service.duration]` of the request, `Create` returns the slot-occupied
error exactly when some stored appointment has the practitioner of the request, a status other
than `cancelado`, and a start instant in that window. The services of the stored appointments,
hence their durations, play no role: on any other table whose rows, position by position, have
the same practitioner, status and start time, the verdict is the same. -/
theorem c27_teste_de_conflito_implementado (b : Banco) (ag : Agendamento) (rand : Nat)
    (s : Servico) (href : referenciasValidas b ag = true)
    (hs : b.buscaServico ag.ServicoID = some s)
    (hjanela :
      (agendamentoRepository.FindByPeriodo b ag.DataHora
          (ag.DataHora.Add (duracao s.DuracaoMinutos))).2.1 =
        (b.agendamentos.filter (fun m => decide (ag.DataHora.nanos ≤ m.DataHora.nanos) &&
          decide (m.DataHora.nanos ≤ ag.DataHora.nanos + duracao s.DuracaoMinutos))).map
            AgendamentoModel.toEntity) :
    ((agendamentoService.Create b ag rand).2.2 = some .horarioOcupado ↔
      ∃ m ∈ b.agendamentos, m.MassoterapeutaID = ag.MassoterapeutaID ∧
        m.Status ≠ StatusCancelado ∧ ag.DataHora.nanos ≤ m.DataHora.nanos ∧
        m.DataHora.nanos ≤ ag.DataHora.nanos + duracao s.DuracaoMinutos) ∧
    (∀ b2 : Banco, b2.clientes = b.clientes → b2.servicos = b.servicos →
      b2.usuarios = b.usuarios →
      List.Forall₂ (fun m m2 => m2.MassoterapeutaID = m.MassoterapeutaID ∧
        m2.Status = m.Status ∧ m2.DataHora = m.DataHora) b.agendamentos b2.agendamentos →
      ((agendamentoService.Create b ag rand).2.2 = some .horarioOcupado ↔
        (agendamentoService.Create b2 ag rand).2.2 = some .horarioOcupado)) := by
  constructor
  · rw [create_ocupado_iff b ag rand s href hs]
    unfold fimDoSlot
    rw [hjanela, temConflito_filtro]
    simp only [List.any_eq_true, Bool.and_eq_true, decide_eq_true_eq, beq_iff_eq, bne_iff_ne,
      ne_eq]
    constructor
    · rintro ⟨m, hm, ⟨h1, h2⟩, h3, h4⟩
      exact ⟨m, hm, h3, h4, h1, h2⟩
    · rintro ⟨m, hm, h3, h4, h1, h2⟩
      exact ⟨m, hm, ⟨h1, h2⟩, h3, h4⟩
  · intro b2 hc2 hs2 hu2 hrows
    have href2 : referenciasValidas b2 ag = true := by
      unfold referenciasValidas Banco.buscaCliente Banco.buscaServico Banco.buscaUsuario at href ⊢
      rw [hc2, hs2, hu2]; exact href
    have hsb2 : b2.buscaServico ag.ServicoID = some s := by
      unfold Banco.buscaServico at hs ⊢
      rw [hs2]; exact hs
    have hf : ∀ b3 : Banco,
        temConflito
          (agendamentoRepository.FindByPeriodo b3 ag.DataHora (fimDoSlot ag.DataHora s)).2.1 ag =
            true ↔
        ∃ m ∈ b3.agendamentos, noPeriodo ag.DataHora (fimDoSlot ag.DataHora s) m = true ∧
          m.MassoterapeutaID = ag.MassoterapeutaID ∧ m.Status ≠ StatusCancelado := by
      intro b3
      have hl : (agendamentoRepository.FindByPeriodo b3 ag.DataHora
          (fimDoSlot ag.DataHora s)).2.1 =
          (b3.agendamentos.filter (noPeriodo ag.DataHora (fimDoSlot ag.DataHora s))).map
            AgendamentoModel.toEntity := rfl
      rw [hl, temConflito_filtro]
      simp only [List.any_eq_true, Bool.and_eq_true, beq_iff_eq, bne_iff_ne, ne_eq]
    rw [create_ocupado_iff b ag rand s href hs, create_ocupado_iff b2 ag rand s href2 hsb2,
      hf b, hf b2]
    refine forall₂_exists_transfer hrows ?_
    rintro m m2 ⟨h1, h2, h3⟩
    unfold noPeriodo
    rw [h1, h2, h3]

/-- C27, witness on the table that holds `A1` (10:00 UTC): for the request at 09:00 UTC the
period query returns the rows of the closed window of instants, and the request, whose window
ends at 10:00, is refused. -/
theorem c27_teste_de_conflito_implementado_witness :
    referenciasValidas bancoA1 (pedido 0 4 (hora 9 0)) = true ∧
    bancoA1.buscaServico (pedido 0 4 (hora 9 0)).ServicoID = some S ∧
    (agendamentoService.Create bancoA1 (pedido 0 4 (hora 9 0)) 1).2.2 = some .horarioOcupado :=
  ⟨by decide, by decide,
    (c27_teste_de_conflito_implementado bancoA1 (pedido 0 4 (hora 9 0)) 1 S (by decide)
      (by decide) (by decide)).1.mpr ⟨A1, by decide, by decide, by decide, by decide, by decide⟩⟩

/-- C28, evaluated. The four constants of `StatusAgendamento` have at most 20 characters, but
the marker that `SolicitarReagendamento` stores has 24, more than the size declared for column
`Status`; on the table that holds `A1`, the call for its client stores it. -/
theorem c28_marcador_maior_que_a_coluna :
    StatusAgendado.length ≤ AgendamentoModel.tamanhoStatus ∧
    StatusConfirmado.length ≤ AgendamentoModel.tamanhoStatus ∧
    StatusRealizado.length ≤ AgendamentoModel.tamanhoStatus ∧
    StatusCancelado.length ≤ AgendamentoModel.tamanhoStatus ∧
    (agendamentoService.SolicitarReagendamento bancoA1 10 3).2 = none ∧
    (agendamentoService.SolicitarReagendamento bancoA1 10 3).1.agendamentos.map
      (fun m => m.Status.length) = [24] ∧
    ¬ (24 ≤ AgendamentoModel.tamanhoStatus) := by
  decide

/-- C29, evaluated at its failing input. The users 5 and 6 both have role `cliente`; the call
`GetAgendamentosCliente(5, 6)` returns no error, queries the appointment table and returns the
appointment of user 5. -/
theorem c29_outro_cliente_tem_acesso :
    (bancoUsuarios.buscaUsuario 5).map (fun u => u.Perfil) = some PerfilCliente ∧
    (bancoUsuarios.buscaUsuario 6).map (fun u => u.Perfil) = some PerfilCliente ∧
    (usuarioService.GetAgendamentosCliente bancoUsuarios 5 6).2.2 = none ∧
    (usuarioService.GetAgendamentosCliente bancoUsuarios 5 6).2.1 =
      [{ A1 with ClienteID := 5 }.toEntity] ∧
    (usuarioService.GetAgendamentosCliente bancoUsuarios 5 6).1.log =
      [.selectUsuario 5, .selectUsuario 6, .selectAgendamentosCliente 5] ∧
    (usuarioService.GetAgendamentosCliente bancoUsuarios 2 6).2.2 = some .acessoNegado := by
  decide

/-- C30. For a registration request that passes the binding, when `GetAll` returns an error,
whatever list comes with it and whatever the state behind the service holds,
`AuthHandler.RegistrarAdmin` does not answer 403: the service receives, after `GetAll`, one call
of `Registrar` with the password of the request and a user of role admin, and the response is
201 or 400 by the outcome of that call. -/
theorem c30_falha_na_listagem {σ : Type} (svc : UsuarioService σ) (s s1 : σ)
    (usuarios : List Usuario) (err : String) (request : RegistroRequest)
    (hg : svc.GetAll s = (s1, usuarios, some err)) :
    (∃ usuario : Usuario, usuario.Perfil = PerfilAdmin ∧
      usuario.NomeCompleto = request.NomeCompleto ∧ usuario.Email = request.Email ∧
      (AuthHandler.RegistrarAdmin (espiaoUsuario svc) (s, []) (.ok request)).1.2 =
        [.getAll, .registrar usuario request.Senha]) ∧
    (AuthHandler.RegistrarAdmin (espiaoUsuario svc) (s, []) (.ok request)).2.codigo ≠
      http.StatusForbidden ∧
    ((AuthHandler.RegistrarAdmin (espiaoUsuario svc) (s, []) (.ok request)).2.codigo =
        http.StatusCreated ∨
      (AuthHandler.RegistrarAdmin (espiaoUsuario svc) (s, []) (.ok request)).2.codigo =
        http.StatusBadRequest) := by
  have hs : (espiaoUsuario svc).GetAll (s, []) = ((s1, [.getAll]), usuarios, some err) := by
    show (((svc.GetAll s).1, [] ++ [ChamadaUsuario.getAll]), (svc.GetAll s).2) = _
    rw [hg]; rfl
  have hr2 : ∀ u s2 u2 e, svc.Registrar s1 u request.Senha = (s2, u2, e) →
      (espiaoUsuario svc).Registrar (s1, [.getAll]) u request.Senha =
        ((s2, [.getAll, .registrar u request.Senha]), u2, e) := by
    intro u s2 u2 e h
    show (((svc.Registrar s1 u request.Senha).1, [ChamadaUsuario.getAll] ++ [.registrar u request.Senha]),
      (svc.Registrar s1 u request.Senha).2) = _
    rw [h]; rfl
  refine ⟨⟨⟨uuidNil, request.NomeCompleto, request.Email, "", request.Telefone, PerfilAdmin,
      false, timeZero⟩, rfl, rfl, rfl, ?_⟩, ?_, ?_⟩ <;>
  · unfold AuthHandler.RegistrarAdmin
    simp only [hs, Option.isNone_some, Bool.false_and, Bool.false_eq_true, if_false]
    generalize hr : svc.Registrar s1 _ request.Senha = r
    obtain ⟨s2, u2, e⟩ := r
    rw [hr2 _ _ _ _ hr]
    cases e <;> simp [http.StatusCreated, http.StatusBadRequest, http.StatusForbidden]

/-- C30, witness on the service whose listing fails while its state holds the administrator
`Adm`. -/
theorem c30_falha_na_listagem_witness :
    (∃ usuario : Usuario, usuario.Perfil = PerfilAdmin ∧
      usuario.NomeCompleto = registro.NomeCompleto ∧ usuario.Email = registro.Email ∧
      (AuthHandler.RegistrarAdmin (espiaoUsuario usuariosComFalha) ([P, Adm], [])
        (.ok registro)).1.2 = [.getAll, .registrar usuario registro.Senha]) ∧
    (AuthHandler.RegistrarAdmin (espiaoUsuario usuariosComFalha) ([P, Adm], [])
      (.ok registro)).2.codigo ≠ http.StatusForbidden ∧
    ((AuthHandler.RegistrarAdmin (espiaoUsuario usuariosComFalha) ([P, Adm], [])
        (.ok registro)).2.codigo = http.StatusCreated ∨
      (AuthHandler.RegistrarAdmin (espiaoUsuario usuariosComFalha) ([P, Adm], [])
        (.ok registro)).2.codigo = http.StatusBadRequest) :=
  c30_falha_na_listagem usuariosComFalha [P, Adm] [P, Adm] [] "erro ao listar usuários"
    registro rfl

end MartinezTerapias
